import Mathlib

/-! # Chunked batch mutation and reconciliation waiters

A shallow embedding of the chunked batch operations and of the `WaitFor...`
polling loops of `alicloud/service_alicloud_slb.go` and
`alicloud/service_alicloud_ons.go`.

* The remote control plane is an oracle indexed by the number of calls made so
  far: the k-th remote call of one run returns whatever the oracle says at `k`.
* Every run carries a ghost log of the calls it made, so that "how many calls,
  on what, in which order" are statements about a value.
* Helpers of the package that are declared in other files (`WrapError`,
  `NotFoundError`, `IsExceptedError`, the constants `Deleted`,
  `DefaultIntervalShort`, ...) are fields of the parameter `Pkg`.
-/

namespace Alicloud

/-! ## Package helpers declared outside the two files -/

/-- Helpers and constants of package `alicloud` that the two files use and do
not declare, together with `strings.ToLower`.  The error type `ε` stands for Go
values of type `error` that are not nil. -/
structure Pkg (ε : Type) where
  /-- `NotFoundError(err)` -/
  NotFoundError : ε → Bool
  /-- `IsExceptedError(err, expectCode)` -/
  IsExceptedError : ε → String → Bool
  /-- `IsExceptedErrors(err, expectCodes)` -/
  IsExceptedErrors : ε → List String → Bool
  /-- `WrapError(err)` at a non-nil `err` -/
  WrapError : ε → ε
  /-- `WrapErrorf(err, msg, args...)` at a non-nil `err`: cause, format, arguments -/
  WrapErrorf : ε → String → List String → ε
  /-- `fmt.Errorf(format, err)` with one error argument -/
  Errorf : String → ε → ε
  /-- `Error(msg)`, an error made from a message -/
  Error : String → ε
  /-- `strings.ToLower` -/
  ToLower : String → String
  /-- the constant `Deleted` of type `Status` -/
  Deleted : String
  /-- the constant `DefaultIntervalShort`, a number of seconds -/
  DefaultIntervalShort : Int
  /-- the error code `SlbAclEntryEmpty` -/
  SlbAclEntryEmpty : String
  /-- the error code `LoadBalancerNotFound` -/
  LoadBalancerNotFound : String
  /-- the format `DefaultErrorMsg` -/
  DefaultErrorMsg : String
  /-- the tag `AlibabaCloudSdkGoERROR` -/
  AlibabaCloudSdkGoERROR : String
  /-- the constant `Null` -/
  Null : String

/-! ## Chunked batch mutation -/

/-- `const max_num_per_time = 50` -/
def max_num_per_time : Nat := 50

/-- `const tags_max_num_per_time = 5` -/
def tags_max_num_per_time : Nat := 5

/-- `type Tag struct { Key, Value string }` (declared in another file of the package). -/
structure Tag where
  Key : String
  Value : String
  deriving DecidableEq, Repr

/-- One request sent to the SLB API: the action name, the target id and the
items of the request. -/
structure RemoteCall (α : Type) where
  action : String
  id : String
  items : List α
  deriving DecidableEq, Repr

/-- The SLB client as seen by the batch operations.
`marshal list` is the error of `json.Marshal(list)`, if any;
`call k req` is the error returned by the k-th remote call of the run when it
sends `req` (`none` is a nil error). -/
structure SlbClient (α ε : Type) where
  marshal : List α → Option ε
  call : Nat → RemoteCall α → Option ε

/-- Ghost state of one batch run: the per-chunk invocations made so far, each
with the slice it received and the error it returned, and the requests sent to
the remote API so far. -/
structure BatchRun (α ε : Type) where
  invoked : List (List α × Option ε)
  remote : List (RemoteCall α)

/-- The run in which nothing has happened yet. -/
def BatchRun.init {α ε : Type} : BatchRun α ε := ⟨[], []⟩

/-- The slices the per-chunk operation has received, in call order. -/
def BatchRun.chunks {α ε : Type} (r : BatchRun α ε) : List (List α) :=
  r.invoked.map Prod.fst

/-- `s.client.WithSlbClient(... slbClient.<action>(request))`: send one request;
the oracle is asked at the number of requests sent before. -/
def SlbClient.send {α ε : Type} (cl : SlbClient α ε) (req : RemoteCall α)
    (r : BatchRun α ε) : BatchRun α ε × Option ε :=
  (⟨r.invoked, r.remote ++ [req]⟩, cl.call r.remote.length req)

/-- `slbRemoveAccessControlListEntryPerTime(list, id)` -/
def slbRemoveAccessControlListEntryPerTime {α ε : Type} (K : Pkg ε) (cl : SlbClient α ε)
    (list : List α) (id : String) (r : BatchRun α ε) : BatchRun α ε × Option ε :=
  match cl.marshal list with
  | some err => (r, some (K.WrapError err))
  | none =>
    match cl.send ⟨"RemoveAccessControlListEntry", id, list⟩ r with
    | (r1, some err) =>
      if !K.IsExceptedError err K.SlbAclEntryEmpty then
        (r1, some (K.WrapErrorf err K.DefaultErrorMsg
          [id, "RemoveAccessControlListEntry", K.AlibabaCloudSdkGoERROR]))
      else (r1, none)
    | (r1, none) => (r1, none)

/-- `slbAddAccessControlListEntryPerTime(list, id)` -/
def slbAddAccessControlListEntryPerTime {α ε : Type} (K : Pkg ε) (cl : SlbClient α ε)
    (list : List α) (id : String) (r : BatchRun α ε) : BatchRun α ε × Option ε :=
  match cl.marshal list with
  | some err => (r, some (K.WrapError err))
  | none =>
    match cl.send ⟨"AddAccessControlListEntry", id, list⟩ r with
    | (r1, some err) =>
      (r1, some (K.WrapErrorf err K.DefaultErrorMsg
        [id, "AddAccessControlListEntry", K.AlibabaCloudSdkGoERROR]))
    | (r1, none) => (r1, none)

/-- `slbAddTagsPerTime(tags, loadBalancerId)`; `toSlbTagsString` drops the
error of `json.Marshal`, so there is no marshalling failure here. -/
def slbAddTagsPerTime {ε : Type} (K : Pkg ε) (cl : SlbClient Tag ε)
    (tags : List Tag) (loadBalancerId : String) (r : BatchRun Tag ε) :
    BatchRun Tag ε × Option ε :=
  match cl.send ⟨"AddTags", loadBalancerId, tags⟩ r with
  | (r1, some error) => (r1, some (K.Errorf "AddTags got an error: %#v" error))
  | (r1, none) => (r1, none)

/-- `slbRemoveTagsPerTime(tags, loadBalancerId)` -/
def slbRemoveTagsPerTime {ε : Type} (K : Pkg ε) (cl : SlbClient Tag ε)
    (tags : List Tag) (loadBalancerId : String) (r : BatchRun Tag ε) :
    BatchRun Tag ε × Option ε :=
  match cl.send ⟨"RemoveTags", loadBalancerId, tags⟩ r with
  | (r1, some error) => (r1, some (K.Errorf "RemoveTags got an error: %#v" error))
  | (r1, none) => (r1, none)

/-- Go's `list[start:end]` for `start ≤ end ≤ len(list)`. -/
def goSlice {α : Type} (list : List α) (start stop : Nat) : List α :=
  (list.drop start).take (stop - start)

/-- The loop `for i := 0; i < t; i++ { ... }` shared, word for word, by the four
batch operations; `k` is the constant of the operation and `perTime` its
per-chunk function.  `rem` is the number of iterations left, `t - i`.
Lengths of Go slices are far below `2^63 - 50`, so the `int` arithmetic of the
source does not overflow and is arithmetic on natural numbers. -/
def chunkLoop {α ε : Type} (k : Nat)
    (perTime : List α → BatchRun α ε → BatchRun α ε × Option ε)
    (list : List α) (num : Nat) : (rem i : Nat) → BatchRun α ε → BatchRun α ε × Option ε
  | 0, _, r => (r, none)
  | rem + 1, i, r =>
    let start := i * k
    let stop := if (i + 1) * k > num then num else (i + 1) * k
    let slice := goSlice list start stop
    match perTime slice r with
    | (r1, some err) => (⟨r1.invoked ++ [(slice, some err)], r1.remote⟩, some err)
    | (r1, none) =>
      chunkLoop k perTime list num rem (i + 1) ⟨r1.invoked ++ [(slice, none)], r1.remote⟩

/-- The body shared by the four batch operations: the empty-input return, the
number of chunks `t` and the loop. -/
def applyInChunks {α ε : Type} (k : Nat)
    (perTime : List α → BatchRun α ε → BatchRun α ε × Option ε)
    (list : List α) : BatchRun α ε × Option ε :=
  let num := list.length
  if num ≤ 0 then (BatchRun.init, none)
  else
    let t := (num + k - 1) / k
    chunkLoop k perTime list num t 0 BatchRun.init

/-- `SlbRemoveAccessControlListEntry(list, aclId)` -/
def SlbRemoveAccessControlListEntry {α ε : Type} (K : Pkg ε) (cl : SlbClient α ε)
    (list : List α) (aclId : String) : BatchRun α ε × Option ε :=
  applyInChunks max_num_per_time
    (fun slice => slbRemoveAccessControlListEntryPerTime K cl slice aclId) list

/-- `SlbAddAccessControlListEntry(list, aclId)` -/
def SlbAddAccessControlListEntry {α ε : Type} (K : Pkg ε) (cl : SlbClient α ε)
    (list : List α) (aclId : String) : BatchRun α ε × Option ε :=
  applyInChunks max_num_per_time
    (fun slice => slbAddAccessControlListEntryPerTime K cl slice aclId) list

/-- `slbAddTags(tags, loadBalancderId)` -/
def slbAddTags {ε : Type} (K : Pkg ε) (cl : SlbClient Tag ε)
    (tags : List Tag) (loadBalancderId : String) : BatchRun Tag ε × Option ε :=
  applyInChunks tags_max_num_per_time
    (fun slice => slbAddTagsPerTime K cl slice loadBalancderId) tags

/-- `slbRemoveTags(tags, loadBalancderId)` -/
def slbRemoveTags {ε : Type} (K : Pkg ε) (cl : SlbClient Tag ε)
    (tags : List Tag) (loadBalancderId : String) : BatchRun Tag ε × Option ε :=
  applyInChunks tags_max_num_per_time
    (fun slice => slbRemoveTagsPerTime K cl slice loadBalancderId) tags

/-! ## Reconciliation waiters -/

/-- `time.Second`, a `time.Duration`: nanoseconds. -/
def Second : Int := 1000000000

/-- The value of an `int64` computation whose exact result is `x`. -/
def wrapInt64 (x : Int) : Int := (x + 2 ^ 63) % 2 ^ 64 - 2 ^ 63

/-- `time.Duration(timeout) * time.Second`, a product of two `int64`. -/
def timeoutDuration (timeout : Int) : Int := wrapInt64 (timeout * Second)

/-- What a waiter does to the outside world, in order.
`check now deadline` is one evaluation of `time.Now().After(deadline)`. -/
inductive Event where
  | describe
  | sleep (d : Int)
  | check (now deadline : Int)
  deriving DecidableEq, Repr

/-- How a waiter ends.
`success` is `return nil`, `failure e` is `return WrapError(err)` (or the error of
`ParseResourceId`), `timeout cause observed expected` is
`return WrapErrorf(err, WaitTimeoutMsg, id, GetFunc(1), timeout, observed, expected, ProviderERROR)`
where `cause` is `err` (possibly nil), and `crash` is a run-time panic (a nil
pointer dereference or a failed type assertion). -/
inductive Outcome (ε : Type) where
  | success
  | failure (err : ε)
  | timeout (cause : Option ε) (observed expected : String)
  | crash
  deriving DecidableEq, Repr

/-- The remote side as seen by one wait: `describe k` is the pair returned by
the k-th Describe call of the wait (the error is `none` when nil), `now k` is
the k-th reading of `time.Now()`, in nanoseconds; reading 0 is the one at entry. -/
structure Remote (R ε : Type) where
  describe : Nat → R × Option ε
  now : Nat → Int

/-- Ghost state of one wait: the number of Describe calls made, the number of
clock readings made, and the events so far. -/
structure WaitRun where
  describes : Nat
  clock : Nat
  trace : List Event
  deriving DecidableEq, Repr

/-- The state just after `deadline := time.Now().Add(...)`. -/
def WaitRun.init : WaitRun := ⟨0, 1, []⟩

/-- One Describe call. -/
def Remote.doDescribe {R ε : Type} (env : Remote R ε) (r : WaitRun) :
    WaitRun × R × Option ε :=
  (⟨r.describes + 1, r.clock, r.trace ++ [Event.describe]⟩, env.describe r.describes)

/-- `time.Sleep(d)` -/
def WaitRun.doSleep (d : Int) (r : WaitRun) : WaitRun :=
  ⟨r.describes, r.clock, r.trace ++ [Event.sleep d]⟩

/-- `time.Now().After(deadline)` -/
def Remote.after {R ε : Type} (env : Remote R ε) (deadline : Int) (r : WaitRun) :
    WaitRun × Bool :=
  (⟨r.describes, r.clock + 1, r.trace ++ [Event.check (env.now r.clock) deadline]⟩,
    decide (env.now r.clock > deadline))

/-- `deadline := time.Now().Add(time.Duration(timeout) * time.Second)` -/
def deadlineAt {R ε : Type} (env : Remote R ε) (timeout : Int) : Int :=
  env.now 0 + timeoutDuration timeout

/-- The loop `for { ... }` (and `RETRY: ... goto RETRY`): `poll` is one pass of
the body, which either ends the wait with an outcome or falls through to the
next pass.  The loop itself is unbounded; `fuel` bounds the number of passes
and `none` means that the fuel ran out. -/
def pollLoop {ε : Type} (poll : WaitRun → WaitRun × Option (Outcome ε)) :
    Nat → WaitRun → Option (WaitRun × Outcome ε)
  | 0, _ => none
  | fuel + 1, r =>
    match poll r with
    | (r1, some o) => some (r1, o)
    | (r1, none) => pollLoop poll fuel r1

/-- The number of Describe calls in a trace. -/
def describeCount (tr : List Event) : Nat :=
  (tr.filter (fun e => e = Event.describe)).length

/-- The sleeps of a trace, in order. -/
def sleepsOf : List Event → List Int
  | [] => []
  | Event.sleep d :: tr => d :: sleepsOf tr
  | _ :: tr => sleepsOf tr

/-- The deadlines used by the deadline checks of a trace, in order. -/
def deadlinesOf : List Event → List Int
  | [] => []
  | Event.check _ dl :: tr => dl :: deadlinesOf tr
  | _ :: tr => deadlinesOf tr

/-! ### Describe results (the fields the waiters read) -/

/-- `ons.InstanceBaseInfo` -/
structure InstanceBaseInfo where
  InstanceId : String
  deriving DecidableEq, Repr

/-- `ons.OnsInstanceBaseInfoResponse` -/
structure OnsInstanceBaseInfoResponse where
  InstanceBaseInfo : InstanceBaseInfo
  deriving DecidableEq, Repr

/-- `ons.PublishInfoDo` -/
structure PublishInfoDo where
  InstanceId : String
  Topic : String
  deriving DecidableEq, Repr

/-- `ons.SubscribeInfoDo` -/
structure SubscribeInfoDo where
  InstanceId : String
  GroupId : String
  deriving DecidableEq, Repr

/-- `slb.DescribeAccessControlListAttributeResponse` -/
structure DescribeAccessControlListAttributeResponse where
  AclId : String
  deriving DecidableEq, Repr

/-- `slb.BackendServer` -/
structure BackendServer where
  ServerId : String
  deriving DecidableEq, Repr

/-- `slb.DescribeLoadBalancerAttributeResponse`; `BackendServers` is the slice
`BackendServers.BackendServer`. -/
structure DescribeLoadBalancerAttributeResponse where
  LoadBalancerId : String
  LoadBalancerStatus : String
  BackendServers : List BackendServer
  deriving DecidableEq, Repr

/-- `slb.DescribeRuleAttributeResponse` -/
structure DescribeRuleAttributeResponse where
  RuleId : String
  deriving DecidableEq, Repr

/-- `slb.DescribeVServerGroupAttributeResponse` -/
structure DescribeVServerGroupAttributeResponse where
  VServerGroupId : String
  deriving DecidableEq, Repr

/-- `slb.CACertificate` -/
structure CACertificate where
  CACertificateId : String
  deriving DecidableEq, Repr

/-- `slb.ServerCertificate` -/
structure ServerCertificate where
  ServerCertificateId : String
  deriving DecidableEq, Repr

/-- A value of a `map[string]interface{}` filled by `json.Unmarshal`: a string,
or anything else (nil, number, bool, array, object). -/
inductive JsonValue where
  | str (s : String)
  | other
  deriving DecidableEq, Repr

/-- The listener returned by `DescribeSlbListener`, a `map[string]interface{}`;
the nil map is the empty list. -/
abbrev Listener := List (String × JsonValue)

/-! ### The waiters of `service_alicloud_slb.go` -/

/-- One pass of the loop of `WaitForSlbAcl`. -/
def WaitForSlbAcl.poll {ε : Type} (K : Pkg ε)
    (env : Remote (Option DescribeAccessControlListAttributeResponse) ε)
    (id status : String) (deadline : Int) (r : WaitRun) : WaitRun × Option (Outcome ε) :=
  match env.doDescribe r with
  | (r1, _, none) => (r1, some Outcome.success)
  | (r1, object, some err) =>
    if K.NotFoundError err then
      if status = K.Deleted then (r1, some Outcome.success)
      else
        let r2 := r1.doSleep (K.DefaultIntervalShort * Second)
        match env.after deadline r2 with
        | (r3, true) =>
          match object with
          | none => (r3, some Outcome.crash)
          | some o => (r3, some (Outcome.timeout (some err) o.AclId id))
        | (r3, false) => (r3, none)
    else (r1, some (Outcome.failure (K.WrapError err)))

/-- `WaitForSlbAcl(id, status, timeout)` -/
def WaitForSlbAcl {ε : Type} (K : Pkg ε)
    (env : Remote (Option DescribeAccessControlListAttributeResponse) ε)
    (id status : String) (timeout : Int) (fuel : Nat) : Option (WaitRun × Outcome ε) :=
  let deadline := deadlineAt env timeout
  pollLoop (WaitForSlbAcl.poll K env id status deadline) fuel WaitRun.init

/-- One pass of the loop of `WaitForSlb`; `break` is followed by `return nil`. -/
def WaitForSlb.poll {ε : Type} (K : Pkg ε)
    (env : Remote (Option DescribeLoadBalancerAttributeResponse) ε)
    (status : String) (deadline : Int) (r : WaitRun) : WaitRun × Option (Outcome ε) :=
  match env.doDescribe r with
  | (r1, _, some err) =>
    if K.NotFoundError err && status = K.Deleted then (r1, some Outcome.success)
    else (r1, some (Outcome.failure (K.WrapError err)))
  | (r1, none, none) => (r1, some Outcome.crash)
  | (r1, some object, none) =>
    if K.ToLower object.LoadBalancerStatus = K.ToLower status then (r1, some Outcome.success)
    else
      match env.after deadline r1 with
      | (r2, true) => (r2, some (Outcome.timeout none object.LoadBalancerStatus status))
      | (r2, false) => (r2.doSleep (K.DefaultIntervalShort * Second), none)

/-- `WaitForSlb(id, status, timeout)` -/
def WaitForSlb {ε : Type} (K : Pkg ε)
    (env : Remote (Option DescribeLoadBalancerAttributeResponse) ε)
    (id status : String) (timeout : Int) (fuel : Nat) : Option (WaitRun × Outcome ε) :=
  let _ := id
  let deadline := deadlineAt env timeout
  pollLoop (WaitForSlb.poll K env status deadline) fuel WaitRun.init

/-- The lines `gotStatus := ""; if value, ok := object["Status"]; ok
{ gotStatus = strings.ToLower(value.(string)) }` of `WaitForSlbListener`;
`value.(string)` panics on a value that is not a string, which is `none`. -/
def WaitForSlbListener.gotStatus {ε : Type} (K : Pkg ε) (object : Listener) :
    Option String :=
  match object.lookup "Status" with
  | some (JsonValue.str value) => some (K.ToLower value)
  | some JsonValue.other => none
  | none => some ""

/-- One pass of the loop of `WaitForSlbListener`.  The first `if` is entered
only by an error that does not match `LoadBalancerNotFound`. -/
def WaitForSlbListener.poll {ε : Type} (K : Pkg ε) (env : Remote Listener ε)
    (status : String) (deadline : Int) (r : WaitRun) : WaitRun × Option (Outcome ε) :=
  match env.doDescribe r with
  | (r1, object, err) =>
    let entered : Option ε :=
      match err with
      | some e => if !K.IsExceptedErrors e [K.LoadBalancerNotFound] then some e else none
      | none => none
    match entered with
    | some e =>
      if K.NotFoundError e && status = K.Deleted then (r1, some Outcome.success)
      else (r1, some (Outcome.failure (K.WrapError e)))
    | none =>
      match WaitForSlbListener.gotStatus K object with
      | none => (r1, some Outcome.crash)
      | some gotStatus =>
        if gotStatus = K.ToLower status then (r1, some Outcome.success)
        else
          match env.after deadline r1 with
          | (r2, true) => (r2, some (Outcome.timeout err gotStatus status))
          | (r2, false) => (r2.doSleep (K.DefaultIntervalShort * Second), none)

/-- `WaitForSlbListener(id, protocol, status, timeout)` -/
def WaitForSlbListener {ε : Type} (K : Pkg ε) (env : Remote Listener ε)
    (id protocol status : String) (timeout : Int) (fuel : Nat) :
    Option (WaitRun × Outcome ε) :=
  let _ := (id, protocol)
  let deadline := deadlineAt env timeout
  pollLoop (WaitForSlbListener.poll K env status deadline) fuel WaitRun.init

/-- One pass of the loop of `WaitForSlbRule`. -/
def WaitForSlbRule.poll {ε : Type} (K : Pkg ε)
    (env : Remote (Option DescribeRuleAttributeResponse) ε)
    (id status : String) (deadline : Int) (r : WaitRun) : WaitRun × Option (Outcome ε) :=
  match env.doDescribe r with
  | (r1, _, some err) =>
    if K.NotFoundError err && status = K.Deleted then (r1, some Outcome.success)
    else (r1, some (Outcome.failure (K.WrapError err)))
  | (r1, none, none) => (r1, some Outcome.crash)
  | (r1, some object, none) =>
    if object.RuleId = id ∧ status ≠ K.Deleted then (r1, some Outcome.success)
    else
      match env.after deadline r1 with
      | (r2, true) => (r2, some (Outcome.timeout none "" id))
      | (r2, false) => (r2.doSleep (K.DefaultIntervalShort * Second), none)

/-- `WaitForSlbRule(id, status, timeout)` -/
def WaitForSlbRule {ε : Type} (K : Pkg ε)
    (env : Remote (Option DescribeRuleAttributeResponse) ε)
    (id status : String) (timeout : Int) (fuel : Nat) : Option (WaitRun × Outcome ε) :=
  let deadline := deadlineAt env timeout
  pollLoop (WaitForSlbRule.poll K env id status deadline) fuel WaitRun.init

/-- One pass of the loop of `WaitForSlbServerGroup`. -/
def WaitForSlbServerGroup.poll {ε : Type} (K : Pkg ε)
    (env : Remote (Option DescribeVServerGroupAttributeResponse) ε)
    (id status : String) (deadline : Int) (r : WaitRun) : WaitRun × Option (Outcome ε) :=
  match env.doDescribe r with
  | (r1, _, some err) =>
    if K.NotFoundError err && status = K.Deleted then (r1, some Outcome.success)
    else (r1, some (Outcome.failure (K.WrapError err)))
  | (r1, none, none) => (r1, some Outcome.crash)
  | (r1, some object, none) =>
    if object.VServerGroupId = id then (r1, some Outcome.success)
    else
      match env.after deadline r1 with
      | (r2, true) => (r2, some (Outcome.timeout none object.VServerGroupId id))
      | (r2, false) => (r2.doSleep (K.DefaultIntervalShort * Second), none)

/-- `WaitForSlbServerGroup(id, status, timeout)` -/
def WaitForSlbServerGroup {ε : Type} (K : Pkg ε)
    (env : Remote (Option DescribeVServerGroupAttributeResponse) ε)
    (id status : String) (timeout : Int) (fuel : Nat) : Option (WaitRun × Outcome ε) :=
  let deadline := deadlineAt env timeout
  pollLoop (WaitForSlbServerGroup.poll K env id status deadline) fuel WaitRun.init

/-- `*schema.Set` of the Terraform SDK (`helper/schema`, outside the repository),
as far as `Contains` goes: the hash function `F` the set was made with, and the
items that were added to it.  The set files an item under the key
`hash(item)`. -/
structure SchemaSet where
  F : String → Int
  added : List String

/-- `(*Set).hash`: `code := s.F(item); if code < 0 { code = -code }`, the key
being `strconv.Itoa(code)`; two keys are equal when the codes are. -/
def SchemaSet.hash (s : SchemaSet) (item : String) : Int :=
  if s.F item < 0 then wrapInt64 (-(s.F item)) else s.F item

/-- `(*Set).Contains`: `_, ok := s.m[s.hash(item)]`: some item was added under
the key of `item`. -/
def SchemaSet.Contains (s : SchemaSet) (item : String) : Bool :=
  s.added.any (fun x => decide (s.hash x = s.hash item))

/-- One pass from the label `RETRY` of `WaitSlbAttribute`; `instanceSet` is
the `*schema.Set` of instance ids and `goto RETRY` is the next pass. -/
def WaitSlbAttribute.poll {ε : Type} (K : Pkg ε)
    (env : Remote (Option DescribeLoadBalancerAttributeResponse) ε)
    (id : String) (instanceSet : SchemaSet) (deadline : Int) (r : WaitRun) :
    WaitRun × Option (Outcome ε) :=
  match env.doDescribe r with
  | (r1, _, some err) =>
    if K.NotFoundError err then (r1, some Outcome.success)
    else (r1, some (Outcome.failure (K.WrapError err)))
  | (r1, object, none) =>
    match env.after deadline r1 with
    | (r2, true) => (r2, some (Outcome.timeout none K.Null id))
    | (r2, false) =>
      match object with
      | none => (r2, some Outcome.crash)
      | some o =>
        let servers := o.BackendServers
        if servers.any (fun s => instanceSet.Contains s.ServerId) then (r2, none)
        else (r2, some Outcome.success)

/-- `WaitSlbAttribute(id, instanceSet, timeout)` -/
def WaitSlbAttribute {ε : Type} (K : Pkg ε)
    (env : Remote (Option DescribeLoadBalancerAttributeResponse) ε)
    (id : String) (instanceSet : SchemaSet) (timeout : Int) (fuel : Nat) :
    Option (WaitRun × Outcome ε) :=
  let deadline := deadlineAt env timeout
  pollLoop (WaitSlbAttribute.poll K env id instanceSet deadline) fuel WaitRun.init

/-- One pass of the loop of `WaitForSlbCACertificate`; the loop does not sleep. -/
def WaitForSlbCACertificate.poll {ε : Type} (K : Pkg ε)
    (env : Remote (Option CACertificate) ε)
    (id status : String) (deadline : Int) (r : WaitRun) : WaitRun × Option (Outcome ε) :=
  match env.doDescribe r with
  | (r1, _, none) => (r1, some Outcome.success)
  | (r1, object, some err) =>
    if K.NotFoundError err then
      if status = K.Deleted then (r1, some Outcome.success)
      else
        match env.after deadline r1 with
        | (r2, true) =>
          match object with
          | none => (r2, some Outcome.crash)
          | some o => (r2, some (Outcome.timeout (some err) o.CACertificateId id))
        | (r2, false) => (r2, none)
    else (r1, some (Outcome.failure (K.WrapError err)))

/-- `WaitForSlbCACertificate(id, status, timeout)` -/
def WaitForSlbCACertificate {ε : Type} (K : Pkg ε)
    (env : Remote (Option CACertificate) ε)
    (id status : String) (timeout : Int) (fuel : Nat) : Option (WaitRun × Outcome ε) :=
  let deadline := deadlineAt env timeout
  pollLoop (WaitForSlbCACertificate.poll K env id status deadline) fuel WaitRun.init

/-- One pass of the loop of `WaitForSlbServerCertificate`; the loop does not
sleep, and a not-found error with another target falls through to
`object.ServerCertificateId`. -/
def WaitForSlbServerCertificate.poll {ε : Type} (K : Pkg ε)
    (env : Remote (Option ServerCertificate) ε)
    (id status : String) (deadline : Int) (r : WaitRun) : WaitRun × Option (Outcome ε) :=
  match env.doDescribe r with
  | (r1, object, err) =>
    let early : Option (Outcome ε) :=
      match err with
      | some e =>
        if K.NotFoundError e then
          if status = K.Deleted then some Outcome.success else none
        else some (Outcome.failure (K.WrapError e))
      | none => none
    match early with
    | some o => (r1, some o)
    | none =>
      match object with
      | none => (r1, some Outcome.crash)
      | some o =>
        if o.ServerCertificateId = id then (r1, some Outcome.success)
        else
          match env.after deadline r1 with
          | (r2, true) => (r2, some (Outcome.timeout err o.ServerCertificateId id))
          | (r2, false) => (r2, none)

/-- `WaitForSlbServerCertificate(id, status, timeout)` -/
def WaitForSlbServerCertificate {ε : Type} (K : Pkg ε)
    (env : Remote (Option ServerCertificate) ε)
    (id status : String) (timeout : Int) (fuel : Nat) : Option (WaitRun × Outcome ε) :=
  let deadline := deadlineAt env timeout
  pollLoop (WaitForSlbServerCertificate.poll K env id status deadline) fuel WaitRun.init

/-! ### The waiters of `service_alicloud_ons.go` -/

/-- Split a string at every colon. -/
def splitAtColons : List Char → List (List Char)
  | [] => [[]]
  | c :: cs =>
    match splitAtColons cs with
    | [] => [[]]
    | part :: parts => if c = ':' then [] :: part :: parts else (c :: part) :: parts

/-- Modelled from the spec: `ParseResourceId(id, length)` is declared in a file
of the package that is not among the sources.  The spec: a composite id "is
a delimiter-joined tuple (e.g. `parentId:childId`) that must be parsed into
exactly N parts or rejected as malformed".  The result is the Go pair
`(parts, err)`. -/
def ParseResourceId {ε : Type} (K : Pkg ε) (id : String) (length : Nat) :
    List String × Option ε :=
  let parts := (splitAtColons id.data).map String.mk
  if parts.length = length then (parts, none)
  else (parts, some (K.WrapError (K.Error "Invalid Resource Id")))

/-- One pass of the loop of `WaitForOnsInstance`; a not-found error with
another target falls through to `response.InstanceBaseInfo.InstanceId`. -/
def WaitForOnsInstance.poll {ε : Type} (K : Pkg ε)
    (env : Remote (Option OnsInstanceBaseInfoResponse) ε)
    (id status : String) (deadline : Int) (r : WaitRun) : WaitRun × Option (Outcome ε) :=
  match env.doDescribe r with
  | (r1, response, err) =>
    let early : Option (Outcome ε) :=
      match err with
      | some e =>
        if K.NotFoundError e then
          if status = K.Deleted then some Outcome.success else none
        else some (Outcome.failure (K.WrapError e))
      | none => none
    match early with
    | some o => (r1, some o)
    | none =>
      match response with
      | none => (r1, some Outcome.crash)
      | some resp =>
        if resp.InstanceBaseInfo.InstanceId = id ∧ status ≠ K.Deleted then
          (r1, some Outcome.success)
        else
          match env.after deadline r1 with
          | (r2, true) =>
            (r2, some (Outcome.timeout err resp.InstanceBaseInfo.InstanceId id))
          | (r2, false) => (r2.doSleep (K.DefaultIntervalShort * Second), none)

/-- `WaitForOnsInstance(id, status, timeout)` -/
def WaitForOnsInstance {ε : Type} (K : Pkg ε)
    (env : Remote (Option OnsInstanceBaseInfoResponse) ε)
    (id status : String) (timeout : Int) (fuel : Nat) : Option (WaitRun × Outcome ε) :=
  let deadline := deadlineAt env timeout
  pollLoop (WaitForOnsInstance.poll K env id status deadline) fuel WaitRun.init

/-- One pass of the loop of `WaitForOnsTopic`; `instanceId` and `topic` are the
two parts of the id, read before the loop. -/
def WaitForOnsTopic.poll {ε : Type} (K : Pkg ε) (env : Remote (Option PublishInfoDo) ε)
    (id status instanceId topic : String) (deadline : Int) (r : WaitRun) :
    WaitRun × Option (Outcome ε) :=
  match env.doDescribe r with
  | (r1, response, err) =>
    let early : Option (Outcome ε) :=
      match err with
      | some e =>
        if K.NotFoundError e then
          if status = K.Deleted then some Outcome.success else none
        else some (Outcome.failure (K.WrapError e))
      | none => none
    match early with
    | some o => (r1, some o)
    | none =>
      match response with
      | none => (r1, some Outcome.crash)
      | some resp =>
        if resp.InstanceId ++ ":" ++ resp.Topic = id ∧ status ≠ K.Deleted then
          (r1, some Outcome.success)
        else
          match env.after deadline r1 with
          | (r2, true) => (r2, some (Outcome.timeout err (instanceId ++ ":" ++ topic) id))
          | (r2, false) => (r2.doSleep (K.DefaultIntervalShort * Second), none)

/-- `WaitForOnsTopic(id, status, timeout)`; the deadline is taken before the id
is parsed, and `parts[0]`, `parts[1]` panic on a shorter slice. -/
def WaitForOnsTopic {ε : Type} (K : Pkg ε) (env : Remote (Option PublishInfoDo) ε)
    (id status : String) (timeout : Int) (fuel : Nat) : Option (WaitRun × Outcome ε) :=
  let deadline := deadlineAt env timeout
  match ParseResourceId K id 2 with
  | (_, some err) => some (WaitRun.init, Outcome.failure (K.WrapError err))
  | (instanceId :: topic :: _, none) =>
    pollLoop (WaitForOnsTopic.poll K env id status instanceId topic deadline) fuel WaitRun.init
  | (_, none) => some (WaitRun.init, Outcome.crash)

/-- One pass of the loop of `WaitForOnsGroup`. -/
def WaitForOnsGroup.poll {ε : Type} (K : Pkg ε) (env : Remote (Option SubscribeInfoDo) ε)
    (id status : String) (deadline : Int) (r : WaitRun) : WaitRun × Option (Outcome ε) :=
  match env.doDescribe r with
  | (r1, response, err) =>
    let early : Option (Outcome ε) :=
      match err with
      | some e =>
        if K.NotFoundError e then
          if status = K.Deleted then some Outcome.success else none
        else some (Outcome.failure (K.WrapError e))
      | none => none
    match early with
    | some o => (r1, some o)
    | none =>
      match response with
      | none => (r1, some Outcome.crash)
      | some resp =>
        if resp.InstanceId ++ ":" ++ resp.GroupId = id ∧ status ≠ K.Deleted then
          (r1, some Outcome.success)
        else
          match env.after deadline r1 with
          | (r2, true) =>
            (r2, some (Outcome.timeout err (resp.InstanceId ++ ":" ++ resp.GroupId) id))
          | (r2, false) => (r2.doSleep (K.DefaultIntervalShort * Second), none)

/-- `WaitForOnsGroup(id, status, timeout)` -/
def WaitForOnsGroup {ε : Type} (K : Pkg ε) (env : Remote (Option SubscribeInfoDo) ε)
    (id status : String) (timeout : Int) (fuel : Nat) : Option (WaitRun × Outcome ε) :=
  let deadline := deadlineAt env timeout
  pollLoop (WaitForOnsGroup.poll K env id status deadline) fuel WaitRun.init

/-! ### A sample instance of the package helpers, for concrete runs -/

/-- A sample error value: a remote error with a code, and whether the error
carries the not-found wrapper of the package. -/
structure SampleErr where
  code : String
  notFound : Bool
  deriving DecidableEq, Repr

/-- Lower-casing of ASCII letters, character by character. -/
def asciiLower (s : String) : String := String.mk (s.data.map Char.toLower)

/-- A sample `Pkg`: an error is not-found when it carries the wrapper, it
matches a code when its code is that code, wrapping keeps the error, and the
short interval is 5 seconds. -/
def samplePkg : Pkg SampleErr where
  NotFoundError := fun e => e.notFound
  IsExceptedError := fun e c => decide (e.code = c)
  IsExceptedErrors := fun e cs => cs.any (fun c => decide (e.code = c))
  WrapError := fun e => e
  WrapErrorf := fun e _ _ => e
  Errorf := fun _ e => e
  Error := fun msg => ⟨msg, false⟩
  ToLower := asciiLower
  Deleted := "Deleted"
  DefaultIntervalShort := 5
  SlbAclEntryEmpty := "AclEntryEmpty"
  LoadBalancerNotFound := "InvalidLoadBalancerId.NotFound"
  DefaultErrorMsg := "Resource %s %s Failed!!! %s"
  AlibabaCloudSdkGoERROR := "[SDK alibaba-cloud-sdk-go ERROR]"
  Null := ""

/-! ### Vocabulary of the statements -/

/-- The j-th chunk of size `k` of a list: the `k` items from position `j * k`
on, fewer when the list ends before. -/
def chunkAt {α : Type} (k : Nat) (list : List α) (j : Nat) : List α :=
  (list.drop (j * k)).take k

/-- The number of chunks and their sizes, for `n` items cut into chunks of `k`:
there are `ceil(n / k)` chunks, each of `k` items except the last, which has
`n mod k` items, or `k` when `k` divides `n`. -/
def ChunkShape {α : Type} (k n : Nat) (chunks : List (List α)) : Prop :=
  chunks.length = n / k + (if n % k = 0 then 0 else 1) ∧
  ∀ (j : Nat) (h : j < chunks.length),
    (chunks.get ⟨j, h⟩).length =
      if j + 1 < chunks.length then k else if n % k = 0 then k else n % k

/-- What a per-chunk function may do to the run: it leaves the log of
invocations alone, it sends at most one request, the request of `action` to `id`
with exactly the slice it received, and it sends it whenever it returns no error. -/
structure PerTimeSpec {α ε : Type} (action id : String)
    (perTime : List α → BatchRun α ε → BatchRun α ε × Option ε) : Prop where
  invoked : ∀ s r, (perTime s r).1.invoked = r.invoked
  remote : ∀ s r, (perTime s r).1.remote = r.remote ∨
    (perTime s r).1.remote = r.remote ++ [⟨action, id, s⟩]
  sent : ∀ s r, (perTime s r).2 = none →
    (perTime s r).1.remote = r.remote ++ [⟨action, id, s⟩]

/-- A sample client on which every request succeeds. -/
def sampleClientOk (α : Type) : SlbClient α SampleErr := ⟨fun _ => none, fun _ _ => none⟩

/-- Seven sample tags `k0 = v`, ..., `k6 = v`. -/
def sampleTags : List Tag := (List.range 7).map (fun i => ⟨"k" ++ toString i, "v"⟩)

/-- Twelve sample tags `t0 = v`, ..., `t11 = v`. -/
def sampleTags12 : List Tag := (List.range 12).map (fun i => ⟨"t" ++ toString i, "v"⟩)

/-- A sample client whose request number `n` (from 0) fails with `e`, every other
request succeeding. -/
def sampleClientFailAt (α : Type) (n : Nat) (e : SampleErr) : SlbClient α SampleErr :=
  ⟨fun _ => none, fun k _ => if k = n then some e else none⟩

/-- A sample remote error that is neither not-found nor one of the codes the
source tests for. -/
def sampleThrottled : SampleErr := ⟨"Throttling", false⟩

/-- A sample remote error carrying the code `SlbAclEntryEmpty` of `samplePkg`. -/
def sampleEntryEmpty : SampleErr := ⟨"AclEntryEmpty", false⟩

/-- A sample clock: reading number `k` is `6 * k` seconds. -/
def sampleClock (k : Nat) : Int := 6 * k * Second

/-- A sample remote side on which every Describe call returns the same pair. -/
def sampleRemoteConst (R : Type) (x : R × Option SampleErr) : Remote R SampleErr :=
  ⟨fun _ => x, sampleClock⟩

/-- A sample not-found error. -/
def sampleNotFound : SampleErr := ⟨"NotFound", true⟩

/-- A sample remote error with the code `LoadBalancerNotFound` of `samplePkg`,
not carrying the not-found wrapper. -/
def sampleLbNotFound : SampleErr := ⟨"InvalidLoadBalancerId.NotFound", false⟩

/-- A sample remote error with the code `LoadBalancerNotFound` of `samplePkg`
that carries the not-found wrapper. -/
def sampleLbNotFoundWrapped : SampleErr := ⟨"InvalidLoadBalancerId.NotFound", true⟩

/-- The wait made one Describe call, nothing else, and ended with `o`. -/
def EndsAfterOneDescribe {ε : Type} (res : Option (WaitRun × Outcome ε)) (o : Outcome ε) :
    Prop :=
  res = some (⟨1, 1, [Event.describe]⟩, o)

/-- The events of `j` passes that each call Describe, check the deadline and
sleep for `d`: the check of pass `i` (from 0) is clock reading `i + 1`. -/
def fullPasses {R ε : Type} (env : Remote R ε) (deadline d : Int) : Nat → List Event
  | 0 => []
  | j + 1 => fullPasses env deadline d j ++
      [Event.describe, Event.check (env.now (j + 1)) deadline, Event.sleep d]

/-- The ghost state after `j` such passes. -/
def afterPasses {R ε : Type} (env : Remote R ε) (deadline d : Int) (j : Nat) : WaitRun :=
  ⟨j, j + 1, fullPasses env deadline d j⟩

/-- The deadline check of poll `p` (from 0) is the first that finds the clock
after `deadline`. -/
def ClockPassesAt {R ε : Type} (env : Remote R ε) (deadline : Int) (p : Nat) : Prop :=
  (∀ j, j < p → env.now (j + 1) ≤ deadline) ∧ env.now (p + 1) > deadline

/-- The wait ended in a timeout error at its poll `p` (from 0), without polling
again: `p + 1` Describe calls, `p` sleeps of `d` each, and `p + 1` deadline
checks, every one against the same `deadline`. -/
def TimedOutAt {ε : Type} (res : Option (WaitRun × Outcome ε)) (p : Nat) (d deadline : Int) :
    Prop :=
  ∃ r cause observed expected,
    res = some (r, Outcome.timeout cause observed expected) ∧
    r.describes = p + 1 ∧ describeCount r.trace = p + 1 ∧
    sleepsOf r.trace = List.replicate p d ∧
    deadlinesOf r.trace = List.replicate (p + 1) deadline

/-- A sample load balancer whose status stays `inactive`. -/
def sampleSlbInactive : DescribeLoadBalancerAttributeResponse := ⟨"lb-1", "inactive", []⟩

/-- A sample listener whose `Status` entry stays `stopped`. -/
def sampleListenerStopped : Listener :=
  [("ListenerPort", JsonValue.other), ("Status", JsonValue.str "stopped")]

/-- The scenario of the spec: the load balancer `lb-123` is described as
`pending`, `pending` and then `active`; the clock is the sample clock. -/
def scenarioRemote : Remote (Option DescribeLoadBalancerAttributeResponse) SampleErr :=
  ⟨fun k => if k < 2 then (some ⟨"lb-123", "pending", []⟩, none)
      else (some ⟨"lb-123", "active", []⟩, none),
    sampleClock⟩

/-- A sample load balancer whose status is written `Active`. -/
def sampleSlbActive : DescribeLoadBalancerAttributeResponse := ⟨"lb-1", "Active", []⟩

/-- A sample listener whose `Status` entry is written `Running`. -/
def sampleListenerRunning : Listener :=
  [("ListenerPort", JsonValue.other), ("Status", JsonValue.str "Running")]

/-- The pass `res`, started in the state `before`, does not end the wait with
success: while the deadline has not passed (`¬ late`) it ends nothing, so the
loop polls again, and it has slept once, for `d`; once the deadline has passed
it ends the wait with the timeout error. -/
def KeepsPolling {ε : Type} (before : WaitRun) (res : WaitRun × Option (Outcome ε))
    (late : Prop) (d : Int) : Prop :=
  res.2 ≠ some Outcome.success ∧
  (¬ late → res.2 = none ∧ sleepsOf res.1.trace = sleepsOf before.trace ++ [d]) ∧
  (late → ∃ cause observed expected, res.2 = some (Outcome.timeout cause observed expected))

/-- A sample load balancer to which the instance `i-1` is still attached. -/
def sampleSlbAttached : DescribeLoadBalancerAttributeResponse :=
  ⟨"lb-1", "active", [⟨"i-1"⟩, ⟨"i-2"⟩]⟩

/-- A sample load balancer to which only the instance `i-2` is attached. -/
def sampleSlbDetached : DescribeLoadBalancerAttributeResponse :=
  ⟨"lb-1", "active", [⟨"i-2"⟩]⟩

/-- One step of the bitwise CRC-32 (reflected polynomial `0xEDB88320`). -/
def crc32Shift (crc : Nat) : Nat :=
  if crc % 2 = 1 then (crc / 2) ^^^ 0xEDB88320 else crc / 2

/-- CRC-32 update with one byte. -/
def crc32Byte (crc b : Nat) : Nat :=
  crc32Shift (crc32Shift (crc32Shift (crc32Shift (crc32Shift (crc32Shift
    (crc32Shift (crc32Shift (crc ^^^ b))))))))

/-- CRC-32 (IEEE) of a list of bytes. -/
def crc32 (bytes : List Nat) : Nat :=
  (bytes.foldl crc32Byte 0xFFFFFFFF) ^^^ 0xFFFFFFFF

/-- A sample hash function for sets of strings: the CRC-32 of the string, which
is what `schema.HashString` of the SDK computes; the bytes of a string are taken
to be its character codes, which they are for ASCII strings. -/
def sampleHashString (s : String) : Int := (crc32 (s.data.map Char.toNat) : Nat)

/-- A sample set of strings, hashed by `sampleHashString`. -/
def sampleSet (items : List String) : SchemaSet := ⟨sampleHashString, items⟩

/-- A sample load balancer to which only the instance `plumless` is attached. -/
def sampleSlbPlumless : DescribeLoadBalancerAttributeResponse :=
  ⟨"lb-1", "active", [⟨"plumless"⟩]⟩

/-! # Theorems -/

/-! ## Chunked batch mutation -/

theorem goSlice_eq_chunkAt {α : Type} (k : Nat) (list : List α) (j : Nat) :
    goSlice list (j * k) (if (j + 1) * k > list.length then list.length else (j + 1) * k)
      = chunkAt k list j := by
  unfold goSlice chunkAt
  by_cases h : (j + 1) * k > list.length
  · rw [if_pos h]
    apply List.take_eq_take.mpr
    simp only [List.length_drop]
    have : (j + 1) * k = j * k + k := by ring
    omega
  · rw [if_neg h]
    have : (j + 1) * k - j * k = k := by
      have : (j + 1) * k = j * k + k := by ring
      omega
    rw [this]

/-- What the loop leaves in the log: it appends the entries `L`, one per pass,
whose slices are the chunks `i, i+1, ...`; every entry but a failing last one
carries no error. -/
theorem chunkLoop_log {α ε : Type} (k : Nat)
    (perTime : List α → BatchRun α ε → BatchRun α ε × Option ε)
    (hinv : ∀ s r, (perTime s r).1.invoked = r.invoked) (list : List α) :
    ∀ (rem i : Nat) (r : BatchRun α ε), ∃ L : List (List α × Option ε),
      (chunkLoop k perTime list list.length rem i r).1.invoked = r.invoked ++ L ∧
      L.map Prod.fst = (List.range' i L.length).map (chunkAt k list) ∧
      L.length ≤ rem ∧
      ((chunkLoop k perTime list list.length rem i r).2 = none →
        L.length = rem ∧ ∀ x ∈ L, x.2 = none) ∧
      (∀ e, (chunkLoop k perTime list list.length rem i r).2 = some e →
        ∃ L0 c, L = L0 ++ [(c, some e)] ∧ ∀ x ∈ L0, x.2 = none) := by
  intro rem
  induction rem with
  | zero =>
    intro i r
    refine ⟨[], ?_, ?_, ?_, ?_, ?_⟩ <;> simp [chunkLoop]
  | succ rem ih =>
    intro i r
    have hs := goSlice_eq_chunkAt k list i
    have hi := hinv (chunkAt k list i) r
    cases hpt : perTime (chunkAt k list i) r with
    | mk r1 res =>
      rw [hpt] at hi
      simp only at hi
      cases res with
      | some err =>
        refine ⟨[(chunkAt k list i, some err)], ?_, ?_, ?_, ?_, ?_⟩
        · simp [chunkLoop, hs, hpt, hi]
        · simp [List.range']
        · simp
        · simp [chunkLoop, hs, hpt]
        · intro e he
          refine ⟨[], chunkAt k list i, ?_, ?_⟩
          · simp [chunkLoop, hs, hpt] at he
            simp [he]
          · simp
      | none =>
        obtain ⟨L, h1, h2, h3, h4, h5⟩ :=
          ih (i + 1) ⟨r1.invoked ++ [(chunkAt k list i, none)], r1.remote⟩
        have hrun : chunkLoop k perTime list list.length (rem + 1) i r
            = chunkLoop k perTime list list.length rem (i + 1)
                ⟨r1.invoked ++ [(chunkAt k list i, none)], r1.remote⟩ := by
          simp [chunkLoop, hs, hpt]
        refine ⟨(chunkAt k list i, none) :: L, ?_, ?_, ?_, ?_, ?_⟩
        · rw [hrun, h1, hi]; simp
        · simp [List.range', h2]
        · simp; omega
        · intro hn
          rw [hrun] at hn
          obtain ⟨ha, hb⟩ := h4 hn
          refine ⟨by simp [ha], ?_⟩
          intro x hx
          rcases List.mem_cons.mp hx with rfl | hx
          · rfl
          · exact hb x hx
        · intro e he
          rw [hrun] at he
          obtain ⟨L0, c, ha, hb⟩ := h5 e he
          refine ⟨(chunkAt k list i, none) :: L0, c, by simp [ha], ?_⟩
          intro x hx
          rcases List.mem_cons.mp hx with rfl | hx
          · rfl
          · exact hb x hx

theorem chunkAt_length {α : Type} (k : Nat) (list : List α) (j : Nat) :
    (chunkAt k list j).length = min k (list.length - j * k) := by
  simp [chunkAt, List.length_take, List.length_drop]

/-- The first `ceil(n / k)` chunks have the sizes the contract gives, for the two
chunk sizes of the source. -/
theorem chunkShape_of_chunks {α : Type} (k : Nat) (hk : k = 50 ∨ k = 5) (list : List α)
    (hne : list ≠ []) (chunks : List (List α))
    (hc : chunks = (List.range' 0 ((list.length + k - 1) / k)).map (chunkAt k list)) :
    ChunkShape k list.length chunks := by
  have hpos : 0 < list.length := List.length_pos.mpr hne
  have hlen : chunks.length = (list.length + k - 1) / k := by simp [hc]
  refine ⟨?_, ?_⟩
  · rw [hlen]
    rcases hk with rfl | rfl <;> split <;> omega
  · intro j h
    have hj : chunks.get ⟨j, h⟩ = chunkAt k list j := by
      subst hc
      simp [List.getElem_range']
    rw [hj, chunkAt_length, hlen]
    rw [hlen] at h
    rcases hk with rfl | rfl
    · split
      · omega
      · split <;> omega
    · split
      · omega
      · split <;> omega

/-- The chunks `0, 1, ..., ceil(n / k) - 1` concatenate to the list. -/
theorem join_chunks {α : Type} (k : Nat) (list : List α) :
    ∀ (t i : Nat), list.length ≤ (i + t) * k →
      ((List.range' i t).map (chunkAt k list)).flatten = list.drop (i * k) := by
  intro t
  induction t with
  | zero =>
    intro i h
    simp only [List.range', List.map_nil, List.flatten_nil]
    exact (List.drop_eq_nil_of_le (by simpa using h)).symm
  | succ t ih =>
    intro i h
    have h2 : list.length ≤ (i + 1 + t) * k := by
      have : i + 1 + t = i + (t + 1) := by omega
      rw [this]; exact h
    have hdrop : list.drop ((i + 1) * k) = (list.drop (i * k)).drop k := by
      rw [List.drop_drop]
      congr 1
      ring
    simp only [List.range', List.map_cons, List.flatten_cons]
    rw [ih (i + 1) h2, hdrop]
    exact List.take_append_drop k (list.drop (i * k))

theorem slbRemoveAccessControlListEntryPerTime_spec {α ε : Type} (K : Pkg ε)
    (cl : SlbClient α ε) (id : String) :
    PerTimeSpec "RemoveAccessControlListEntry" id
      (fun s => slbRemoveAccessControlListEntryPerTime K cl s id) := by
  refine ⟨?_, ?_, ?_⟩ <;> intro s r <;>
    simp only [slbRemoveAccessControlListEntryPerTime, SlbClient.send] <;>
    cases cl.marshal s <;> simp <;>
    cases cl.call r.remote.length ⟨"RemoveAccessControlListEntry", id, s⟩ <;> simp <;>
    split <;> simp

theorem slbAddAccessControlListEntryPerTime_spec {α ε : Type} (K : Pkg ε)
    (cl : SlbClient α ε) (id : String) :
    PerTimeSpec "AddAccessControlListEntry" id
      (fun s => slbAddAccessControlListEntryPerTime K cl s id) := by
  refine ⟨?_, ?_, ?_⟩ <;> intro s r <;>
    simp only [slbAddAccessControlListEntryPerTime, SlbClient.send] <;>
    cases cl.marshal s <;> simp <;>
    cases cl.call r.remote.length ⟨"AddAccessControlListEntry", id, s⟩ <;> simp

theorem slbAddTagsPerTime_spec {ε : Type} (K : Pkg ε) (cl : SlbClient Tag ε) (id : String) :
    PerTimeSpec "AddTags" id (fun s => slbAddTagsPerTime K cl s id) := by
  refine ⟨?_, ?_, ?_⟩ <;> intro s r <;>
    simp only [slbAddTagsPerTime, SlbClient.send] <;>
    cases cl.call r.remote.length ⟨"AddTags", id, s⟩ <;> simp

theorem slbRemoveTagsPerTime_spec {ε : Type} (K : Pkg ε) (cl : SlbClient Tag ε)
    (id : String) :
    PerTimeSpec "RemoveTags" id (fun s => slbRemoveTagsPerTime K cl s id) := by
  refine ⟨?_, ?_, ?_⟩ <;> intro s r <;>
    simp only [slbRemoveTagsPerTime, SlbClient.send] <;>
    cases cl.call r.remote.length ⟨"RemoveTags", id, s⟩ <;> simp

/-- What the loop sends: the requests for the chunks `i, i+1, ...`, one per pass
and in order; only a failing last pass may have sent nothing. -/
theorem chunkLoop_remote {α ε : Type} (k : Nat) (action id : String)
    (perTime : List α → BatchRun α ε → BatchRun α ε × Option ε)
    (hp : PerTimeSpec action id perTime) (list : List α) :
    ∀ (rem i : Nat) (r : BatchRun α ε), ∃ m : Nat,
      (chunkLoop k perTime list list.length rem i r).1.remote
        = r.remote ++ (List.range' i m).map (fun j => ⟨action, id, chunkAt k list j⟩) ∧
      r.invoked.length + m ≤ (chunkLoop k perTime list list.length rem i r).1.invoked.length ∧
      (chunkLoop k perTime list list.length rem i r).1.invoked.length
        ≤ r.invoked.length + m + 1 := by
  intro rem
  induction rem with
  | zero =>
    intro i r
    exact ⟨0, by simp [chunkLoop], by simp [chunkLoop], by simp [chunkLoop]⟩
  | succ rem ih =>
    intro i r
    have hs := goSlice_eq_chunkAt k list i
    have hi := hp.invoked (chunkAt k list i) r
    have hr := hp.remote (chunkAt k list i) r
    have hn := hp.sent (chunkAt k list i) r
    cases hpt : perTime (chunkAt k list i) r with
    | mk r1 res =>
      rw [hpt] at hi hr hn
      simp only at hi hr hn
      cases res with
      | some err =>
        have hrun : chunkLoop k perTime list list.length (rem + 1) i r
            = (⟨r1.invoked ++ [(chunkAt k list i, some err)], r1.remote⟩, some err) := by
          simp [chunkLoop, hs, hpt]
        rcases hr with hr | hr
        · exact ⟨0, by simp [hrun, hr], by simp [hrun, hi], by simp [hrun, hi]⟩
        · exact ⟨1, by simp [hrun, hr, List.range'], by simp [hrun, hi],
            by simp [hrun, hi]⟩
      | none =>
        have hrun : chunkLoop k perTime list list.length (rem + 1) i r
            = chunkLoop k perTime list list.length rem (i + 1)
                ⟨r1.invoked ++ [(chunkAt k list i, none)], r1.remote⟩ := by
          simp [chunkLoop, hs, hpt]
        obtain ⟨m, h1, h2, h3⟩ :=
          ih (i + 1) ⟨r1.invoked ++ [(chunkAt k list i, none)], r1.remote⟩
        have hlen : r1.invoked.length = r.invoked.length := by rw [hi]
        refine ⟨m + 1, ?_, ?_, ?_⟩
        · rw [hrun, h1]
          simp [hn rfl, List.range'_succ]
        · rw [hrun]
          simp only [List.length_append, List.length_singleton] at h2
          omega
        · rw [hrun]
          simp only [List.length_append, List.length_singleton] at h3
          omega

/-- The log of a whole batch operation: the slices are the chunks `0, 1, ...` in
order; when no logged invocation returned an error the operation returns no
error and has gone through all `ceil(n / k)` chunks; an error returned by the
operation is the error of the last logged invocation, and no earlier one failed. -/
theorem applyInChunks_log {α ε : Type} (k : Nat)
    (perTime : List α → BatchRun α ε → BatchRun α ε × Option ε)
    (hinv : ∀ s r, (perTime s r).1.invoked = r.invoked) (list : List α) :
    (applyInChunks k perTime list).1.chunks
      = (List.range' 0 (applyInChunks k perTime list).1.invoked.length).map (chunkAt k list) ∧
    ((∀ x ∈ (applyInChunks k perTime list).1.invoked, x.2 = none) →
      (applyInChunks k perTime list).2 = none ∧
      (list ≠ [] →
        (applyInChunks k perTime list).1.invoked.length = (list.length + k - 1) / k)) ∧
    (list = [] → applyInChunks k perTime list = (BatchRun.init, none)) ∧
    ((applyInChunks k perTime list).2 = none →
      ∀ x ∈ (applyInChunks k perTime list).1.invoked, x.2 = none) ∧
    (∀ e, (applyInChunks k perTime list).2 = some e →
      ∃ L0 c, (applyInChunks k perTime list).1.invoked = L0 ++ [(c, some e)] ∧
        ∀ x ∈ L0, x.2 = none) := by
  by_cases hl : list = []
  · subst hl
    simp [applyInChunks, BatchRun.init, BatchRun.chunks]
  · have hpos : ¬ list.length ≤ 0 := by
      have := List.length_pos.mpr hl
      omega
    have hrun : applyInChunks k perTime list
        = chunkLoop k perTime list list.length ((list.length + k - 1) / k) 0 BatchRun.init := by
      simp only [applyInChunks, if_neg hpos]
    obtain ⟨L, h1, h2, h3, h4, h5⟩ :=
      chunkLoop_log k perTime hinv list ((list.length + k - 1) / k) 0 BatchRun.init
    rw [← hrun] at h1 h4 h5
    have hL : (applyInChunks k perTime list).1.invoked = L := by
      rw [h1]; simp [BatchRun.init]
    refine ⟨?_, ?_, ?_, ?_, ?_⟩
    · simp only [BatchRun.chunks, hL]
      exact h2
    · intro hall
      rw [hL] at hall
      have hnone : (applyInChunks k perTime list).2 = none := by
        cases hres : (applyInChunks k perTime list).2 with
        | none => rfl
        | some e =>
          obtain ⟨L0, c, ha, _⟩ := h5 e hres
          have := hall (c, some e) (by rw [ha]; simp)
          simp at this
      refine ⟨hnone, fun _ => ?_⟩
      rw [hL]
      exact (h4 hnone).1
    · intro h
      exact absurd h hl
    · intro hn
      rw [hL]
      exact (h4 hn).2
    · intro e he
      rw [hL]
      exact h5 e he

/-- When no logged invocation failed, the slices have the contract's count and
sizes and concatenate to the input. -/
theorem applyInChunks_complete {α ε : Type} (k : Nat) (hk : k = 50 ∨ k = 5)
    (perTime : List α → BatchRun α ε → BatchRun α ε × Option ε)
    (hinv : ∀ s r, (perTime s r).1.invoked = r.invoked) (list : List α)
    (hall : ∀ x ∈ (applyInChunks k perTime list).1.invoked, x.2 = none) :
    (list ≠ [] → ChunkShape k list.length (applyInChunks k perTime list).1.chunks) ∧
    (applyInChunks k perTime list).1.chunks.flatten = list ∧
    ((applyInChunks k perTime list).1.chunks.map List.length).sum = list.length := by
  obtain ⟨h1, h2, h3, _, _⟩ := applyInChunks_log k perTime hinv list
  obtain ⟨_, hlen⟩ := h2 hall
  have hflat : (applyInChunks k perTime list).1.chunks.flatten = list := by
    by_cases hl : list = []
    · rw [h3 hl, hl]; rfl
    · rw [h1, hlen hl, join_chunks k list _ 0 ?_]
      · simp
      · rcases hk with rfl | rfl <;> omega
  refine ⟨?_, hflat, ?_⟩
  · intro hl
    apply chunkShape_of_chunks k hk list hl
    rw [h1, hlen hl]
  · rw [← List.length_flatten, hflat]

/-- A loop that returns no error has sent one request per pass, for the chunks
`i, ..., i + rem - 1` in order, each with exactly the items of its chunk. -/
theorem chunkLoop_sent {α ε : Type} (k : Nat) (action id : String)
    (perTime : List α → BatchRun α ε → BatchRun α ε × Option ε)
    (hp : PerTimeSpec action id perTime) (list : List α) :
    ∀ (rem i : Nat) (r : BatchRun α ε),
      (chunkLoop k perTime list list.length rem i r).2 = none →
      (chunkLoop k perTime list list.length rem i r).1.remote
        = r.remote ++ (List.range' i rem).map (fun j => ⟨action, id, chunkAt k list j⟩) := by
  intro rem
  induction rem with
  | zero => intro i r _; simp [chunkLoop]
  | succ rem ih =>
    intro i r hres
    have hs := goSlice_eq_chunkAt k list i
    have hn := hp.sent (chunkAt k list i) r
    cases hpt : perTime (chunkAt k list i) r with
    | mk r1 res =>
      rw [hpt] at hn
      simp only at hn
      cases res with
      | some err =>
        simp [chunkLoop, hs, hpt] at hres
      | none =>
        have hrun : chunkLoop k perTime list list.length (rem + 1) i r
            = chunkLoop k perTime list list.length rem (i + 1)
                ⟨r1.invoked ++ [(chunkAt k list i, none)], r1.remote⟩ := by
          simp [chunkLoop, hs, hpt]
        rw [hrun] at hres ⊢
        rw [ih (i + 1) _ hres]
        simp [hn rfl, List.range'_succ]

/-- A batch operation that returns no error has sent exactly one request per
slice it logged, in order, each request carrying the items of its slice. -/
theorem applyInChunks_sent {α ε : Type} (k : Nat) (action id : String)
    (perTime : List α → BatchRun α ε → BatchRun α ε × Option ε)
    (hp : PerTimeSpec action id perTime) (list : List α)
    (hres : (applyInChunks k perTime list).2 = none) :
    (applyInChunks k perTime list).1.remote
      = (applyInChunks k perTime list).1.chunks.map (fun c => ⟨action, id, c⟩) ∧
    ∀ x ∈ (applyInChunks k perTime list).1.invoked, x.2 = none := by
  obtain ⟨h1, h2, h3, h4, _⟩ := applyInChunks_log k perTime hp.invoked list
  have hall := h4 hres
  refine ⟨?_, hall⟩
  by_cases hl : list = []
  · rw [h3 hl]; rfl
  · have hlen := (h2 hall).2 hl
    have hpos : ¬ list.length ≤ 0 := by
      have := List.length_pos.mpr hl
      omega
    have hrun : applyInChunks k perTime list
        = chunkLoop k perTime list list.length ((list.length + k - 1) / k) 0 BatchRun.init := by
      simp only [applyInChunks, if_neg hpos]
    have hsent := chunkLoop_sent k action id perTime hp list
      ((list.length + k - 1) / k) 0 BatchRun.init (by rw [← hrun]; exact hres)
    rw [← hrun] at hsent
    rw [hsent, h1, hlen]
    simp [BatchRun.init]

/-- C1: for a non-empty list of n items, when no per-chunk call fails (the
operation returns no error), `SlbAddAccessControlListEntry` and
`SlbRemoveAccessControlListEntry` (k = 50) and `slbAddTags` and `slbRemoveTags`
(k = 5) invoke their per-chunk operation ceil(n/k) times: the requests that
reach the remote API are exactly one per invocation, each carrying the slice
the invocation received; every slice but the last has k items and the last has
n mod k items, or k items when k divides n. -/
theorem batch_chunk_count_and_sizes {α ε : Type} (K : Pkg ε) (cl : SlbClient α ε)
    (clT : SlbClient Tag ε) (list : List α) (tags : List Tag) (aclId lbId : String) :
    (list ≠ [] → (SlbAddAccessControlListEntry K cl list aclId).2 = none →
      (SlbAddAccessControlListEntry K cl list aclId).1.remote
        = (SlbAddAccessControlListEntry K cl list aclId).1.chunks.map (fun c => ⟨"AddAccessControlListEntry", aclId, c⟩) ∧
      ChunkShape max_num_per_time list.length (SlbAddAccessControlListEntry K cl list aclId).1.chunks) ∧
    (list ≠ [] → (SlbRemoveAccessControlListEntry K cl list aclId).2 = none →
      (SlbRemoveAccessControlListEntry K cl list aclId).1.remote
        = (SlbRemoveAccessControlListEntry K cl list aclId).1.chunks.map (fun c => ⟨"RemoveAccessControlListEntry", aclId, c⟩) ∧
      ChunkShape max_num_per_time list.length (SlbRemoveAccessControlListEntry K cl list aclId).1.chunks) ∧
    (tags ≠ [] → (slbAddTags K clT tags lbId).2 = none →
      (slbAddTags K clT tags lbId).1.remote
        = (slbAddTags K clT tags lbId).1.chunks.map (fun c => ⟨"AddTags", lbId, c⟩) ∧
      ChunkShape tags_max_num_per_time tags.length (slbAddTags K clT tags lbId).1.chunks) ∧
    (tags ≠ [] → (slbRemoveTags K clT tags lbId).2 = none →
      (slbRemoveTags K clT tags lbId).1.remote
        = (slbRemoveTags K clT tags lbId).1.chunks.map (fun c => ⟨"RemoveTags", lbId, c⟩) ∧
      ChunkShape tags_max_num_per_time tags.length (slbRemoveTags K clT tags lbId).1.chunks) := by
  refine ⟨fun hne hres => ?_, fun hne hres => ?_, fun hne hres => ?_, fun hne hres => ?_⟩
  · have hs := applyInChunks_sent 50 _ _ _ (slbAddAccessControlListEntryPerTime_spec K cl aclId) list hres
    exact ⟨hs.1, (applyInChunks_complete 50 (Or.inl rfl) _ (slbAddAccessControlListEntryPerTime_spec K cl aclId).invoked list hs.2).1 hne⟩
  · have hs := applyInChunks_sent 50 _ _ _ (slbRemoveAccessControlListEntryPerTime_spec K cl aclId) list hres
    exact ⟨hs.1, (applyInChunks_complete 50 (Or.inl rfl) _ (slbRemoveAccessControlListEntryPerTime_spec K cl aclId).invoked list hs.2).1 hne⟩
  · have hs := applyInChunks_sent 5 _ _ _ (slbAddTagsPerTime_spec K clT lbId) tags hres
    exact ⟨hs.1, (applyInChunks_complete 5 (Or.inr rfl) _ (slbAddTagsPerTime_spec K clT lbId).invoked tags hs.2).1 hne⟩
  · have hs := applyInChunks_sent 5 _ _ _ (slbRemoveTagsPerTime_spec K clT lbId) tags hres
    exact ⟨hs.1, (applyInChunks_complete 5 (Or.inr rfl) _ (slbRemoveTagsPerTime_spec K clT lbId).invoked tags hs.2).1 hne⟩

set_option maxRecDepth 8000 in
/-- C1 at 120 access-control entries and 7 tags, every request succeeding:
the hypotheses hold, and the remote API receives three requests of 50, 50 and
20 entries, and two requests of 5 and 2 tags. -/
theorem batch_chunk_count_and_sizes_witness :
    ((List.range 120) ≠ [] ∧ (SlbAddAccessControlListEntry samplePkg (sampleClientOk Nat) (List.range 120) "acl-1").2 = none ∧
      ((SlbAddAccessControlListEntry samplePkg (sampleClientOk Nat) (List.range 120) "acl-1").1.remote
          = (SlbAddAccessControlListEntry samplePkg (sampleClientOk Nat) (List.range 120) "acl-1").1.chunks.map (fun c => ⟨"AddAccessControlListEntry", "acl-1", c⟩) ∧
        ChunkShape max_num_per_time (List.range 120).length (SlbAddAccessControlListEntry samplePkg (sampleClientOk Nat) (List.range 120) "acl-1").1.chunks) ∧
      (SlbAddAccessControlListEntry samplePkg (sampleClientOk Nat) (List.range 120) "acl-1").1.remote.map (fun c => c.items.length) = [50, 50, 20]) ∧
    ((List.range 120) ≠ [] ∧ (SlbRemoveAccessControlListEntry samplePkg (sampleClientOk Nat) (List.range 120) "acl-1").2 = none ∧
      ((SlbRemoveAccessControlListEntry samplePkg (sampleClientOk Nat) (List.range 120) "acl-1").1.remote
          = (SlbRemoveAccessControlListEntry samplePkg (sampleClientOk Nat) (List.range 120) "acl-1").1.chunks.map (fun c => ⟨"RemoveAccessControlListEntry", "acl-1", c⟩) ∧
        ChunkShape max_num_per_time (List.range 120).length (SlbRemoveAccessControlListEntry samplePkg (sampleClientOk Nat) (List.range 120) "acl-1").1.chunks) ∧
      (SlbRemoveAccessControlListEntry samplePkg (sampleClientOk Nat) (List.range 120) "acl-1").1.remote.map (fun c => c.items.length) = [50, 50, 20]) ∧
    (sampleTags ≠ [] ∧ (slbAddTags samplePkg (sampleClientOk Tag) sampleTags "lb-1").2 = none ∧
      ((slbAddTags samplePkg (sampleClientOk Tag) sampleTags "lb-1").1.remote
          = (slbAddTags samplePkg (sampleClientOk Tag) sampleTags "lb-1").1.chunks.map (fun c => ⟨"AddTags", "lb-1", c⟩) ∧
        ChunkShape tags_max_num_per_time sampleTags.length (slbAddTags samplePkg (sampleClientOk Tag) sampleTags "lb-1").1.chunks) ∧
      (slbAddTags samplePkg (sampleClientOk Tag) sampleTags "lb-1").1.remote.map (fun c => c.items.length) = [5, 2]) ∧
    (sampleTags ≠ [] ∧ (slbRemoveTags samplePkg (sampleClientOk Tag) sampleTags "lb-1").2 = none ∧
      ((slbRemoveTags samplePkg (sampleClientOk Tag) sampleTags "lb-1").1.remote
          = (slbRemoveTags samplePkg (sampleClientOk Tag) sampleTags "lb-1").1.chunks.map (fun c => ⟨"RemoveTags", "lb-1", c⟩) ∧
        ChunkShape tags_max_num_per_time sampleTags.length (slbRemoveTags samplePkg (sampleClientOk Tag) sampleTags "lb-1").1.chunks) ∧
      (slbRemoveTags samplePkg (sampleClientOk Tag) sampleTags "lb-1").1.remote.map (fun c => c.items.length) = [5, 2]) :=
  have h := batch_chunk_count_and_sizes samplePkg (sampleClientOk Nat) (sampleClientOk Tag)
    (List.range 120) sampleTags "acl-1" "lb-1"
  ⟨⟨by decide, by decide, h.1 (by decide) (by decide), by decide⟩,
   ⟨by decide, by decide, h.2.1 (by decide) (by decide), by decide⟩,
   ⟨by decide, by decide, h.2.2.1 (by decide) (by decide), by decide⟩,
   ⟨by decide, by decide, h.2.2.2 (by decide) (by decide), by decide⟩⟩

/-- The requests of a whole batch operation: the requests of `action` to `id` for
the chunks `0, ..., m - 1`, where `m` is the number of logged invocations, or one
less. -/
theorem applyInChunks_remote {α ε : Type} (k : Nat) (action id : String)
    (perTime : List α → BatchRun α ε → BatchRun α ε × Option ε)
    (hp : PerTimeSpec action id perTime) (list : List α) :
    ∃ m : Nat,
      (applyInChunks k perTime list).1.remote
        = (List.range m).map (fun j => ⟨action, id, chunkAt k list j⟩) ∧
      m ≤ (applyInChunks k perTime list).1.invoked.length ∧
      (applyInChunks k perTime list).1.invoked.length ≤ m + 1 := by
  by_cases hl : list.length ≤ 0
  · exact ⟨0, by simp [applyInChunks, hl, BatchRun.init],
      by simp [applyInChunks, hl, BatchRun.init], by simp [applyInChunks, hl, BatchRun.init]⟩
  · obtain ⟨m, h1, h2, h3⟩ :=
      chunkLoop_remote k action id perTime hp list ((list.length + k - 1) / k) 0 BatchRun.init
    refine ⟨m, ?_, ?_, ?_⟩
    · simp only [applyInChunks, if_neg hl]
      rw [h1, List.range_eq_range']
      simp [BatchRun.init]
    · simp only [applyInChunks, if_neg hl]
      simpa [BatchRun.init] using h2
    · simp only [applyInChunks, if_neg hl]
      simpa [BatchRun.init] using h3

/-- A logged invocation that returned an error is the last one: the operation
returns that error, the slices are the chunks `0, ..., i`, and the requests sent
are the operation's own requests for chunks `0, ..., m - 1` with `m ≤ i + 1`. -/
theorem applyInChunks_abort {α ε : Type} (k : Nat) (action id : String)
    (perTime : List α → BatchRun α ε → BatchRun α ε × Option ε)
    (hp : PerTimeSpec action id perTime) (list : List α) (i : Nat) (c : List α) (e : ε)
    (hfail : (applyInChunks k perTime list).1.invoked[i]? = some (c, some e)) :
    (applyInChunks k perTime list).2 = some e ∧
    (applyInChunks k perTime list).1.chunks = (List.range (i + 1)).map (chunkAt k list) ∧
    ∃ m, m ≤ i + 1 ∧
      (applyInChunks k perTime list).1.remote
        = (List.range m).map (fun j => ⟨action, id, chunkAt k list j⟩) := by
  obtain ⟨h1, _, _, h4, h5⟩ := applyInChunks_log k perTime hp.invoked list
  have hmem : (c, some e) ∈ (applyInChunks k perTime list).1.invoked :=
    List.getElem?_mem hfail
  cases hres : (applyInChunks k perTime list).2 with
  | none =>
    have := h4 hres (c, some e) hmem
    simp at this
  | some e1 =>
    obtain ⟨L0, c1, ha, hb⟩ := h5 e1 hres
    have hi : i = L0.length := by
      rw [ha] at hfail
      by_cases hlt : i < L0.length
      · rw [List.getElem?_append_left hlt] at hfail
        have := hb (c, some e) (List.getElem?_mem hfail)
        simp at this
      · have hlen := (List.getElem?_eq_some.mp hfail).1
        simp at hlen
        omega
    have hee : e1 = e := by
      rw [ha, hi] at hfail
      simp at hfail
      exact hfail.2
    have hlen : (applyInChunks k perTime list).1.invoked.length = i + 1 := by
      rw [ha, hi]; simp
    refine ⟨by rw [hee], ?_, ?_⟩
    · rw [h1, hlen, List.range_eq_range']
    · obtain ⟨m, hm1, hm2, _⟩ := applyInChunks_remote k action id perTime hp list
      exact ⟨m, by omega, hm1⟩

theorem sent_items_flatten {α : Type} (action id : String) (remote : List (RemoteCall α))
    (chunks : List (List α)) (list : List α)
    (hr : remote = chunks.map (fun c => ⟨action, id, c⟩)) (hf : chunks.flatten = list) :
    (remote.map RemoteCall.items).flatten = list := by
  rw [hr, List.map_map]
  have : (RemoteCall.items ∘ fun c => (⟨action, id, c⟩ : RemoteCall α)) = fun c => c := rfl
  rw [this, List.map_id']
  exact hf

/-- C2: for every input list and each of the four chunked operations, when no
per-chunk call fails (the operation returns no error), the requests that reach
the remote API are one per invocation, with the slice the invocation received,
and their items, concatenated in call order, are the input list itself
(contiguous, in order, nothing dropped, repeated or padded); the lengths of the
slices sum to the length of the input. -/
theorem batch_chunks_concat {α ε : Type} (K : Pkg ε) (cl : SlbClient α ε)
    (clT : SlbClient Tag ε) (list : List α) (tags : List Tag) (aclId lbId : String) :
    ((SlbAddAccessControlListEntry K cl list aclId).2 = none →
      (SlbAddAccessControlListEntry K cl list aclId).1.remote
        = (SlbAddAccessControlListEntry K cl list aclId).1.chunks.map (fun c => ⟨"AddAccessControlListEntry", aclId, c⟩) ∧
      ((SlbAddAccessControlListEntry K cl list aclId).1.remote.map RemoteCall.items).flatten = list ∧
      (SlbAddAccessControlListEntry K cl list aclId).1.chunks.flatten = list ∧
      ((SlbAddAccessControlListEntry K cl list aclId).1.chunks.map List.length).sum = list.length) ∧
    ((SlbRemoveAccessControlListEntry K cl list aclId).2 = none →
      (SlbRemoveAccessControlListEntry K cl list aclId).1.remote
        = (SlbRemoveAccessControlListEntry K cl list aclId).1.chunks.map (fun c => ⟨"RemoveAccessControlListEntry", aclId, c⟩) ∧
      ((SlbRemoveAccessControlListEntry K cl list aclId).1.remote.map RemoteCall.items).flatten = list ∧
      (SlbRemoveAccessControlListEntry K cl list aclId).1.chunks.flatten = list ∧
      ((SlbRemoveAccessControlListEntry K cl list aclId).1.chunks.map List.length).sum = list.length) ∧
    ((slbAddTags K clT tags lbId).2 = none →
      (slbAddTags K clT tags lbId).1.remote
        = (slbAddTags K clT tags lbId).1.chunks.map (fun c => ⟨"AddTags", lbId, c⟩) ∧
      ((slbAddTags K clT tags lbId).1.remote.map RemoteCall.items).flatten = tags ∧
      (slbAddTags K clT tags lbId).1.chunks.flatten = tags ∧
      ((slbAddTags K clT tags lbId).1.chunks.map List.length).sum = tags.length) ∧
    ((slbRemoveTags K clT tags lbId).2 = none →
      (slbRemoveTags K clT tags lbId).1.remote
        = (slbRemoveTags K clT tags lbId).1.chunks.map (fun c => ⟨"RemoveTags", lbId, c⟩) ∧
      ((slbRemoveTags K clT tags lbId).1.remote.map RemoteCall.items).flatten = tags ∧
      (slbRemoveTags K clT tags lbId).1.chunks.flatten = tags ∧
      ((slbRemoveTags K clT tags lbId).1.chunks.map List.length).sum = tags.length) := by
  refine ⟨fun hres => ?_, fun hres => ?_, fun hres => ?_, fun hres => ?_⟩
  · have hs := applyInChunks_sent 50 _ _ _ (slbAddAccessControlListEntryPerTime_spec K cl aclId) list hres
    have hc := applyInChunks_complete 50 (Or.inl rfl) _ (slbAddAccessControlListEntryPerTime_spec K cl aclId).invoked list hs.2
    exact ⟨hs.1, sent_items_flatten _ _ _ _ _ hs.1 hc.2.1, hc.2.1, hc.2.2⟩
  · have hs := applyInChunks_sent 50 _ _ _ (slbRemoveAccessControlListEntryPerTime_spec K cl aclId) list hres
    have hc := applyInChunks_complete 50 (Or.inl rfl) _ (slbRemoveAccessControlListEntryPerTime_spec K cl aclId).invoked list hs.2
    exact ⟨hs.1, sent_items_flatten _ _ _ _ _ hs.1 hc.2.1, hc.2.1, hc.2.2⟩
  · have hs := applyInChunks_sent 5 _ _ _ (slbAddTagsPerTime_spec K clT lbId) tags hres
    have hc := applyInChunks_complete 5 (Or.inr rfl) _ (slbAddTagsPerTime_spec K clT lbId).invoked tags hs.2
    exact ⟨hs.1, sent_items_flatten _ _ _ _ _ hs.1 hc.2.1, hc.2.1, hc.2.2⟩
  · have hs := applyInChunks_sent 5 _ _ _ (slbRemoveTagsPerTime_spec K clT lbId) tags hres
    have hc := applyInChunks_complete 5 (Or.inr rfl) _ (slbRemoveTagsPerTime_spec K clT lbId).invoked tags hs.2
    exact ⟨hs.1, sent_items_flatten _ _ _ _ _ hs.1 hc.2.1, hc.2.1, hc.2.2⟩

set_option maxRecDepth 8000 in
/-- C2 at 101 access-control entries and 7 tags, every request succeeding: the
remote API receives requests of 50, 50 and 1 entries, and of 5 and 2 tags, whose
items concatenate to the input. -/
theorem batch_chunks_concat_witness :
    ((SlbAddAccessControlListEntry samplePkg (sampleClientOk Nat) (List.range 101) "acl-1").2 = none ∧
      ((SlbAddAccessControlListEntry samplePkg (sampleClientOk Nat) (List.range 101) "acl-1").1.remote
          = (SlbAddAccessControlListEntry samplePkg (sampleClientOk Nat) (List.range 101) "acl-1").1.chunks.map (fun c => ⟨"AddAccessControlListEntry", "acl-1", c⟩) ∧
        ((SlbAddAccessControlListEntry samplePkg (sampleClientOk Nat) (List.range 101) "acl-1").1.remote.map RemoteCall.items).flatten = List.range 101 ∧
        (SlbAddAccessControlListEntry samplePkg (sampleClientOk Nat) (List.range 101) "acl-1").1.chunks.flatten = List.range 101 ∧
        ((SlbAddAccessControlListEntry samplePkg (sampleClientOk Nat) (List.range 101) "acl-1").1.chunks.map List.length).sum = (List.range 101).length) ∧
      (SlbAddAccessControlListEntry samplePkg (sampleClientOk Nat) (List.range 101) "acl-1").1.remote.map (fun c => c.items.length) = [50, 50, 1]) ∧
    ((SlbRemoveAccessControlListEntry samplePkg (sampleClientOk Nat) (List.range 101) "acl-1").2 = none ∧
      ((SlbRemoveAccessControlListEntry samplePkg (sampleClientOk Nat) (List.range 101) "acl-1").1.remote
          = (SlbRemoveAccessControlListEntry samplePkg (sampleClientOk Nat) (List.range 101) "acl-1").1.chunks.map (fun c => ⟨"RemoveAccessControlListEntry", "acl-1", c⟩) ∧
        ((SlbRemoveAccessControlListEntry samplePkg (sampleClientOk Nat) (List.range 101) "acl-1").1.remote.map RemoteCall.items).flatten = List.range 101 ∧
        (SlbRemoveAccessControlListEntry samplePkg (sampleClientOk Nat) (List.range 101) "acl-1").1.chunks.flatten = List.range 101 ∧
        ((SlbRemoveAccessControlListEntry samplePkg (sampleClientOk Nat) (List.range 101) "acl-1").1.chunks.map List.length).sum = (List.range 101).length) ∧
      (SlbRemoveAccessControlListEntry samplePkg (sampleClientOk Nat) (List.range 101) "acl-1").1.remote.map (fun c => c.items.length) = [50, 50, 1]) ∧
    ((slbAddTags samplePkg (sampleClientOk Tag) sampleTags "lb-1").2 = none ∧
      ((slbAddTags samplePkg (sampleClientOk Tag) sampleTags "lb-1").1.remote
          = (slbAddTags samplePkg (sampleClientOk Tag) sampleTags "lb-1").1.chunks.map (fun c => ⟨"AddTags", "lb-1", c⟩) ∧
        ((slbAddTags samplePkg (sampleClientOk Tag) sampleTags "lb-1").1.remote.map RemoteCall.items).flatten = sampleTags ∧
        (slbAddTags samplePkg (sampleClientOk Tag) sampleTags "lb-1").1.chunks.flatten = sampleTags ∧
        ((slbAddTags samplePkg (sampleClientOk Tag) sampleTags "lb-1").1.chunks.map List.length).sum = (sampleTags).length) ∧
      (slbAddTags samplePkg (sampleClientOk Tag) sampleTags "lb-1").1.remote.map (fun c => c.items.length) = [5, 2]) ∧
    ((slbRemoveTags samplePkg (sampleClientOk Tag) sampleTags "lb-1").2 = none ∧
      ((slbRemoveTags samplePkg (sampleClientOk Tag) sampleTags "lb-1").1.remote
          = (slbRemoveTags samplePkg (sampleClientOk Tag) sampleTags "lb-1").1.chunks.map (fun c => ⟨"RemoveTags", "lb-1", c⟩) ∧
        ((slbRemoveTags samplePkg (sampleClientOk Tag) sampleTags "lb-1").1.remote.map RemoteCall.items).flatten = sampleTags ∧
        (slbRemoveTags samplePkg (sampleClientOk Tag) sampleTags "lb-1").1.chunks.flatten = sampleTags ∧
        ((slbRemoveTags samplePkg (sampleClientOk Tag) sampleTags "lb-1").1.chunks.map List.length).sum = (sampleTags).length) ∧
      (slbRemoveTags samplePkg (sampleClientOk Tag) sampleTags "lb-1").1.remote.map (fun c => c.items.length) = [5, 2]) :=
  have h := batch_chunks_concat samplePkg (sampleClientOk Nat) (sampleClientOk Tag)
    (List.range 101) sampleTags "acl-1" "lb-1"
  ⟨⟨by decide, h.1 (by decide), by decide⟩,
   ⟨by decide, h.2.1 (by decide), by decide⟩,
   ⟨by decide, h.2.2.1 (by decide), by decide⟩,
   ⟨by decide, h.2.2.2 (by decide), by decide⟩⟩

/-- C3: if the per-chunk invocation number i (from 0) returns an error e, each of
the four chunked operations returns e; the per-chunk operation has been invoked
on exactly the chunks 0..i, in order, and on no later chunk; and every request
sent to the remote API is the operation's own request for one of the chunks
0..i, in order: no compensating request is sent. -/
theorem batch_abort_on_failure {α ε : Type} (K : Pkg ε) (cl : SlbClient α ε)
    (clT : SlbClient Tag ε) (list : List α) (tags : List Tag) (aclId lbId : String)
    (i : Nat) (c : List α) (cT : List Tag) (e : ε) :
    ((SlbAddAccessControlListEntry K cl list aclId).1.invoked[i]? = some (c, some e) →
      (SlbAddAccessControlListEntry K cl list aclId).2 = some e ∧
      (SlbAddAccessControlListEntry K cl list aclId).1.chunks
        = (List.range (i + 1)).map (chunkAt max_num_per_time list) ∧
      ∃ m, m ≤ i + 1 ∧ (SlbAddAccessControlListEntry K cl list aclId).1.remote
        = (List.range m).map (fun j =>
            ⟨"AddAccessControlListEntry", aclId, chunkAt max_num_per_time list j⟩)) ∧
    ((SlbRemoveAccessControlListEntry K cl list aclId).1.invoked[i]? = some (c, some e) →
      (SlbRemoveAccessControlListEntry K cl list aclId).2 = some e ∧
      (SlbRemoveAccessControlListEntry K cl list aclId).1.chunks
        = (List.range (i + 1)).map (chunkAt max_num_per_time list) ∧
      ∃ m, m ≤ i + 1 ∧ (SlbRemoveAccessControlListEntry K cl list aclId).1.remote
        = (List.range m).map (fun j =>
            ⟨"RemoveAccessControlListEntry", aclId, chunkAt max_num_per_time list j⟩)) ∧
    ((slbAddTags K clT tags lbId).1.invoked[i]? = some (cT, some e) →
      (slbAddTags K clT tags lbId).2 = some e ∧
      (slbAddTags K clT tags lbId).1.chunks
        = (List.range (i + 1)).map (chunkAt tags_max_num_per_time tags) ∧
      ∃ m, m ≤ i + 1 ∧ (slbAddTags K clT tags lbId).1.remote
        = (List.range m).map (fun j =>
            ⟨"AddTags", lbId, chunkAt tags_max_num_per_time tags j⟩)) ∧
    ((slbRemoveTags K clT tags lbId).1.invoked[i]? = some (cT, some e) →
      (slbRemoveTags K clT tags lbId).2 = some e ∧
      (slbRemoveTags K clT tags lbId).1.chunks
        = (List.range (i + 1)).map (chunkAt tags_max_num_per_time tags) ∧
      ∃ m, m ≤ i + 1 ∧ (slbRemoveTags K clT tags lbId).1.remote
        = (List.range m).map (fun j =>
            ⟨"RemoveTags", lbId, chunkAt tags_max_num_per_time tags j⟩)) := by
  refine ⟨fun h => ?_, fun h => ?_, fun h => ?_, fun h => ?_⟩
  · exact applyInChunks_abort _ _ _ _ (slbAddAccessControlListEntryPerTime_spec K cl aclId)
      list i c e h
  · exact applyInChunks_abort _ _ _ _
      (slbRemoveAccessControlListEntryPerTime_spec K cl aclId) list i c e h
  · exact applyInChunks_abort _ _ _ _ (slbAddTagsPerTime_spec K clT lbId) tags i cT e h
  · exact applyInChunks_abort _ _ _ _ (slbRemoveTagsPerTime_spec K clT lbId) tags i cT e h

set_option maxRecDepth 8000 in
/-- C3 at 120 access-control entries and 12 tags (three chunks each) with a
remote API whose second request fails: the second invocation returns the error,
the operation returns it, and the third chunk is never touched. -/
theorem batch_abort_on_failure_witness :
    ((SlbAddAccessControlListEntry samplePkg (sampleClientFailAt Nat 1 sampleThrottled)
        (List.range 120) "acl-1").1.invoked[1]?
        = some (chunkAt 50 (List.range 120) 1, some sampleThrottled) ∧
      (SlbAddAccessControlListEntry samplePkg (sampleClientFailAt Nat 1 sampleThrottled)
        (List.range 120) "acl-1").2 = some sampleThrottled ∧
      (SlbAddAccessControlListEntry samplePkg (sampleClientFailAt Nat 1 sampleThrottled)
        (List.range 120) "acl-1").1.chunks
        = (List.range (1 + 1)).map (chunkAt max_num_per_time (List.range 120))) ∧
    ((SlbRemoveAccessControlListEntry samplePkg (sampleClientFailAt Nat 1 sampleThrottled)
        (List.range 120) "acl-1").1.invoked[1]?
        = some (chunkAt 50 (List.range 120) 1, some sampleThrottled) ∧
      (SlbRemoveAccessControlListEntry samplePkg (sampleClientFailAt Nat 1 sampleThrottled)
        (List.range 120) "acl-1").2 = some sampleThrottled ∧
      (SlbRemoveAccessControlListEntry samplePkg (sampleClientFailAt Nat 1 sampleThrottled)
        (List.range 120) "acl-1").1.chunks
        = (List.range (1 + 1)).map (chunkAt max_num_per_time (List.range 120))) ∧
    ((slbAddTags samplePkg (sampleClientFailAt Tag 1 sampleThrottled)
        sampleTags12 "lb-1").1.invoked[1]?
        = some (chunkAt 5 sampleTags12 1, some sampleThrottled) ∧
      (slbAddTags samplePkg (sampleClientFailAt Tag 1 sampleThrottled)
        sampleTags12 "lb-1").2 = some sampleThrottled ∧
      (slbAddTags samplePkg (sampleClientFailAt Tag 1 sampleThrottled)
        sampleTags12 "lb-1").1.chunks
        = (List.range (1 + 1)).map (chunkAt tags_max_num_per_time sampleTags12)) ∧
    ((slbRemoveTags samplePkg (sampleClientFailAt Tag 1 sampleThrottled)
        sampleTags12 "lb-1").1.invoked[1]?
        = some (chunkAt 5 sampleTags12 1, some sampleThrottled) ∧
      (slbRemoveTags samplePkg (sampleClientFailAt Tag 1 sampleThrottled)
        sampleTags12 "lb-1").2 = some sampleThrottled ∧
      (slbRemoveTags samplePkg (sampleClientFailAt Tag 1 sampleThrottled)
        sampleTags12 "lb-1").1.chunks
        = (List.range (1 + 1)).map (chunkAt tags_max_num_per_time sampleTags12)) :=
  have h := batch_abort_on_failure samplePkg (sampleClientFailAt Nat 1 sampleThrottled)
    (sampleClientFailAt Tag 1 sampleThrottled) (List.range 120) sampleTags12 "acl-1" "lb-1"
    1 (chunkAt 50 (List.range 120) 1) (chunkAt 5 sampleTags12 1) sampleThrottled
  have h1 := h.1 (by decide)
  have h2 := h.2.1 (by decide)
  have h3 := h.2.2.1 (by decide)
  have h4 := h.2.2.2 (by decide)
  ⟨⟨by decide, h1.1, h1.2.1⟩, ⟨by decide, h2.1, h2.2.1⟩,
   ⟨by decide, h3.1, h3.2.1⟩, ⟨by decide, h4.1, h4.2.1⟩⟩

/-- C5: on an empty input each of the four chunked operations invokes its
per-chunk operation zero times, sends no request and returns no error. -/
theorem batch_empty_input {α ε : Type} (K : Pkg ε) (cl : SlbClient α ε)
    (clT : SlbClient Tag ε) (aclId lbId : String) :
    ((SlbAddAccessControlListEntry K cl [] aclId).1.invoked = [] ∧
      (SlbAddAccessControlListEntry K cl [] aclId).1.remote = [] ∧
      (SlbAddAccessControlListEntry K cl [] aclId).2 = none) ∧
    ((SlbRemoveAccessControlListEntry K cl [] aclId).1.invoked = [] ∧
      (SlbRemoveAccessControlListEntry K cl [] aclId).1.remote = [] ∧
      (SlbRemoveAccessControlListEntry K cl [] aclId).2 = none) ∧
    ((slbAddTags K clT [] lbId).1.invoked = [] ∧
      (slbAddTags K clT [] lbId).1.remote = [] ∧
      (slbAddTags K clT [] lbId).2 = none) ∧
    ((slbRemoveTags K clT [] lbId).1.invoked = [] ∧
      (slbRemoveTags K clT [] lbId).1.remote = [] ∧
      (slbRemoveTags K clT [] lbId).2 = none) := by
  simp [SlbAddAccessControlListEntry, SlbRemoveAccessControlListEntry, slbAddTags,
    slbRemoveTags, applyInChunks, BatchRun.init]

theorem chunkLoop_none {α ε : Type} (k : Nat)
    (perTime : List α → BatchRun α ε → BatchRun α ε × Option ε)
    (hnone : ∀ s r, (perTime s r).2 = none) (list : List α) (num : Nat) :
    ∀ (rem i : Nat) (r : BatchRun α ε), (chunkLoop k perTime list num rem i r).2 = none := by
  intro rem
  induction rem with
  | zero => intro i r; rfl
  | succ rem ih =>
    intro i r
    simp only [chunkLoop]
    have h := hnone (goSlice list (i * k) (if (i + 1) * k > num then num else (i + 1) * k)) r
    cases hpt : perTime (goSlice list (i * k)
        (if (i + 1) * k > num then num else (i + 1) * k)) r with
    | mk r1 res =>
      rw [hpt] at h
      simp only at h
      subst h
      exact ih (i + 1) _

theorem applyInChunks_none {α ε : Type} (k : Nat)
    (perTime : List α → BatchRun α ε → BatchRun α ε × Option ε)
    (hnone : ∀ s r, (perTime s r).2 = none) (list : List α) :
    (applyInChunks k perTime list).2 = none := by
  unfold applyInChunks
  simp only
  split
  · rfl
  · exact chunkLoop_none k perTime hnone list _ _ _ _

/-- C4: in `SlbRemoveAccessControlListEntry`, a remote error that matches
`SlbAclEntryEmpty` is swallowed: `slbRemoveAccessControlListEntryPerTime` returns
no error for it; if every remote error of the run matches (and marshalling does
not fail), the whole operation returns no error and has applied every chunk: it
has sent one request per slice, the later chunks included, and the slices
concatenate to the input; a remote error that does not match is returned by the
per-chunk function, wrapped by `WrapErrorf`. -/
theorem remove_acl_entry_empty_swallowed {α ε : Type} (K : Pkg ε) (cl : SlbClient α ε)
    (list : List α) (aclId : String) :
    (∀ (slice : List α) (r : BatchRun α ε) (err : ε),
      cl.marshal slice = none →
      cl.call r.remote.length ⟨"RemoveAccessControlListEntry", aclId, slice⟩ = some err →
      K.IsExceptedError err K.SlbAclEntryEmpty = true →
      (slbRemoveAccessControlListEntryPerTime K cl slice aclId r).2 = none) ∧
    (∀ (slice : List α) (r : BatchRun α ε) (err : ε),
      cl.marshal slice = none →
      cl.call r.remote.length ⟨"RemoveAccessControlListEntry", aclId, slice⟩ = some err →
      K.IsExceptedError err K.SlbAclEntryEmpty = false →
      (slbRemoveAccessControlListEntryPerTime K cl slice aclId r).2
        = some (K.WrapErrorf err K.DefaultErrorMsg
            [aclId, "RemoveAccessControlListEntry", K.AlibabaCloudSdkGoERROR])) ∧
    ((∀ slice, cl.marshal slice = none) →
      (∀ n req err, cl.call n req = some err →
        K.IsExceptedError err K.SlbAclEntryEmpty = true) →
      (SlbRemoveAccessControlListEntry K cl list aclId).2 = none ∧
      (SlbRemoveAccessControlListEntry K cl list aclId).1.remote
        = (SlbRemoveAccessControlListEntry K cl list aclId).1.chunks.map
            (fun c => ⟨"RemoveAccessControlListEntry", aclId, c⟩) ∧
      (SlbRemoveAccessControlListEntry K cl list aclId).1.chunks.flatten = list ∧
      (list ≠ [] → ChunkShape max_num_per_time list.length
        (SlbRemoveAccessControlListEntry K cl list aclId).1.chunks)) := by
  refine ⟨?_, ?_, ?_⟩
  · intro slice r err hm hc he
    simp [slbRemoveAccessControlListEntryPerTime, SlbClient.send, hm, hc, he]
  · intro slice r err hm hc he
    simp [slbRemoveAccessControlListEntryPerTime, SlbClient.send, hm, hc, he]
  · intro hm hc
    have hnone : ∀ s r, (slbRemoveAccessControlListEntryPerTime K cl s aclId r).2 = none := by
      intro s r
      simp only [slbRemoveAccessControlListEntryPerTime, SlbClient.send, hm]
      cases hcall : cl.call r.remote.length ⟨"RemoveAccessControlListEntry", aclId, s⟩ with
      | none => rfl
      | some err => simp [hc _ _ _ hcall]
    have hres : (SlbRemoveAccessControlListEntry K cl list aclId).2 = none :=
      applyInChunks_none _ _ hnone list
    have hspec := slbRemoveAccessControlListEntryPerTime_spec K cl aclId
    have hs := applyInChunks_sent 50 _ _ _ hspec list hres
    have hc := applyInChunks_complete 50 (Or.inl rfl) _ hspec.invoked list hs.2
    exact ⟨hres, hs.1, hc.2.1, hc.1⟩

set_option maxRecDepth 8000 in
/-- C4 at 120 access-control entries with a remote API whose first request is
answered by an `SlbAclEntryEmpty` error (the operation still sends the requests
for all three chunks, of 50, 50 and 20 entries, and returns no error), and, for
the second part, one answered by another error. -/
theorem remove_acl_entry_empty_swallowed_witness :
    ((sampleClientFailAt Nat 0 sampleEntryEmpty).marshal (List.range 50) = none ∧
      (sampleClientFailAt Nat 0 sampleEntryEmpty).call
        (BatchRun.init : BatchRun Nat SampleErr).remote.length
        ⟨"RemoveAccessControlListEntry", "acl-1", List.range 50⟩ = some sampleEntryEmpty ∧
      samplePkg.IsExceptedError sampleEntryEmpty samplePkg.SlbAclEntryEmpty = true ∧
      (slbRemoveAccessControlListEntryPerTime samplePkg
        (sampleClientFailAt Nat 0 sampleEntryEmpty) (List.range 50) "acl-1"
        BatchRun.init).2 = none) ∧
    ((sampleClientFailAt Nat 0 sampleThrottled).marshal (List.range 50) = none ∧
      (sampleClientFailAt Nat 0 sampleThrottled).call
        (BatchRun.init : BatchRun Nat SampleErr).remote.length
        ⟨"RemoveAccessControlListEntry", "acl-1", List.range 50⟩ = some sampleThrottled ∧
      samplePkg.IsExceptedError sampleThrottled samplePkg.SlbAclEntryEmpty = false ∧
      (slbRemoveAccessControlListEntryPerTime samplePkg
        (sampleClientFailAt Nat 0 sampleThrottled) (List.range 50) "acl-1"
        BatchRun.init).2
        = some (samplePkg.WrapErrorf sampleThrottled samplePkg.DefaultErrorMsg
            ["acl-1", "RemoveAccessControlListEntry", samplePkg.AlibabaCloudSdkGoERROR])) ∧
    ((∀ slice, (sampleClientFailAt Nat 0 sampleEntryEmpty).marshal slice = none) ∧
      (∀ n req err, (sampleClientFailAt Nat 0 sampleEntryEmpty).call n req = some err →
        samplePkg.IsExceptedError err samplePkg.SlbAclEntryEmpty = true) ∧
      (SlbRemoveAccessControlListEntry samplePkg (sampleClientFailAt Nat 0 sampleEntryEmpty)
        (List.range 120) "acl-1").2 = none ∧
      (SlbRemoveAccessControlListEntry samplePkg (sampleClientFailAt Nat 0 sampleEntryEmpty)
        (List.range 120) "acl-1").1.remote
        = (SlbRemoveAccessControlListEntry samplePkg
            (sampleClientFailAt Nat 0 sampleEntryEmpty) (List.range 120) "acl-1").1.chunks.map
            (fun c => ⟨"RemoveAccessControlListEntry", "acl-1", c⟩) ∧
      (SlbRemoveAccessControlListEntry samplePkg (sampleClientFailAt Nat 0 sampleEntryEmpty)
        (List.range 120) "acl-1").1.chunks.flatten = List.range 120 ∧
      (SlbRemoveAccessControlListEntry samplePkg (sampleClientFailAt Nat 0 sampleEntryEmpty)
        (List.range 120) "acl-1").1.remote.map (fun c => c.items.length) = [50, 50, 20]) :=
  have hm : ∀ slice, (sampleClientFailAt Nat 0 sampleEntryEmpty).marshal slice = none :=
    fun _ => rfl
  have hc : ∀ n req err, (sampleClientFailAt Nat 0 sampleEntryEmpty).call n req = some err →
      samplePkg.IsExceptedError err samplePkg.SlbAclEntryEmpty = true := by
    intro n req err h
    simp only [sampleClientFailAt] at h
    split at h
    · cases h; decide
    · cases h
  have h1 := remove_acl_entry_empty_swallowed samplePkg
    (sampleClientFailAt Nat 0 sampleEntryEmpty) (List.range 120) "acl-1"
  have h2 := remove_acl_entry_empty_swallowed samplePkg
    (sampleClientFailAt Nat 0 sampleThrottled) (List.range 120) "acl-1"
  ⟨⟨rfl, by decide, by decide,
      h1.1 (List.range 50) BatchRun.init sampleEntryEmpty rfl (by decide) (by decide)⟩,
   ⟨rfl, by decide, by decide,
      h2.2.1 (List.range 50) BatchRun.init sampleThrottled rfl (by decide) (by decide)⟩,
   ⟨hm, hc, (h1.2.2 hm hc).1, (h1.2.2 hm hc).2.1, (h1.2.2 hm hc).2.2.1, by decide⟩⟩

/-! ## Reconciliation waiters -/

theorem parseResourceId_ok {ε : Type} (K : Pkg ε) (id : String) (n : Nat)
    (h : (ParseResourceId K id n).2 = none) :
    ((ParseResourceId K id n).1).length = n := by
  unfold ParseResourceId at h ⊢
  simp only at h ⊢
  split at h
  · rename_i hlen
    rw [if_pos hlen]
    exact hlen
  · simp at h

/-- `WaitForOnsTopic` on an id that parses is the loop started with the two parts. -/
theorem waitForOnsTopic_parsed {ε : Type} (K : Pkg ε) (env : Remote (Option PublishInfoDo) ε)
    (id status : String) (timeout : Int) (fuel : Nat)
    (h : (ParseResourceId K id 2).2 = none) :
    ∃ instanceId topic, WaitForOnsTopic K env id status timeout fuel
      = pollLoop (WaitForOnsTopic.poll K env id status instanceId topic
          (deadlineAt env timeout)) fuel WaitRun.init := by
  have hlen := parseResourceId_ok K id 2 h
  unfold WaitForOnsTopic
  cases hp : ParseResourceId K id 2 with
  | mk parts err =>
    rw [hp] at h hlen
    simp only at h hlen
    subst h
    match parts, hlen with
    | [a, b], _ => exact ⟨a, b, rfl⟩

/-- C6, as amended: for every waiter, every id (one that parses, for
`WaitForOnsTopic`) and every timeout, if the target is `Deleted` and the first
Describe returns an error classified as not-found then the waiter returns
success after exactly one Describe call, no sleep and no deadline check; for
`WaitForSlbListener` this holds for the not-found errors that do not match
`LoadBalancerNotFound`. -/
theorem wait_deleted_absent_first_poll {ε : Type} (K : Pkg ε)
    (eOI : Remote (Option OnsInstanceBaseInfoResponse) ε)
    (eOG : Remote (Option SubscribeInfoDo) ε)
    (eSlb : Remote (Option DescribeLoadBalancerAttributeResponse) ε)
    (eAcl : Remote (Option DescribeAccessControlListAttributeResponse) ε)
    (eRule : Remote (Option DescribeRuleAttributeResponse) ε)
    (eSG : Remote (Option DescribeVServerGroupAttributeResponse) ε)
    (eCA : Remote (Option CACertificate) ε)
    (eSC : Remote (Option ServerCertificate) ε)
    (eOT : Remote (Option PublishInfoDo) ε) (eL : Remote Listener ε)
    (id protocol : String) (timeout : Int) (fuel : Nat) (e : ε) :
    ((eOI.describe 0).2 = some e → K.NotFoundError e = true →
      EndsAfterOneDescribe (WaitForOnsInstance K eOI id K.Deleted timeout (fuel + 1)) Outcome.success) ∧
    ((eOG.describe 0).2 = some e → K.NotFoundError e = true →
      EndsAfterOneDescribe (WaitForOnsGroup K eOG id K.Deleted timeout (fuel + 1)) Outcome.success) ∧
    ((eSlb.describe 0).2 = some e → K.NotFoundError e = true →
      EndsAfterOneDescribe (WaitForSlb K eSlb id K.Deleted timeout (fuel + 1)) Outcome.success) ∧
    ((eAcl.describe 0).2 = some e → K.NotFoundError e = true →
      EndsAfterOneDescribe (WaitForSlbAcl K eAcl id K.Deleted timeout (fuel + 1)) Outcome.success) ∧
    ((eRule.describe 0).2 = some e → K.NotFoundError e = true →
      EndsAfterOneDescribe (WaitForSlbRule K eRule id K.Deleted timeout (fuel + 1)) Outcome.success) ∧
    ((eSG.describe 0).2 = some e → K.NotFoundError e = true →
      EndsAfterOneDescribe (WaitForSlbServerGroup K eSG id K.Deleted timeout (fuel + 1)) Outcome.success) ∧
    ((eCA.describe 0).2 = some e → K.NotFoundError e = true →
      EndsAfterOneDescribe (WaitForSlbCACertificate K eCA id K.Deleted timeout (fuel + 1)) Outcome.success) ∧
    ((eSC.describe 0).2 = some e → K.NotFoundError e = true →
      EndsAfterOneDescribe (WaitForSlbServerCertificate K eSC id K.Deleted timeout (fuel + 1)) Outcome.success) ∧
    ((eOT.describe 0).2 = some e → K.NotFoundError e = true →
      (ParseResourceId K id 2).2 = none →
      EndsAfterOneDescribe (WaitForOnsTopic K eOT id K.Deleted timeout (fuel + 1))
        Outcome.success) ∧
    ((eL.describe 0).2 = some e → K.NotFoundError e = true →
      K.IsExceptedErrors e [K.LoadBalancerNotFound] = false →
      EndsAfterOneDescribe (WaitForSlbListener K eL id protocol K.Deleted timeout (fuel + 1))
        Outcome.success) := by
  refine ⟨?_, ?_, ?_, ?_, ?_, ?_, ?_, ?_, ?_, ?_⟩
  · intro hd hnf
    cases hdesc : eOI.describe 0 with
    | mk obj err =>
      rw [hdesc] at hd
      simp only at hd
      subst hd
      simp [EndsAfterOneDescribe, WaitForOnsInstance, pollLoop, WaitForOnsInstance.poll, Remote.doDescribe,
        WaitRun.init, hdesc, hnf]
  · intro hd hnf
    cases hdesc : eOG.describe 0 with
    | mk obj err =>
      rw [hdesc] at hd
      simp only at hd
      subst hd
      simp [EndsAfterOneDescribe, WaitForOnsGroup, pollLoop, WaitForOnsGroup.poll, Remote.doDescribe,
        WaitRun.init, hdesc, hnf]
  · intro hd hnf
    cases hdesc : eSlb.describe 0 with
    | mk obj err =>
      rw [hdesc] at hd
      simp only at hd
      subst hd
      simp [EndsAfterOneDescribe, WaitForSlb, pollLoop, WaitForSlb.poll, Remote.doDescribe,
        WaitRun.init, hdesc, hnf]
  · intro hd hnf
    cases hdesc : eAcl.describe 0 with
    | mk obj err =>
      rw [hdesc] at hd
      simp only at hd
      subst hd
      simp [EndsAfterOneDescribe, WaitForSlbAcl, pollLoop, WaitForSlbAcl.poll, Remote.doDescribe,
        WaitRun.init, hdesc, hnf]
  · intro hd hnf
    cases hdesc : eRule.describe 0 with
    | mk obj err =>
      rw [hdesc] at hd
      simp only at hd
      subst hd
      simp [EndsAfterOneDescribe, WaitForSlbRule, pollLoop, WaitForSlbRule.poll, Remote.doDescribe,
        WaitRun.init, hdesc, hnf]
  · intro hd hnf
    cases hdesc : eSG.describe 0 with
    | mk obj err =>
      rw [hdesc] at hd
      simp only at hd
      subst hd
      simp [EndsAfterOneDescribe, WaitForSlbServerGroup, pollLoop, WaitForSlbServerGroup.poll, Remote.doDescribe,
        WaitRun.init, hdesc, hnf]
  · intro hd hnf
    cases hdesc : eCA.describe 0 with
    | mk obj err =>
      rw [hdesc] at hd
      simp only at hd
      subst hd
      simp [EndsAfterOneDescribe, WaitForSlbCACertificate, pollLoop, WaitForSlbCACertificate.poll, Remote.doDescribe,
        WaitRun.init, hdesc, hnf]
  · intro hd hnf
    cases hdesc : eSC.describe 0 with
    | mk obj err =>
      rw [hdesc] at hd
      simp only at hd
      subst hd
      simp [EndsAfterOneDescribe, WaitForSlbServerCertificate, pollLoop, WaitForSlbServerCertificate.poll, Remote.doDescribe,
        WaitRun.init, hdesc, hnf]
  · intro hd hnf hparse
    obtain ⟨a, b, hw⟩ := waitForOnsTopic_parsed K eOT id K.Deleted timeout (fuel + 1) hparse
    cases hdesc : eOT.describe 0 with
    | mk obj err =>
      rw [hdesc] at hd
      simp only at hd
      subst hd
      simp [EndsAfterOneDescribe, hw, pollLoop, WaitForOnsTopic.poll, Remote.doDescribe,
        WaitRun.init, hdesc, hnf]
  · intro hd hnf hlb
    cases hdesc : eL.describe 0 with
    | mk obj err =>
      rw [hdesc] at hd
      simp only at hd
      subst hd
      simp [EndsAfterOneDescribe, WaitForSlbListener, pollLoop, WaitForSlbListener.poll,
        Remote.doDescribe, WaitRun.init, hdesc, hnf, hlb]

/-- C6 at the id `inst-1:topic-1`, a timeout of 10 seconds and a Describe that
returns a not-found error: each hypothesis holds and each of the ten waiters
returns success after one Describe call. -/
theorem wait_deleted_absent_first_poll_witness :
    samplePkg.NotFoundError sampleNotFound = true ∧
    EndsAfterOneDescribe (WaitForOnsInstance samplePkg (sampleRemoteConst (Option OnsInstanceBaseInfoResponse) (none, some sampleNotFound))
      "inst-1:topic-1" samplePkg.Deleted 10 (0 + 1)) Outcome.success ∧
    EndsAfterOneDescribe (WaitForOnsGroup samplePkg (sampleRemoteConst (Option SubscribeInfoDo) (none, some sampleNotFound))
      "inst-1:topic-1" samplePkg.Deleted 10 (0 + 1)) Outcome.success ∧
    EndsAfterOneDescribe (WaitForSlb samplePkg (sampleRemoteConst (Option DescribeLoadBalancerAttributeResponse) (none, some sampleNotFound))
      "inst-1:topic-1" samplePkg.Deleted 10 (0 + 1)) Outcome.success ∧
    EndsAfterOneDescribe (WaitForSlbAcl samplePkg (sampleRemoteConst (Option DescribeAccessControlListAttributeResponse) (none, some sampleNotFound))
      "inst-1:topic-1" samplePkg.Deleted 10 (0 + 1)) Outcome.success ∧
    EndsAfterOneDescribe (WaitForSlbRule samplePkg (sampleRemoteConst (Option DescribeRuleAttributeResponse) (none, some sampleNotFound))
      "inst-1:topic-1" samplePkg.Deleted 10 (0 + 1)) Outcome.success ∧
    EndsAfterOneDescribe (WaitForSlbServerGroup samplePkg (sampleRemoteConst (Option DescribeVServerGroupAttributeResponse) (none, some sampleNotFound))
      "inst-1:topic-1" samplePkg.Deleted 10 (0 + 1)) Outcome.success ∧
    EndsAfterOneDescribe (WaitForSlbCACertificate samplePkg (sampleRemoteConst (Option CACertificate) (none, some sampleNotFound))
      "inst-1:topic-1" samplePkg.Deleted 10 (0 + 1)) Outcome.success ∧
    EndsAfterOneDescribe (WaitForSlbServerCertificate samplePkg (sampleRemoteConst (Option ServerCertificate) (none, some sampleNotFound))
      "inst-1:topic-1" samplePkg.Deleted 10 (0 + 1)) Outcome.success ∧
    ((ParseResourceId samplePkg "inst-1:topic-1" 2).2 = none ∧
      EndsAfterOneDescribe (WaitForOnsTopic samplePkg
        (sampleRemoteConst (Option PublishInfoDo) (none, some sampleNotFound))
        "inst-1:topic-1" samplePkg.Deleted 10 (0 + 1)) Outcome.success) ∧
    (samplePkg.IsExceptedErrors sampleNotFound [samplePkg.LoadBalancerNotFound] = false ∧
      EndsAfterOneDescribe (WaitForSlbListener samplePkg
        (sampleRemoteConst Listener ([], some sampleNotFound))
        "inst-1:topic-1" "http" samplePkg.Deleted 10 (0 + 1)) Outcome.success) :=
  have h := wait_deleted_absent_first_poll samplePkg
    (sampleRemoteConst (Option OnsInstanceBaseInfoResponse) (none, some sampleNotFound))
    (sampleRemoteConst (Option SubscribeInfoDo) (none, some sampleNotFound))
    (sampleRemoteConst (Option DescribeLoadBalancerAttributeResponse) (none, some sampleNotFound))
    (sampleRemoteConst (Option DescribeAccessControlListAttributeResponse) (none, some sampleNotFound))
    (sampleRemoteConst (Option DescribeRuleAttributeResponse) (none, some sampleNotFound))
    (sampleRemoteConst (Option DescribeVServerGroupAttributeResponse) (none, some sampleNotFound))
    (sampleRemoteConst (Option CACertificate) (none, some sampleNotFound))
    (sampleRemoteConst (Option ServerCertificate) (none, some sampleNotFound))
    (sampleRemoteConst (Option PublishInfoDo) (none, some sampleNotFound))
    (sampleRemoteConst Listener ([], some sampleNotFound))
    "inst-1:topic-1" "http" 10 0 sampleNotFound
  ⟨rfl, h.1 rfl rfl,
   h.2.1 rfl rfl,
   h.2.2.1 rfl rfl,
   h.2.2.2.1 rfl rfl,
   h.2.2.2.2.1 rfl rfl,
   h.2.2.2.2.2.1 rfl rfl,
   h.2.2.2.2.2.2.1 rfl rfl,
   h.2.2.2.2.2.2.2.1 rfl rfl,
   ⟨by decide, h.2.2.2.2.2.2.2.2.1 rfl rfl (by decide)⟩,
   ⟨by decide, h.2.2.2.2.2.2.2.2.2 rfl rfl (by decide)⟩⟩

/-- C6 as stated fails for `WaitForSlbListener`: with target `Deleted` and a first
Describe whose error is classified as not-found and also matches
`LoadBalancerNotFound`, the waiter does not return after the first Describe; it
checks the deadline, sleeps and polls again, and here it ends in a timeout error
after two Describe calls. -/
theorem wait_deleted_absent_listener_counterexample :
    samplePkg.NotFoundError sampleLbNotFoundWrapped = true ∧
    ((sampleRemoteConst Listener ([], some sampleLbNotFoundWrapped)).describe 0).2
      = some sampleLbNotFoundWrapped ∧
    WaitForSlbListener samplePkg (sampleRemoteConst Listener ([], some sampleLbNotFoundWrapped))
      "lb-1:80" "http" samplePkg.Deleted 10 1 = none ∧
    WaitForSlbListener samplePkg (sampleRemoteConst Listener ([], some sampleLbNotFoundWrapped))
      "lb-1:80" "http" samplePkg.Deleted 10 2
      = some (⟨2, 3, [Event.describe, Event.check (6 * Second) (10 * Second),
            Event.sleep (5 * Second), Event.describe,
            Event.check (12 * Second) (10 * Second)]⟩,
          Outcome.timeout (some sampleLbNotFoundWrapped) "" "Deleted") ∧
    ¬ EndsAfterOneDescribe (WaitForSlbListener samplePkg
        (sampleRemoteConst Listener ([], some sampleLbNotFoundWrapped))
        "lb-1:80" "http" samplePkg.Deleted 10 2) Outcome.success := by
  refine ⟨rfl, rfl, by decide, by decide, ?_⟩
  unfold EndsAfterOneDescribe
  decide

/-- C7, as amended: for every waiter and every target, if the first Describe
returns an error that is not classified as not-found then the waiter returns
`WrapError` of that error after exactly one Describe call, no sleep and no
deadline check, without polling again; for `WaitForSlbListener` this holds for
the errors that do not match `LoadBalancerNotFound`. -/
theorem wait_fatal_first_poll {ε : Type} (K : Pkg ε)
    (eOI : Remote (Option OnsInstanceBaseInfoResponse) ε)
    (eOG : Remote (Option SubscribeInfoDo) ε)
    (eSlb : Remote (Option DescribeLoadBalancerAttributeResponse) ε)
    (eAcl : Remote (Option DescribeAccessControlListAttributeResponse) ε)
    (eRule : Remote (Option DescribeRuleAttributeResponse) ε)
    (eSG : Remote (Option DescribeVServerGroupAttributeResponse) ε)
    (eCA : Remote (Option CACertificate) ε)
    (eSC : Remote (Option ServerCertificate) ε)
    (eAttr : Remote (Option DescribeLoadBalancerAttributeResponse) ε)
    (eOT : Remote (Option PublishInfoDo) ε) (eL : Remote Listener ε)
    (id protocol status : String) (instanceSet : SchemaSet) (timeout : Int) (fuel : Nat)
    (e : ε) :
    ((eOI.describe 0).2 = some e → K.NotFoundError e = false →
      EndsAfterOneDescribe (WaitForOnsInstance K eOI id status timeout (fuel + 1))
        (Outcome.failure (K.WrapError e))) ∧
    ((eOG.describe 0).2 = some e → K.NotFoundError e = false →
      EndsAfterOneDescribe (WaitForOnsGroup K eOG id status timeout (fuel + 1))
        (Outcome.failure (K.WrapError e))) ∧
    ((eSlb.describe 0).2 = some e → K.NotFoundError e = false →
      EndsAfterOneDescribe (WaitForSlb K eSlb id status timeout (fuel + 1))
        (Outcome.failure (K.WrapError e))) ∧
    ((eAcl.describe 0).2 = some e → K.NotFoundError e = false →
      EndsAfterOneDescribe (WaitForSlbAcl K eAcl id status timeout (fuel + 1))
        (Outcome.failure (K.WrapError e))) ∧
    ((eRule.describe 0).2 = some e → K.NotFoundError e = false →
      EndsAfterOneDescribe (WaitForSlbRule K eRule id status timeout (fuel + 1))
        (Outcome.failure (K.WrapError e))) ∧
    ((eSG.describe 0).2 = some e → K.NotFoundError e = false →
      EndsAfterOneDescribe (WaitForSlbServerGroup K eSG id status timeout (fuel + 1))
        (Outcome.failure (K.WrapError e))) ∧
    ((eCA.describe 0).2 = some e → K.NotFoundError e = false →
      EndsAfterOneDescribe (WaitForSlbCACertificate K eCA id status timeout (fuel + 1))
        (Outcome.failure (K.WrapError e))) ∧
    ((eSC.describe 0).2 = some e → K.NotFoundError e = false →
      EndsAfterOneDescribe (WaitForSlbServerCertificate K eSC id status timeout (fuel + 1))
        (Outcome.failure (K.WrapError e))) ∧
    ((eAttr.describe 0).2 = some e → K.NotFoundError e = false →
      EndsAfterOneDescribe (WaitSlbAttribute K eAttr id instanceSet timeout (fuel + 1))
        (Outcome.failure (K.WrapError e))) ∧
    ((eOT.describe 0).2 = some e → K.NotFoundError e = false →
      (ParseResourceId K id 2).2 = none →
      EndsAfterOneDescribe (WaitForOnsTopic K eOT id status timeout (fuel + 1))
        (Outcome.failure (K.WrapError e))) ∧
    ((eL.describe 0).2 = some e → K.NotFoundError e = false →
      K.IsExceptedErrors e [K.LoadBalancerNotFound] = false →
      EndsAfterOneDescribe (WaitForSlbListener K eL id protocol status timeout (fuel + 1))
        (Outcome.failure (K.WrapError e))) := by
  refine ⟨?_, ?_, ?_, ?_, ?_, ?_, ?_, ?_, ?_, ?_, ?_⟩
  · intro hd hnf
    cases hdesc : eOI.describe 0 with
    | mk obj err =>
      rw [hdesc] at hd
      simp only at hd
      subst hd
      simp [EndsAfterOneDescribe, WaitForOnsInstance, pollLoop, WaitForOnsInstance.poll, Remote.doDescribe,
        WaitRun.init, hdesc, hnf]
  · intro hd hnf
    cases hdesc : eOG.describe 0 with
    | mk obj err =>
      rw [hdesc] at hd
      simp only at hd
      subst hd
      simp [EndsAfterOneDescribe, WaitForOnsGroup, pollLoop, WaitForOnsGroup.poll, Remote.doDescribe,
        WaitRun.init, hdesc, hnf]
  · intro hd hnf
    cases hdesc : eSlb.describe 0 with
    | mk obj err =>
      rw [hdesc] at hd
      simp only at hd
      subst hd
      simp [EndsAfterOneDescribe, WaitForSlb, pollLoop, WaitForSlb.poll, Remote.doDescribe,
        WaitRun.init, hdesc, hnf]
  · intro hd hnf
    cases hdesc : eAcl.describe 0 with
    | mk obj err =>
      rw [hdesc] at hd
      simp only at hd
      subst hd
      simp [EndsAfterOneDescribe, WaitForSlbAcl, pollLoop, WaitForSlbAcl.poll, Remote.doDescribe,
        WaitRun.init, hdesc, hnf]
  · intro hd hnf
    cases hdesc : eRule.describe 0 with
    | mk obj err =>
      rw [hdesc] at hd
      simp only at hd
      subst hd
      simp [EndsAfterOneDescribe, WaitForSlbRule, pollLoop, WaitForSlbRule.poll, Remote.doDescribe,
        WaitRun.init, hdesc, hnf]
  · intro hd hnf
    cases hdesc : eSG.describe 0 with
    | mk obj err =>
      rw [hdesc] at hd
      simp only at hd
      subst hd
      simp [EndsAfterOneDescribe, WaitForSlbServerGroup, pollLoop, WaitForSlbServerGroup.poll, Remote.doDescribe,
        WaitRun.init, hdesc, hnf]
  · intro hd hnf
    cases hdesc : eCA.describe 0 with
    | mk obj err =>
      rw [hdesc] at hd
      simp only at hd
      subst hd
      simp [EndsAfterOneDescribe, WaitForSlbCACertificate, pollLoop, WaitForSlbCACertificate.poll, Remote.doDescribe,
        WaitRun.init, hdesc, hnf]
  · intro hd hnf
    cases hdesc : eSC.describe 0 with
    | mk obj err =>
      rw [hdesc] at hd
      simp only at hd
      subst hd
      simp [EndsAfterOneDescribe, WaitForSlbServerCertificate, pollLoop, WaitForSlbServerCertificate.poll, Remote.doDescribe,
        WaitRun.init, hdesc, hnf]
  · intro hd hnf
    cases hdesc : eAttr.describe 0 with
    | mk obj err =>
      rw [hdesc] at hd
      simp only at hd
      subst hd
      simp [EndsAfterOneDescribe, WaitSlbAttribute, pollLoop, WaitSlbAttribute.poll,
        Remote.doDescribe, WaitRun.init, hdesc, hnf]
  · intro hd hnf hparse
    obtain ⟨a, b, hw⟩ := waitForOnsTopic_parsed K eOT id status timeout (fuel + 1) hparse
    cases hdesc : eOT.describe 0 with
    | mk obj err =>
      rw [hdesc] at hd
      simp only at hd
      subst hd
      simp [EndsAfterOneDescribe, hw, pollLoop, WaitForOnsTopic.poll, Remote.doDescribe,
        WaitRun.init, hdesc, hnf]
  · intro hd hnf hlb
    cases hdesc : eL.describe 0 with
    | mk obj err =>
      rw [hdesc] at hd
      simp only at hd
      subst hd
      simp [EndsAfterOneDescribe, WaitForSlbListener, pollLoop, WaitForSlbListener.poll,
        Remote.doDescribe, WaitRun.init, hdesc, hnf, hlb]

/-- C7 at the id `inst-1:topic-1`, target `active`, a timeout of 10 seconds and a
Describe that returns a throttling error: each hypothesis holds and each of the
eleven waiters returns the wrapped error after one Describe call. -/
theorem wait_fatal_first_poll_witness :
    samplePkg.NotFoundError sampleThrottled = false ∧
    EndsAfterOneDescribe (WaitForOnsInstance samplePkg (sampleRemoteConst (Option OnsInstanceBaseInfoResponse) (none, some sampleThrottled))
      "inst-1:topic-1" "active" 10 (0 + 1)) (Outcome.failure (samplePkg.WrapError sampleThrottled)) ∧
    EndsAfterOneDescribe (WaitForOnsGroup samplePkg (sampleRemoteConst (Option SubscribeInfoDo) (none, some sampleThrottled))
      "inst-1:topic-1" "active" 10 (0 + 1)) (Outcome.failure (samplePkg.WrapError sampleThrottled)) ∧
    EndsAfterOneDescribe (WaitForSlb samplePkg (sampleRemoteConst (Option DescribeLoadBalancerAttributeResponse) (none, some sampleThrottled))
      "inst-1:topic-1" "active" 10 (0 + 1)) (Outcome.failure (samplePkg.WrapError sampleThrottled)) ∧
    EndsAfterOneDescribe (WaitForSlbAcl samplePkg (sampleRemoteConst (Option DescribeAccessControlListAttributeResponse) (none, some sampleThrottled))
      "inst-1:topic-1" "active" 10 (0 + 1)) (Outcome.failure (samplePkg.WrapError sampleThrottled)) ∧
    EndsAfterOneDescribe (WaitForSlbRule samplePkg (sampleRemoteConst (Option DescribeRuleAttributeResponse) (none, some sampleThrottled))
      "inst-1:topic-1" "active" 10 (0 + 1)) (Outcome.failure (samplePkg.WrapError sampleThrottled)) ∧
    EndsAfterOneDescribe (WaitForSlbServerGroup samplePkg (sampleRemoteConst (Option DescribeVServerGroupAttributeResponse) (none, some sampleThrottled))
      "inst-1:topic-1" "active" 10 (0 + 1)) (Outcome.failure (samplePkg.WrapError sampleThrottled)) ∧
    EndsAfterOneDescribe (WaitForSlbCACertificate samplePkg (sampleRemoteConst (Option CACertificate) (none, some sampleThrottled))
      "inst-1:topic-1" "active" 10 (0 + 1)) (Outcome.failure (samplePkg.WrapError sampleThrottled)) ∧
    EndsAfterOneDescribe (WaitForSlbServerCertificate samplePkg (sampleRemoteConst (Option ServerCertificate) (none, some sampleThrottled))
      "inst-1:topic-1" "active" 10 (0 + 1)) (Outcome.failure (samplePkg.WrapError sampleThrottled)) ∧
    EndsAfterOneDescribe (WaitSlbAttribute samplePkg
      (sampleRemoteConst (Option DescribeLoadBalancerAttributeResponse) (none, some sampleThrottled))
      "inst-1:topic-1" (sampleSet ["i-1"]) 10 (0 + 1)) (Outcome.failure (samplePkg.WrapError sampleThrottled)) ∧
    ((ParseResourceId samplePkg "inst-1:topic-1" 2).2 = none ∧
      EndsAfterOneDescribe (WaitForOnsTopic samplePkg
        (sampleRemoteConst (Option PublishInfoDo) (none, some sampleThrottled))
        "inst-1:topic-1" "active" 10 (0 + 1)) (Outcome.failure (samplePkg.WrapError sampleThrottled))) ∧
    (samplePkg.IsExceptedErrors sampleThrottled [samplePkg.LoadBalancerNotFound] = false ∧
      EndsAfterOneDescribe (WaitForSlbListener samplePkg
        (sampleRemoteConst Listener ([], some sampleThrottled))
        "inst-1:topic-1" "http" "active" 10 (0 + 1))
        (Outcome.failure (samplePkg.WrapError sampleThrottled))) :=
  have h := wait_fatal_first_poll samplePkg
    (sampleRemoteConst (Option OnsInstanceBaseInfoResponse) (none, some sampleThrottled))
    (sampleRemoteConst (Option SubscribeInfoDo) (none, some sampleThrottled))
    (sampleRemoteConst (Option DescribeLoadBalancerAttributeResponse) (none, some sampleThrottled))
    (sampleRemoteConst (Option DescribeAccessControlListAttributeResponse) (none, some sampleThrottled))
    (sampleRemoteConst (Option DescribeRuleAttributeResponse) (none, some sampleThrottled))
    (sampleRemoteConst (Option DescribeVServerGroupAttributeResponse) (none, some sampleThrottled))
    (sampleRemoteConst (Option CACertificate) (none, some sampleThrottled))
    (sampleRemoteConst (Option ServerCertificate) (none, some sampleThrottled))
    (sampleRemoteConst (Option DescribeLoadBalancerAttributeResponse) (none, some sampleThrottled))
    (sampleRemoteConst (Option PublishInfoDo) (none, some sampleThrottled))
    (sampleRemoteConst Listener ([], some sampleThrottled))
    "inst-1:topic-1" "http" "active" (sampleSet ["i-1"]) 10 0 sampleThrottled
  ⟨rfl, h.1 rfl rfl,
   h.2.1 rfl rfl,
   h.2.2.1 rfl rfl,
   h.2.2.2.1 rfl rfl,
   h.2.2.2.2.1 rfl rfl,
   h.2.2.2.2.2.1 rfl rfl,
   h.2.2.2.2.2.2.1 rfl rfl,
   h.2.2.2.2.2.2.2.1 rfl rfl,
   h.2.2.2.2.2.2.2.2.1 rfl rfl,
   ⟨by decide, h.2.2.2.2.2.2.2.2.2.1 rfl rfl (by decide)⟩,
   ⟨by decide, h.2.2.2.2.2.2.2.2.2.2 rfl rfl (by decide)⟩⟩

/-- C7 as stated fails for `WaitForSlbListener`: a first Describe whose error is not
classified as not-found but matches `LoadBalancerNotFound` does not make the
waiter return; it checks the deadline, sleeps and polls again, and here it ends
in a timeout error after two Describe calls and one sleep. -/
theorem wait_fatal_listener_counterexample :
    samplePkg.NotFoundError sampleLbNotFound = false ∧
    ((sampleRemoteConst Listener ([], some sampleLbNotFound)).describe 0).2
      = some sampleLbNotFound ∧
    WaitForSlbListener samplePkg (sampleRemoteConst Listener ([], some sampleLbNotFound))
      "lb-1:80" "http" "active" 10 1 = none ∧
    WaitForSlbListener samplePkg (sampleRemoteConst Listener ([], some sampleLbNotFound))
      "lb-1:80" "http" "active" 10 2
      = some (⟨2, 3, [Event.describe, Event.check (6 * Second) (10 * Second),
            Event.sleep (5 * Second), Event.describe,
            Event.check (12 * Second) (10 * Second)]⟩,
          Outcome.timeout (some sampleLbNotFound) "" "active") ∧
    ¬ EndsAfterOneDescribe (WaitForSlbListener samplePkg
        (sampleRemoteConst Listener ([], some sampleLbNotFound))
        "lb-1:80" "http" "active" 10 2) (Outcome.failure (samplePkg.WrapError sampleLbNotFound)) := by
  refine ⟨rfl, rfl, by decide, by decide, ?_⟩
  unfold EndsAfterOneDescribe
  decide

theorem sleepsOf_append (a b : List Event) : sleepsOf (a ++ b) = sleepsOf a ++ sleepsOf b := by
  induction a with
  | nil => rfl
  | cons x xs ih => cases x <;> simp [sleepsOf, ih]

theorem deadlinesOf_append (a b : List Event) :
    deadlinesOf (a ++ b) = deadlinesOf a ++ deadlinesOf b := by
  induction a with
  | nil => rfl
  | cons x xs ih => cases x <;> simp [deadlinesOf, ih]

theorem describeCount_append (a b : List Event) :
    describeCount (a ++ b) = describeCount a + describeCount b := by
  simp [describeCount]

theorem fullPasses_sleeps {R ε : Type} (env : Remote R ε) (deadline d : Int) (j : Nat) :
    sleepsOf (fullPasses env deadline d j) = List.replicate j d := by
  induction j with
  | zero => rfl
  | succ j ih =>
    simp [fullPasses, sleepsOf_append, ih, sleepsOf, List.replicate_succ']

theorem fullPasses_deadlines {R ε : Type} (env : Remote R ε) (deadline d : Int) (j : Nat) :
    deadlinesOf (fullPasses env deadline d j) = List.replicate j deadline := by
  induction j with
  | zero => rfl
  | succ j ih =>
    simp [fullPasses, deadlinesOf_append, ih, deadlinesOf, List.replicate_succ']

theorem fullPasses_describes {R ε : Type} (env : Remote R ε) (deadline d : Int) (j : Nat) :
    describeCount (fullPasses env deadline d j) = j := by
  induction j with
  | zero => rfl
  | succ j ih =>
    rw [fullPasses, describeCount_append, ih]
    simp [describeCount]

/-- A loop whose passes `0, ..., p - 1` fall through along the states `st` and
whose pass `p` ends with `o` returns `o` for any fuel above `p`. -/
theorem pollLoop_run {ε : Type} (poll : WaitRun → WaitRun × Option (Outcome ε)) :
    ∀ (p : Nat) (st : Nat → WaitRun) (r1 : WaitRun) (o : Outcome ε) (fuel : Nat),
      (∀ j, j < p → poll (st j) = (st (j + 1), none)) →
      poll (st p) = (r1, some o) → p < fuel →
      pollLoop poll fuel (st 0) = some (r1, o) := by
  intro p
  induction p with
  | zero =>
    intro st r1 o fuel _ hend hf
    obtain ⟨f, rfl⟩ : ∃ f, fuel = f + 1 := ⟨fuel - 1, by omega⟩
    simp [pollLoop, hend]
  | succ p ih =>
    intro st r1 o fuel hcont hend hf
    obtain ⟨f, rfl⟩ : ∃ f, fuel = f + 1 := ⟨fuel - 1, by omega⟩
    have h0 := hcont 0 (by omega)
    simp only [pollLoop, h0]
    exact ih (fun j => st (j + 1)) r1 o f (fun j hj => hcont (j + 1) (by omega)) hend
      (by omega)

/-- A loop each of whose passes `0, ..., p` calls Describe, checks the deadline
and then either returns a timeout error or sleeps for `d`, on a clock that
passes the deadline at check `p`, times out at poll `p`. -/
theorem pollLoop_timeout {R ε : Type} (env : Remote R ε)
    (poll : WaitRun → WaitRun × Option (Outcome ε)) (deadline d : Int) (p : Nat)
    (hpass : ∀ j, j ≤ p → ∃ cause observed expected,
      poll (afterPasses env deadline d j) =
        if env.now (j + 1) > deadline then
          (⟨j + 1, j + 2, fullPasses env deadline d j ++
              [Event.describe, Event.check (env.now (j + 1)) deadline]⟩,
            some (Outcome.timeout cause observed expected))
        else (afterPasses env deadline d (j + 1), none))
    (hclock : ClockPassesAt env deadline p) (fuel : Nat) (hf : p < fuel) :
    TimedOutAt (pollLoop poll fuel WaitRun.init) p d deadline := by
  obtain ⟨cause, observed, expected, hend⟩ := hpass p (le_refl p)
  rw [if_pos hclock.2] at hend
  have hcont : ∀ j, j < p →
      poll (afterPasses env deadline d j) = (afterPasses env deadline d (j + 1), none) := by
    intro j hj
    obtain ⟨_, _, _, h⟩ := hpass j (by omega)
    rw [if_neg (by have := hclock.1 j hj; omega)] at h
    exact h
  have hrun := pollLoop_run poll p (afterPasses env deadline d) _ _ fuel hcont hend hf
  refine ⟨_, cause, observed, expected, hrun, rfl, ?_, ?_, ?_⟩
  · simp only [describeCount_append, fullPasses_describes]
    simp [describeCount]
  · simp [sleepsOf_append, fullPasses_sleeps, sleepsOf]
  · simp [deadlinesOf_append, fullPasses_deadlines, deadlinesOf, List.replicate_succ']

theorem timeoutDuration_in_range (timeout : Int)
    (h : -9223372036 ≤ timeout ∧ timeout ≤ 9223372036) :
    timeoutDuration timeout = timeout * Second := by
  unfold timeoutDuration wrapInt64 Second
  norm_num
  omega

/-- C8: for `WaitForSlb` and `WaitForSlbListener` with a target status, and for
`WaitForSlbRule` and `WaitForOnsInstance` with target `Deleted`, and a timeout
that a `time.Duration` can hold: if the Describe calls succeed without satisfying
the target, then at the first poll (number p, from 0) whose deadline check finds
the clock after start + timeout seconds the waiter returns a timeout error
instead of polling again, having made p + 1 Describe calls and p sleeps; every
deadline check of the wait is against the one value start + timeout seconds. -/
theorem wait_times_out_after_deadline {ε : Type} (K : Pkg ε)
    (eSlb : Remote (Option DescribeLoadBalancerAttributeResponse) ε)
    (eL : Remote Listener ε)
    (eRule : Remote (Option DescribeRuleAttributeResponse) ε)
    (eOI : Remote (Option OnsInstanceBaseInfoResponse) ε)
    (id protocol status : String) (timeout : Int) (p fuel : Nat)
    (hT : -9223372036 ≤ timeout ∧ timeout ≤ 9223372036) (hf : p < fuel) :
    ((∀ j, j ≤ p → ∃ obj, eSlb.describe j = (some obj, none) ∧
        K.ToLower obj.LoadBalancerStatus ≠ K.ToLower status) →
      ClockPassesAt eSlb (eSlb.now 0 + timeout * Second) p →
      TimedOutAt (WaitForSlb K eSlb id status timeout fuel) p
        (K.DefaultIntervalShort * Second) (eSlb.now 0 + timeout * Second)) ∧
    ((∀ j, j ≤ p → ∃ obj got, eL.describe j = (obj, none) ∧
        WaitForSlbListener.gotStatus K obj = some got ∧ got ≠ K.ToLower status) →
      ClockPassesAt eL (eL.now 0 + timeout * Second) p →
      TimedOutAt (WaitForSlbListener K eL id protocol status timeout fuel) p
        (K.DefaultIntervalShort * Second) (eL.now 0 + timeout * Second)) ∧
    ((∀ j, j ≤ p → ∃ obj, eRule.describe j = (some obj, none)) →
      ClockPassesAt eRule (eRule.now 0 + timeout * Second) p →
      TimedOutAt (WaitForSlbRule K eRule id K.Deleted timeout fuel) p
        (K.DefaultIntervalShort * Second) (eRule.now 0 + timeout * Second)) ∧
    ((∀ j, j ≤ p → ∃ obj, eOI.describe j = (some obj, none)) →
      ClockPassesAt eOI (eOI.now 0 + timeout * Second) p →
      TimedOutAt (WaitForOnsInstance K eOI id K.Deleted timeout fuel) p
        (K.DefaultIntervalShort * Second) (eOI.now 0 + timeout * Second)) := by
  have hdl := timeoutDuration_in_range timeout hT
  refine ⟨fun hd hc => ?_, fun hd hc => ?_, fun hd hc => ?_, fun hd hc => ?_⟩
  · unfold WaitForSlb deadlineAt
    rw [hdl]
    refine pollLoop_timeout eSlb _ _ _ p (fun j hj => ?_) hc fuel hf
    obtain ⟨obj, ho, hne⟩ := hd j hj
    refine ⟨none, obj.LoadBalancerStatus, status, ?_⟩
    by_cases hlate : eSlb.now (j + 1) > eSlb.now 0 + timeout * Second <;>
      simp [WaitForSlb.poll, Remote.doDescribe, Remote.after, WaitRun.doSleep, afterPasses,
        fullPasses, ho, hne, hlate]
  · unfold WaitForSlbListener deadlineAt
    rw [hdl]
    refine pollLoop_timeout eL _ _ _ p (fun j hj => ?_) hc fuel hf
    obtain ⟨obj, got, ho, hg, hne⟩ := hd j hj
    refine ⟨none, got, status, ?_⟩
    by_cases hlate : eL.now (j + 1) > eL.now 0 + timeout * Second <;>
      simp [WaitForSlbListener.poll, Remote.doDescribe, Remote.after, WaitRun.doSleep,
        afterPasses, fullPasses, ho, hg, hne, hlate]
  · unfold WaitForSlbRule deadlineAt
    rw [hdl]
    refine pollLoop_timeout eRule _ _ _ p (fun j hj => ?_) hc fuel hf
    obtain ⟨obj, ho⟩ := hd j hj
    refine ⟨none, "", id, ?_⟩
    by_cases hlate : eRule.now (j + 1) > eRule.now 0 + timeout * Second <;>
      simp [WaitForSlbRule.poll, Remote.doDescribe, Remote.after, WaitRun.doSleep,
        afterPasses, fullPasses, ho, hlate]
  · unfold WaitForOnsInstance deadlineAt
    rw [hdl]
    refine pollLoop_timeout eOI _ _ _ p (fun j hj => ?_) hc fuel hf
    obtain ⟨obj, ho⟩ := hd j hj
    refine ⟨none, obj.InstanceBaseInfo.InstanceId, id, ?_⟩
    by_cases hlate : eOI.now (j + 1) > eOI.now 0 + timeout * Second <;>
      simp [WaitForOnsInstance.poll, Remote.doDescribe, Remote.after, WaitRun.doSleep,
        afterPasses, fullPasses, ho, hlate]

/-- C8 on the sample clock (a reading every 6 seconds) with a timeout of 10
seconds and Describe results that never satisfy the target: the second check
is the first after the deadline, and each of the four waiters times out at
poll 1, after two Describe calls and one sleep of 5 seconds. -/
theorem wait_times_out_after_deadline_witness :
    ((-9223372036 : Int) ≤ 10 ∧ (10 : Int) ≤ 9223372036) ∧ 1 < 2 ∧
    ClockPassesAt (sampleRemoteConst (Option DescribeLoadBalancerAttributeResponse)
      (some sampleSlbInactive, none)) (0 + 10 * Second) 1 ∧
    TimedOutAt (WaitForSlb samplePkg
      (sampleRemoteConst (Option DescribeLoadBalancerAttributeResponse)
        (some sampleSlbInactive, none)) "lb-1" "active" 10 2) 1
      (samplePkg.DefaultIntervalShort * Second) (0 + 10 * Second) ∧
    TimedOutAt (WaitForSlbListener samplePkg
      (sampleRemoteConst Listener (sampleListenerStopped, none)) "lb-1:80" "http"
        "running" 10 2) 1
      (samplePkg.DefaultIntervalShort * Second) (0 + 10 * Second) ∧
    TimedOutAt (WaitForSlbRule samplePkg
      (sampleRemoteConst (Option DescribeRuleAttributeResponse) (some ⟨"rule-1"⟩, none))
        "rule-1" samplePkg.Deleted 10 2) 1
      (samplePkg.DefaultIntervalShort * Second) (0 + 10 * Second) ∧
    TimedOutAt (WaitForOnsInstance samplePkg
      (sampleRemoteConst (Option OnsInstanceBaseInfoResponse) (some ⟨⟨"inst-1"⟩⟩, none))
        "inst-1" samplePkg.Deleted 10 2) 1
      (samplePkg.DefaultIntervalShort * Second) (0 + 10 * Second) :=
  have hT : (-9223372036 : Int) ≤ 10 ∧ (10 : Int) ≤ 9223372036 := by decide
  have hclock : ∀ (R : Type) (x : R × Option SampleErr),
      ClockPassesAt (sampleRemoteConst R x) (0 + 10 * Second) 1 := by
    intro R x
    refine ⟨fun j hj => ?_, ?_⟩
    · obtain rfl : j = 0 := by omega
      show sampleClock 1 ≤ 0 + 10 * Second
      decide
    · show sampleClock 2 > 0 + 10 * Second
      decide
  have hslb := (wait_times_out_after_deadline samplePkg
    (sampleRemoteConst (Option DescribeLoadBalancerAttributeResponse)
      (some sampleSlbInactive, none))
    (sampleRemoteConst Listener (sampleListenerStopped, none))
    (sampleRemoteConst (Option DescribeRuleAttributeResponse) (some ⟨"rule-1"⟩, none))
    (sampleRemoteConst (Option OnsInstanceBaseInfoResponse) (some ⟨⟨"inst-1"⟩⟩, none))
    "lb-1" "http" "active" 10 1 2 hT (by decide)).1
      (fun _ _ => ⟨sampleSlbInactive, rfl, by decide⟩) (hclock _ _)
  have hl := (wait_times_out_after_deadline samplePkg
    (sampleRemoteConst (Option DescribeLoadBalancerAttributeResponse)
      (some sampleSlbInactive, none))
    (sampleRemoteConst Listener (sampleListenerStopped, none))
    (sampleRemoteConst (Option DescribeRuleAttributeResponse) (some ⟨"rule-1"⟩, none))
    (sampleRemoteConst (Option OnsInstanceBaseInfoResponse) (some ⟨⟨"inst-1"⟩⟩, none))
    "lb-1:80" "http" "running" 10 1 2 hT (by decide)).2.1
      (fun _ _ => ⟨sampleListenerStopped, "stopped", rfl, by decide, by decide⟩)
      (hclock _ _)
  have hrule := (wait_times_out_after_deadline samplePkg
    (sampleRemoteConst (Option DescribeLoadBalancerAttributeResponse)
      (some sampleSlbInactive, none))
    (sampleRemoteConst Listener (sampleListenerStopped, none))
    (sampleRemoteConst (Option DescribeRuleAttributeResponse) (some ⟨"rule-1"⟩, none))
    (sampleRemoteConst (Option OnsInstanceBaseInfoResponse) (some ⟨⟨"inst-1"⟩⟩, none))
    "rule-1" "http" "active" 10 1 2 hT (by decide)).2.2.1
      (fun _ _ => ⟨⟨"rule-1"⟩, rfl⟩) (hclock _ _)
  have hons := (wait_times_out_after_deadline samplePkg
    (sampleRemoteConst (Option DescribeLoadBalancerAttributeResponse)
      (some sampleSlbInactive, none))
    (sampleRemoteConst Listener (sampleListenerStopped, none))
    (sampleRemoteConst (Option DescribeRuleAttributeResponse) (some ⟨"rule-1"⟩, none))
    (sampleRemoteConst (Option OnsInstanceBaseInfoResponse) (some ⟨⟨"inst-1"⟩⟩, none))
    "inst-1" "http" "active" 10 1 2 hT (by decide)).2.2.2
      (fun _ _ => ⟨⟨⟨"inst-1"⟩⟩, rfl⟩) (hclock _ _)
  ⟨hT, by decide, hclock _ _, hslb, hl, hrule, hons⟩

/-- C9: for every id and target status (in the spec, `active`), if Describe
succeeds with a status that does not match on the first m polls, each of them
before the deadline, and with a matching status on poll m + 1, then `WaitForSlb`
returns success after exactly m + 1 Describe calls and exactly m sleeps, each of
`DefaultIntervalShort` seconds. -/
theorem waitForSlb_succeeds_after_pending {ε : Type} (K : Pkg ε)
    (env : Remote (Option DescribeLoadBalancerAttributeResponse) ε)
    (id status : String) (timeout : Int) (m fuel : Nat) (hf : m < fuel)
    (hpending : ∀ j, j < m → ∃ obj, env.describe j = (some obj, none) ∧
      K.ToLower obj.LoadBalancerStatus ≠ K.ToLower status)
    (hclock : ∀ j, j < m → env.now (j + 1) ≤ deadlineAt env timeout)
    (hmatch : ∃ obj, env.describe m = (some obj, none) ∧
      K.ToLower obj.LoadBalancerStatus = K.ToLower status) :
    ∃ r, WaitForSlb K env id status timeout fuel = some (r, Outcome.success) ∧
      r.describes = m + 1 ∧ describeCount r.trace = m + 1 ∧
      sleepsOf r.trace = List.replicate m (K.DefaultIntervalShort * Second) := by
  obtain ⟨objm, hom, heq⟩ := hmatch
  have hcont : ∀ j, j < m →
      WaitForSlb.poll K env status (deadlineAt env timeout)
        (afterPasses env (deadlineAt env timeout) (K.DefaultIntervalShort * Second) j)
      = (afterPasses env (deadlineAt env timeout) (K.DefaultIntervalShort * Second) (j + 1),
          none) := by
    intro j hj
    obtain ⟨obj, ho, hne⟩ := hpending j hj
    have hlate : ¬ env.now (j + 1) > deadlineAt env timeout := by
      have := hclock j hj
      omega
    simp [WaitForSlb.poll, Remote.doDescribe, Remote.after, WaitRun.doSleep, afterPasses,
      fullPasses, ho, hne, hlate]
  have hend : WaitForSlb.poll K env status (deadlineAt env timeout)
        (afterPasses env (deadlineAt env timeout) (K.DefaultIntervalShort * Second) m)
      = (⟨m + 1, m + 1, fullPasses env (deadlineAt env timeout)
            (K.DefaultIntervalShort * Second) m ++ [Event.describe]⟩,
          some Outcome.success) := by
    simp [WaitForSlb.poll, Remote.doDescribe, afterPasses, hom, heq]
  have hrun := pollLoop_run _ m
    (afterPasses env (deadlineAt env timeout) (K.DefaultIntervalShort * Second)) _ _ fuel
    hcont hend hf
  refine ⟨_, hrun, rfl, ?_, ?_⟩
  · simp only [describeCount_append, fullPasses_describes]
    simp [describeCount]
  · simp [sleepsOf_append, fullPasses_sleeps, sleepsOf]

/-- C9 on the scenario of the spec: id `lb-123`, target `active`, Describe
results `pending`, `pending`, `active`, a timeout of 60 seconds: success on the
third poll, after three Describe calls and two sleeps of 5 seconds. -/
theorem waitForSlb_succeeds_after_pending_witness :
    (2 < 3) ∧
    (∀ j, j < 2 → ∃ obj, scenarioRemote.describe j = (some obj, none) ∧
      samplePkg.ToLower obj.LoadBalancerStatus ≠ samplePkg.ToLower "active") ∧
    (∀ j, j < 2 → scenarioRemote.now (j + 1) ≤ deadlineAt scenarioRemote 60) ∧
    (∃ obj, scenarioRemote.describe 2 = (some obj, none) ∧
      samplePkg.ToLower obj.LoadBalancerStatus = samplePkg.ToLower "active") ∧
    (∃ r, WaitForSlb samplePkg scenarioRemote "lb-123" "active" 60 3
        = some (r, Outcome.success) ∧
      r.describes = 2 + 1 ∧ describeCount r.trace = 2 + 1 ∧
      sleepsOf r.trace = List.replicate 2 (samplePkg.DefaultIntervalShort * Second)) :=
  have hp : ∀ j, j < 2 → ∃ obj, scenarioRemote.describe j = (some obj, none) ∧
      samplePkg.ToLower obj.LoadBalancerStatus ≠ samplePkg.ToLower "active" := by
    intro j hj
    refine ⟨⟨"lb-123", "pending", []⟩, ?_, by decide⟩
    simp [scenarioRemote, hj]
  have hc : ∀ j, j < 2 → scenarioRemote.now (j + 1) ≤ deadlineAt scenarioRemote 60 := by
    intro j hj
    have h2 : j = 0 ∨ j = 1 := by omega
    rcases h2 with rfl | rfl <;> decide
  have hm : ∃ obj, scenarioRemote.describe 2 = (some obj, none) ∧
      samplePkg.ToLower obj.LoadBalancerStatus = samplePkg.ToLower "active" :=
    ⟨⟨"lb-123", "active", []⟩, rfl, by decide⟩
  ⟨by decide, hp, hc, hm,
    waitForSlb_succeeds_after_pending samplePkg scenarioRemote "lb-123" "active" 60 2 3
      (by decide) hp hc hm⟩

/-- A loop whose passes each make one Describe call ends with more Describe
calls than it started with. -/
theorem pollLoop_describes_lt {ε : Type} (poll : WaitRun → WaitRun × Option (Outcome ε))
    (hstep : ∀ r, (poll r).1.describes = r.describes + 1) :
    ∀ (fuel : Nat) (r rf : WaitRun) (o : Outcome ε),
      pollLoop poll fuel r = some (rf, o) → r.describes < rf.describes := by
  intro fuel
  induction fuel with
  | zero => intro r rf o h; simp [pollLoop] at h
  | succ fuel ih =>
    intro r rf o h
    have hs := hstep r
    cases hp : poll r with
    | mk r1 res =>
      rw [hp] at hs
      simp only at hs
      cases res with
      | some o1 =>
        simp only [pollLoop, hp, Option.some.injEq, Prod.mk.injEq] at h
        obtain ⟨rfl, _⟩ := h
        omega
      | none =>
        simp only [pollLoop, hp] at h
        have := ih r1 rf o h
        omega

theorem waitForSlb_poll_describes {ε : Type} (K : Pkg ε)
    (env : Remote (Option DescribeLoadBalancerAttributeResponse) ε)
    (status : String) (deadline : Int) (r : WaitRun) :
    (WaitForSlb.poll K env status deadline r).1.describes = r.describes + 1 := by
  by_cases hl : env.now r.clock > deadline <;>
    rcases hd : env.describe r.describes with ⟨_ | obj, _ | err⟩ <;>
    simp only [WaitForSlb.poll, Remote.doDescribe, Remote.after, WaitRun.doSleep, hd, hl,
      decide_True, decide_False] <;>
    (try split) <;> rfl

theorem waitForSlbListener_poll_describes {ε : Type} (K : Pkg ε) (env : Remote Listener ε)
    (status : String) (deadline : Int) (r : WaitRun) :
    (WaitForSlbListener.poll K env status deadline r).1.describes = r.describes + 1 := by
  by_cases hl : env.now r.clock > deadline <;>
    simp only [WaitForSlbListener.poll, Remote.doDescribe, Remote.after, WaitRun.doSleep, hl,
      decide_True, decide_False] <;>
    split <;> (try split) <;> (try rfl) <;> (try split) <;> rfl

theorem waitForSlb_match_iff {ε : Type} (K : Pkg ε)
    (env : Remote (Option DescribeLoadBalancerAttributeResponse) ε)
    (status : String) (deadline : Int) (r : WaitRun)
    (obj : DescribeLoadBalancerAttributeResponse) (fuel : Nat)
    (hd : env.describe r.describes = (some obj, none)) :
    ((WaitForSlb.poll K env status deadline r).2 = some Outcome.success ↔
        K.ToLower obj.LoadBalancerStatus = K.ToLower status) ∧
    (pollLoop (WaitForSlb.poll K env status deadline) (fuel + 1) r
        = some ((env.doDescribe r).1, Outcome.success) ↔
        K.ToLower obj.LoadBalancerStatus = K.ToLower status) := by
  by_cases hm : K.ToLower obj.LoadBalancerStatus = K.ToLower status
  · have hp : WaitForSlb.poll K env status deadline r
        = ((env.doDescribe r).1, some Outcome.success) := by
      simp [WaitForSlb.poll, Remote.doDescribe, hd, hm]
    exact ⟨⟨fun _ => hm, fun _ => by rw [hp]⟩, ⟨fun _ => hm, fun _ => by simp [pollLoop, hp]⟩⟩
  · by_cases hl : env.now r.clock > deadline
    · have hp : WaitForSlb.poll K env status deadline r
          = ((env.after deadline (env.doDescribe r).1).1,
              some (Outcome.timeout none obj.LoadBalancerStatus status)) := by
        simp [WaitForSlb.poll, Remote.doDescribe, Remote.after, hd, hm, hl]
      refine ⟨⟨fun h => ?_, fun h => absurd h hm⟩, ⟨fun h => ?_, fun h => absurd h hm⟩⟩
      · rw [hp] at h; simp at h
      · simp [pollLoop, hp] at h
    · have hp : WaitForSlb.poll K env status deadline r
          = (((env.after deadline (env.doDescribe r).1).1).doSleep
              (K.DefaultIntervalShort * Second), none) := by
        simp [WaitForSlb.poll, Remote.doDescribe, Remote.after, hd, hm, hl]
      refine ⟨⟨fun h => ?_, fun h => absurd h hm⟩, ⟨fun h => ?_, fun h => absurd h hm⟩⟩
      · rw [hp] at h; simp at h
      · simp only [pollLoop, hp] at h
        have := pollLoop_describes_lt _ (waitForSlb_poll_describes K env status deadline)
          _ _ _ _ h
        simp [Remote.doDescribe, Remote.after, WaitRun.doSleep] at this

theorem waitForSlbListener_match_iff {ε : Type} (K : Pkg ε) (env : Remote Listener ε)
    (status : String) (deadline : Int) (r : WaitRun) (object : Listener) (s : String)
    (fuel : Nat) (hd : env.describe r.describes = (object, none))
    (hs : object.lookup "Status" = some (JsonValue.str s)) :
    ((WaitForSlbListener.poll K env status deadline r).2 = some Outcome.success ↔
        K.ToLower s = K.ToLower status) ∧
    (pollLoop (WaitForSlbListener.poll K env status deadline) (fuel + 1) r
        = some ((env.doDescribe r).1, Outcome.success) ↔
        K.ToLower s = K.ToLower status) := by
  have hg : WaitForSlbListener.gotStatus K object = some (K.ToLower s) := by
    simp [WaitForSlbListener.gotStatus, hs]
  by_cases hm : K.ToLower s = K.ToLower status
  · have hp : WaitForSlbListener.poll K env status deadline r
        = ((env.doDescribe r).1, some Outcome.success) := by
      simp [WaitForSlbListener.poll, Remote.doDescribe, hd, hg, hm]
    exact ⟨⟨fun _ => hm, fun _ => by rw [hp]⟩, ⟨fun _ => hm, fun _ => by simp [pollLoop, hp]⟩⟩
  · by_cases hl : env.now r.clock > deadline
    · have hp : WaitForSlbListener.poll K env status deadline r
          = ((env.after deadline (env.doDescribe r).1).1,
              some (Outcome.timeout none (K.ToLower s) status)) := by
        simp [WaitForSlbListener.poll, Remote.doDescribe, Remote.after, hd, hg, hm, hl]
      refine ⟨⟨fun h => ?_, fun h => absurd h hm⟩, ⟨fun h => ?_, fun h => absurd h hm⟩⟩
      · rw [hp] at h; simp at h
      · simp [pollLoop, hp] at h
    · have hp : WaitForSlbListener.poll K env status deadline r
          = (((env.after deadline (env.doDescribe r).1).1).doSleep
              (K.DefaultIntervalShort * Second), none) := by
        simp [WaitForSlbListener.poll, Remote.doDescribe, Remote.after, hd, hg, hm, hl]
      refine ⟨⟨fun h => ?_, fun h => absurd h hm⟩, ⟨fun h => ?_, fun h => absurd h hm⟩⟩
      · rw [hp] at h; simp at h
      · simp only [pollLoop, hp] at h
        have := pollLoop_describes_lt _
          (waitForSlbListener_poll_describes K env status deadline) _ _ _ _ h
        simp [Remote.doDescribe, Remote.after, WaitRun.doSleep] at this

/-- C10: on a successful Describe, `WaitForSlb` (on `LoadBalancerStatus`) and
`WaitForSlbListener` (on the `Status` entry of the listener) treat the poll as
success exactly when the observed status equals the target ignoring letter
case: for every observed status s and target t, at any poll of a wait, the pass
yields success, and the loop returns success right after that Describe call, if
and only if `ToLower s = ToLower t`. -/
theorem poll_success_iff_status_matches {ε : Type} (K : Pkg ε)
    (eSlb : Remote (Option DescribeLoadBalancerAttributeResponse) ε) (eL : Remote Listener ε)
    (status : String) (deadline : Int) (r : WaitRun)
    (obj : DescribeLoadBalancerAttributeResponse) (object : Listener) (s : String)
    (fuel : Nat) :
    (eSlb.describe r.describes = (some obj, none) →
      ((WaitForSlb.poll K eSlb status deadline r).2 = some Outcome.success ↔
        K.ToLower obj.LoadBalancerStatus = K.ToLower status) ∧
      (pollLoop (WaitForSlb.poll K eSlb status deadline) (fuel + 1) r
          = some ((eSlb.doDescribe r).1, Outcome.success) ↔
        K.ToLower obj.LoadBalancerStatus = K.ToLower status)) ∧
    (eL.describe r.describes = (object, none) →
      object.lookup "Status" = some (JsonValue.str s) →
      ((WaitForSlbListener.poll K eL status deadline r).2 = some Outcome.success ↔
        K.ToLower s = K.ToLower status) ∧
      (pollLoop (WaitForSlbListener.poll K eL status deadline) (fuel + 1) r
          = some ((eL.doDescribe r).1, Outcome.success) ↔
        K.ToLower s = K.ToLower status)) :=
  ⟨fun hd => waitForSlb_match_iff K eSlb status deadline r obj fuel hd,
   fun hd hs => waitForSlbListener_match_iff K eL status deadline r object s fuel hd hs⟩

/-- C10 at a load balancer described as `Active` with target `ACTIVE`, and a
listener described as `Running` with target `running`: the statuses agree up to
letter case and the first poll is a success. -/
theorem poll_success_iff_status_matches_witness :
    ((sampleRemoteConst (Option DescribeLoadBalancerAttributeResponse)
        (some sampleSlbActive, none)).describe WaitRun.init.describes
        = (some sampleSlbActive, none) ∧
      samplePkg.ToLower sampleSlbActive.LoadBalancerStatus = samplePkg.ToLower "ACTIVE" ∧
      (WaitForSlb.poll samplePkg
        (sampleRemoteConst (Option DescribeLoadBalancerAttributeResponse)
          (some sampleSlbActive, none)) "ACTIVE" 0 WaitRun.init).2 = some Outcome.success) ∧
    ((sampleRemoteConst Listener (sampleListenerRunning, none)).describe
        WaitRun.init.describes = (sampleListenerRunning, none) ∧
      sampleListenerRunning.lookup "Status" = some (JsonValue.str "Running") ∧
      samplePkg.ToLower "Running" = samplePkg.ToLower "running" ∧
      (WaitForSlbListener.poll samplePkg
        (sampleRemoteConst Listener (sampleListenerRunning, none)) "running" 0
        WaitRun.init).2 = some Outcome.success) :=
  have h1 := (poll_success_iff_status_matches samplePkg
    (sampleRemoteConst (Option DescribeLoadBalancerAttributeResponse)
      (some sampleSlbActive, none))
    (sampleRemoteConst Listener (sampleListenerRunning, none))
    "ACTIVE" 0 WaitRun.init sampleSlbActive sampleListenerRunning "Running" 0).1 rfl
  have h2 := (poll_success_iff_status_matches samplePkg
    (sampleRemoteConst (Option DescribeLoadBalancerAttributeResponse)
      (some sampleSlbActive, none))
    (sampleRemoteConst Listener (sampleListenerRunning, none))
    "running" 0 WaitRun.init sampleSlbActive sampleListenerRunning "Running" 0).2 rfl
      (by decide)
  ⟨⟨rfl, by decide, h1.1.mpr (by decide)⟩,
   ⟨rfl, by decide, by decide, h2.1.mpr (by decide)⟩⟩

/-- The waiters that test `status != Deleted` (`WaitForOnsInstance`,
`WaitForOnsTopic`, `WaitForOnsGroup`, `WaitForSlbRule`), and `WaitForSlb` when the
described `LoadBalancerStatus` differs from `Deleted` (ignoring letter case):
when the target is `Deleted` and Describe succeeds with the object present,
that poll does not return success; while the deadline has not passed the
waiter sleeps once and polls again, and once it has passed the waiter returns
the timeout error. -/
theorem wait_deleted_present_keeps_polling {ε : Type} (K : Pkg ε)
    (eOI : Remote (Option OnsInstanceBaseInfoResponse) ε)
    (eOT : Remote (Option PublishInfoDo) ε)
    (eOG : Remote (Option SubscribeInfoDo) ε)
    (eRule : Remote (Option DescribeRuleAttributeResponse) ε)
    (eSlb : Remote (Option DescribeLoadBalancerAttributeResponse) ε)
    (id instanceId topic : String) (deadline : Int) (r : WaitRun) :
    (∀ obj, eOI.describe r.describes = (some obj, none) →
      KeepsPolling r (WaitForOnsInstance.poll K eOI id K.Deleted deadline r)
        (eOI.now r.clock > deadline) (K.DefaultIntervalShort * Second)) ∧
    (∀ obj, eOT.describe r.describes = (some obj, none) →
      KeepsPolling r (WaitForOnsTopic.poll K eOT id K.Deleted instanceId topic deadline r)
        (eOT.now r.clock > deadline) (K.DefaultIntervalShort * Second)) ∧
    (∀ obj, eOG.describe r.describes = (some obj, none) →
      KeepsPolling r (WaitForOnsGroup.poll K eOG id K.Deleted deadline r)
        (eOG.now r.clock > deadline) (K.DefaultIntervalShort * Second)) ∧
    (∀ obj, eRule.describe r.describes = (some obj, none) →
      KeepsPolling r (WaitForSlbRule.poll K eRule id K.Deleted deadline r)
        (eRule.now r.clock > deadline) (K.DefaultIntervalShort * Second)) ∧
    (∀ obj, eSlb.describe r.describes = (some obj, none) →
      K.ToLower obj.LoadBalancerStatus ≠ K.ToLower K.Deleted →
      KeepsPolling r (WaitForSlb.poll K eSlb K.Deleted deadline r)
        (eSlb.now r.clock > deadline) (K.DefaultIntervalShort * Second)) := by
  refine ⟨fun obj hd => ?_, fun obj hd => ?_, fun obj hd => ?_, fun obj hd => ?_,
    fun obj hd hne => ?_⟩
  · by_cases hl : eOI.now r.clock > deadline <;>
      simp [KeepsPolling, WaitForOnsInstance.poll, Remote.doDescribe, Remote.after,
        WaitRun.doSleep, hd, hl, sleepsOf_append, sleepsOf]
  · by_cases hl : eOT.now r.clock > deadline <;>
      simp [KeepsPolling, WaitForOnsTopic.poll, Remote.doDescribe, Remote.after,
        WaitRun.doSleep, hd, hl, sleepsOf_append, sleepsOf]
  · by_cases hl : eOG.now r.clock > deadline <;>
      simp [KeepsPolling, WaitForOnsGroup.poll, Remote.doDescribe, Remote.after,
        WaitRun.doSleep, hd, hl, sleepsOf_append, sleepsOf]
  · by_cases hl : eRule.now r.clock > deadline <;>
      simp [KeepsPolling, WaitForSlbRule.poll, Remote.doDescribe, Remote.after,
        WaitRun.doSleep, hd, hl, sleepsOf_append, sleepsOf]
  · by_cases hl : eSlb.now r.clock > deadline <;>
      simp [KeepsPolling, WaitForSlb.poll, Remote.doDescribe, Remote.after,
        WaitRun.doSleep, hd, hl, hne, sleepsOf_append, sleepsOf]

/-- With target `Deleted`, a first Describe that succeeds ends the wait of
`WaitForSlbAcl` and `WaitForSlbCACertificate` with success whatever it returns,
and the wait of `WaitForSlbServerGroup` and `WaitForSlbServerCertificate` when
the result carries the requested id. -/
theorem present_object_ends_wait_for_deleted {ε : Type} (K : Pkg ε)
    (eAcl : Remote (Option DescribeAccessControlListAttributeResponse) ε)
    (eSG : Remote (Option DescribeVServerGroupAttributeResponse) ε)
    (eCA : Remote (Option CACertificate) ε)
    (eSC : Remote (Option ServerCertificate) ε)
    (id : String) (timeout : Int) (fuel : Nat) :
    (∀ obj, eAcl.describe 0 = (obj, none) →
      EndsAfterOneDescribe (WaitForSlbAcl K eAcl id K.Deleted timeout (fuel + 1))
        Outcome.success) ∧
    (∀ obj, eSG.describe 0 = (some obj, none) → obj.VServerGroupId = id →
      EndsAfterOneDescribe (WaitForSlbServerGroup K eSG id K.Deleted timeout (fuel + 1))
        Outcome.success) ∧
    (∀ obj, eCA.describe 0 = (obj, none) →
      EndsAfterOneDescribe (WaitForSlbCACertificate K eCA id K.Deleted timeout (fuel + 1))
        Outcome.success) ∧
    (∀ obj, eSC.describe 0 = (some obj, none) → obj.ServerCertificateId = id →
      EndsAfterOneDescribe (WaitForSlbServerCertificate K eSC id K.Deleted timeout (fuel + 1))
        Outcome.success) := by
  refine ⟨fun obj hd => ?_, fun obj hd hid => ?_, fun obj hd => ?_, fun obj hd hid => ?_⟩
  · simp [EndsAfterOneDescribe, WaitForSlbAcl, pollLoop, WaitForSlbAcl.poll,
      Remote.doDescribe, WaitRun.init, hd]
  · simp [EndsAfterOneDescribe, WaitForSlbServerGroup, pollLoop, WaitForSlbServerGroup.poll,
      Remote.doDescribe, WaitRun.init, hd, hid]
  · simp [EndsAfterOneDescribe, WaitForSlbCACertificate, pollLoop,
      WaitForSlbCACertificate.poll, Remote.doDescribe, WaitRun.init, hd]
  · simp [EndsAfterOneDescribe, WaitForSlbServerCertificate, pollLoop,
      WaitForSlbServerCertificate.poll, Remote.doDescribe, WaitRun.init, hd, hid]

/-- C11 does not hold of the code: with target `Deleted`, a timeout of 10 seconds
and a Describe that succeeds with the object still present under the requested
id, `WaitForSlbAcl`, `WaitForSlbServerGroup`, `WaitForSlbCACertificate` and
`WaitForSlbServerCertificate` return success after that one Describe call,
without a deadline check and without polling again. -/
theorem waiters_succeed_on_present_object :
    EndsAfterOneDescribe (WaitForSlbAcl samplePkg
      (sampleRemoteConst (Option DescribeAccessControlListAttributeResponse)
        (some ⟨"acl-1"⟩, none)) "acl-1" samplePkg.Deleted 10 1) Outcome.success ∧
    EndsAfterOneDescribe (WaitForSlbServerGroup samplePkg
      (sampleRemoteConst (Option DescribeVServerGroupAttributeResponse)
        (some ⟨"rsp-1"⟩, none)) "rsp-1" samplePkg.Deleted 10 1) Outcome.success ∧
    EndsAfterOneDescribe (WaitForSlbCACertificate samplePkg
      (sampleRemoteConst (Option CACertificate)
        (some ⟨"ca-1"⟩, none)) "ca-1" samplePkg.Deleted 10 1) Outcome.success ∧
    EndsAfterOneDescribe (WaitForSlbServerCertificate samplePkg
      (sampleRemoteConst (Option ServerCertificate)
        (some ⟨"sc-1"⟩, none)) "sc-1" samplePkg.Deleted 10 1) Outcome.success := by
  unfold EndsAfterOneDescribe
  refine ⟨by decide, by decide, by decide, by decide⟩

/-- C12, as amended: when Describe fails with an error classified as not-found
and the target is not `Deleted`, `WaitForSlb`, `WaitForSlbRule`,
`WaitForSlbServerGroup` and `WaitForSlbListener` (for an error that does not
match `LoadBalancerNotFound`) end the wait at that poll with `WrapError` of the
error, without polling again; `WaitForSlbAcl` and `WaitForSlbCACertificate` do
not return an error for that poll while the deadline has not passed: they poll
again, `WaitForSlbAcl` after one sleep of `DefaultIntervalShort` seconds. -/
theorem wait_absent_other_target {ε : Type} (K : Pkg ε)
    (eSlb : Remote (Option DescribeLoadBalancerAttributeResponse) ε)
    (eRule : Remote (Option DescribeRuleAttributeResponse) ε)
    (eSG : Remote (Option DescribeVServerGroupAttributeResponse) ε)
    (eL : Remote Listener ε)
    (eAcl : Remote (Option DescribeAccessControlListAttributeResponse) ε)
    (eCA : Remote (Option CACertificate) ε)
    (id status : String) (deadline : Int) (r : WaitRun) (e : ε)
    (hnf : K.NotFoundError e = true) (hst : status ≠ K.Deleted) :
    ((eSlb.describe r.describes).2 = some e →
      WaitForSlb.poll K eSlb status deadline r
        = ((eSlb.doDescribe r).1, some (Outcome.failure (K.WrapError e)))) ∧
    ((eRule.describe r.describes).2 = some e →
      WaitForSlbRule.poll K eRule id status deadline r
        = ((eRule.doDescribe r).1, some (Outcome.failure (K.WrapError e)))) ∧
    ((eSG.describe r.describes).2 = some e →
      WaitForSlbServerGroup.poll K eSG id status deadline r
        = ((eSG.doDescribe r).1, some (Outcome.failure (K.WrapError e)))) ∧
    ((eL.describe r.describes).2 = some e →
      K.IsExceptedErrors e [K.LoadBalancerNotFound] = false →
      WaitForSlbListener.poll K eL status deadline r
        = ((eL.doDescribe r).1, some (Outcome.failure (K.WrapError e)))) ∧
    ((eAcl.describe r.describes).2 = some e → ¬ eAcl.now r.clock > deadline →
      (WaitForSlbAcl.poll K eAcl id status deadline r).2 = none ∧
      sleepsOf (WaitForSlbAcl.poll K eAcl id status deadline r).1.trace
        = sleepsOf r.trace ++ [K.DefaultIntervalShort * Second]) ∧
    ((eCA.describe r.describes).2 = some e → ¬ eCA.now r.clock > deadline →
      (WaitForSlbCACertificate.poll K eCA id status deadline r).2 = none ∧
      sleepsOf (WaitForSlbCACertificate.poll K eCA id status deadline r).1.trace
        = sleepsOf r.trace) := by
  refine ⟨fun hd => ?_, fun hd => ?_, fun hd => ?_, fun hd hlb => ?_, fun hd hl => ?_,
    fun hd hl => ?_⟩
  · cases hdesc : eSlb.describe r.describes with
    | mk obj err =>
      rw [hdesc] at hd; simp only at hd; subst hd
      simp [WaitForSlb.poll, Remote.doDescribe, hdesc, hnf, hst]
  · cases hdesc : eRule.describe r.describes with
    | mk obj err =>
      rw [hdesc] at hd; simp only at hd; subst hd
      simp [WaitForSlbRule.poll, Remote.doDescribe, hdesc, hnf, hst]
  · cases hdesc : eSG.describe r.describes with
    | mk obj err =>
      rw [hdesc] at hd; simp only at hd; subst hd
      simp [WaitForSlbServerGroup.poll, Remote.doDescribe, hdesc, hnf, hst]
  · cases hdesc : eL.describe r.describes with
    | mk obj err =>
      rw [hdesc] at hd; simp only at hd; subst hd
      simp [WaitForSlbListener.poll, Remote.doDescribe, hdesc, hnf, hst, hlb]
  · cases hdesc : eAcl.describe r.describes with
    | mk obj err =>
      rw [hdesc] at hd; simp only at hd; subst hd
      simp [WaitForSlbAcl.poll, Remote.doDescribe, Remote.after, WaitRun.doSleep, hdesc, hnf,
        hst, hl, sleepsOf_append, sleepsOf]
  · cases hdesc : eCA.describe r.describes with
    | mk obj err =>
      rw [hdesc] at hd; simp only at hd; subst hd
      simp [WaitForSlbCACertificate.poll, Remote.doDescribe, Remote.after, hdesc, hnf,
        hst, hl, sleepsOf_append, sleepsOf]

/-- C12 at the first poll of a wait for `active` with a deadline of 10 seconds, on
the sample clock and a Describe that returns a not-found error: four waiters
end with the error at once, `WaitForSlbAcl` and `WaitForSlbCACertificate` poll
again. -/
theorem wait_absent_other_target_witness :
    samplePkg.NotFoundError sampleNotFound = true ∧ "active" ≠ samplePkg.Deleted ∧
    samplePkg.IsExceptedErrors sampleNotFound [samplePkg.LoadBalancerNotFound] = false ∧
    ¬ sampleClock 1 > 10 * Second ∧
    WaitForSlb.poll samplePkg
      (sampleRemoteConst (Option DescribeLoadBalancerAttributeResponse)
        (none, some sampleNotFound)) "active" (10 * Second) WaitRun.init
      = (⟨1, 1, [Event.describe]⟩, some (Outcome.failure sampleNotFound)) ∧
    WaitForSlbRule.poll samplePkg
      (sampleRemoteConst (Option DescribeRuleAttributeResponse) (none, some sampleNotFound))
      "id-1" "active" (10 * Second) WaitRun.init
      = (⟨1, 1, [Event.describe]⟩, some (Outcome.failure sampleNotFound)) ∧
    WaitForSlbServerGroup.poll samplePkg
      (sampleRemoteConst (Option DescribeVServerGroupAttributeResponse)
        (none, some sampleNotFound)) "id-1" "active" (10 * Second) WaitRun.init
      = (⟨1, 1, [Event.describe]⟩, some (Outcome.failure sampleNotFound)) ∧
    WaitForSlbListener.poll samplePkg
      (sampleRemoteConst Listener ([], some sampleNotFound)) "active" (10 * Second)
      WaitRun.init
      = (⟨1, 1, [Event.describe]⟩, some (Outcome.failure sampleNotFound)) ∧
    (WaitForSlbAcl.poll samplePkg
      (sampleRemoteConst (Option DescribeAccessControlListAttributeResponse)
        (none, some sampleNotFound)) "id-1" "active" (10 * Second) WaitRun.init).2 = none ∧
    (WaitForSlbCACertificate.poll samplePkg
      (sampleRemoteConst (Option CACertificate) (none, some sampleNotFound))
      "id-1" "active" (10 * Second) WaitRun.init).2 = none :=
  have h := wait_absent_other_target samplePkg
    (sampleRemoteConst (Option DescribeLoadBalancerAttributeResponse) (none, some sampleNotFound))
    (sampleRemoteConst (Option DescribeRuleAttributeResponse) (none, some sampleNotFound))
    (sampleRemoteConst (Option DescribeVServerGroupAttributeResponse) (none, some sampleNotFound))
    (sampleRemoteConst Listener ([], some sampleNotFound))
    (sampleRemoteConst (Option DescribeAccessControlListAttributeResponse)
      (none, some sampleNotFound))
    (sampleRemoteConst (Option CACertificate) (none, some sampleNotFound))
    "id-1" "active" (10 * Second) WaitRun.init sampleNotFound rfl (by decide)
  ⟨rfl, by decide, by decide, by decide, h.1 rfl, h.2.1 rfl, h.2.2.1 rfl,
    h.2.2.2.1 rfl (by decide), (h.2.2.2.2.1 rfl (by decide)).1,
    (h.2.2.2.2.2 rfl (by decide)).1⟩

/-- C12 as stated fails for the four waiters it names: with target `active`, a
timeout of 10 seconds and a first Describe that returns a not-found error,
`WaitForSlb`, `WaitForSlbRule`, `WaitForSlbServerGroup` and `WaitForSlbListener`
return the error after one Describe call, before any deadline check. -/
theorem wait_absent_other_target_counterexample :
    samplePkg.NotFoundError sampleNotFound = true ∧
    EndsAfterOneDescribe (WaitForSlb samplePkg
      (sampleRemoteConst (Option DescribeLoadBalancerAttributeResponse)
        (none, some sampleNotFound)) "lb-1" "active" 10 1)
      (Outcome.failure (samplePkg.WrapError sampleNotFound)) ∧
    EndsAfterOneDescribe (WaitForSlbRule samplePkg
      (sampleRemoteConst (Option DescribeRuleAttributeResponse) (none, some sampleNotFound))
      "rule-1" "active" 10 1) (Outcome.failure (samplePkg.WrapError sampleNotFound)) ∧
    EndsAfterOneDescribe (WaitForSlbServerGroup samplePkg
      (sampleRemoteConst (Option DescribeVServerGroupAttributeResponse)
        (none, some sampleNotFound)) "rsp-1" "active" 10 1)
      (Outcome.failure (samplePkg.WrapError sampleNotFound)) ∧
    EndsAfterOneDescribe (WaitForSlbListener samplePkg
      (sampleRemoteConst Listener ([], some sampleNotFound)) "lb-1:80" "http" "active" 10 1)
      (Outcome.failure (samplePkg.WrapError sampleNotFound)) := by
  unfold EndsAfterOneDescribe
  refine ⟨rfl, by decide, by decide, by decide, by decide⟩

/-- A not-found error with a target other than `Deleted` and a nil result:
`WaitForOnsInstance`, `WaitForOnsTopic`, `WaitForOnsGroup` and
`WaitForSlbServerCertificate` go on to read a field of the nil result at that
poll; `WaitForSlbAcl` and `WaitForSlbCACertificate` read one when the deadline
has passed, to build the timeout error. -/
theorem absent_result_is_dereferenced {ε : Type} (K : Pkg ε)
    (eOI : Remote (Option OnsInstanceBaseInfoResponse) ε)
    (eOT : Remote (Option PublishInfoDo) ε)
    (eOG : Remote (Option SubscribeInfoDo) ε)
    (eSC : Remote (Option ServerCertificate) ε)
    (eAcl : Remote (Option DescribeAccessControlListAttributeResponse) ε)
    (eCA : Remote (Option CACertificate) ε)
    (id status instanceId topic : String) (deadline : Int) (r : WaitRun) (e : ε)
    (hnf : K.NotFoundError e = true) (hst : status ≠ K.Deleted) :
    (eOI.describe r.describes = (none, some e) →
      (WaitForOnsInstance.poll K eOI id status deadline r).2 = some Outcome.crash) ∧
    (eOT.describe r.describes = (none, some e) →
      (WaitForOnsTopic.poll K eOT id status instanceId topic deadline r).2
        = some Outcome.crash) ∧
    (eOG.describe r.describes = (none, some e) →
      (WaitForOnsGroup.poll K eOG id status deadline r).2 = some Outcome.crash) ∧
    (eSC.describe r.describes = (none, some e) →
      (WaitForSlbServerCertificate.poll K eSC id status deadline r).2
        = some Outcome.crash) ∧
    (eAcl.describe r.describes = (none, some e) → eAcl.now r.clock > deadline →
      (WaitForSlbAcl.poll K eAcl id status deadline r).2 = some Outcome.crash) ∧
    (eCA.describe r.describes = (none, some e) → eCA.now r.clock > deadline →
      (WaitForSlbCACertificate.poll K eCA id status deadline r).2 = some Outcome.crash) := by
  refine ⟨fun hd => ?_, fun hd => ?_, fun hd => ?_, fun hd => ?_, fun hd hl => ?_,
    fun hd hl => ?_⟩
  · simp [WaitForOnsInstance.poll, Remote.doDescribe, hd, hnf, hst]
  · simp [WaitForOnsTopic.poll, Remote.doDescribe, hd, hnf, hst]
  · simp [WaitForOnsGroup.poll, Remote.doDescribe, hd, hnf, hst]
  · simp [WaitForSlbServerCertificate.poll, Remote.doDescribe, hd, hnf, hst]
  · simp [WaitForSlbAcl.poll, Remote.doDescribe, Remote.after, WaitRun.doSleep, hd, hnf, hst,
      hl]
  · simp [WaitForSlbCACertificate.poll, Remote.doDescribe, Remote.after, hd, hnf, hst, hl]

/-- C13 does not hold of the code: with target `active`, a timeout of 10 seconds
and a Describe that returns no result and a not-found error, `WaitForOnsInstance`,
`WaitForOnsTopic`, `WaitForOnsGroup` and `WaitForSlbServerCertificate` end in a
nil dereference right after the first Describe call (at the identity
comparison), and `WaitForSlbAcl` and `WaitForSlbCACertificate` end in one at
the first poll after the deadline (building the timeout error). -/
theorem waiters_crash_on_absent_result :
    WaitForOnsInstance samplePkg
      (sampleRemoteConst (Option OnsInstanceBaseInfoResponse) (none, some sampleNotFound))
      "inst-1" "active" 10 1 = some (⟨1, 1, [Event.describe]⟩, Outcome.crash) ∧
    WaitForOnsTopic samplePkg
      (sampleRemoteConst (Option PublishInfoDo) (none, some sampleNotFound))
      "inst-1:topic-1" "active" 10 1 = some (⟨1, 1, [Event.describe]⟩, Outcome.crash) ∧
    WaitForOnsGroup samplePkg
      (sampleRemoteConst (Option SubscribeInfoDo) (none, some sampleNotFound))
      "inst-1:group-1" "active" 10 1 = some (⟨1, 1, [Event.describe]⟩, Outcome.crash) ∧
    WaitForSlbServerCertificate samplePkg
      (sampleRemoteConst (Option ServerCertificate) (none, some sampleNotFound))
      "sc-1" "active" 10 1 = some (⟨1, 1, [Event.describe]⟩, Outcome.crash) ∧
    WaitForSlbAcl samplePkg
      (sampleRemoteConst (Option DescribeAccessControlListAttributeResponse)
        (none, some sampleNotFound))
      "acl-1" "active" 10 2
      = some (⟨2, 3, [Event.describe, Event.sleep (5 * Second),
            Event.check (6 * Second) (10 * Second), Event.describe,
            Event.sleep (5 * Second), Event.check (12 * Second) (10 * Second)]⟩,
          Outcome.crash) ∧
    WaitForSlbCACertificate samplePkg
      (sampleRemoteConst (Option CACertificate) (none, some sampleNotFound))
      "ca-1" "active" 10 2
      = some (⟨2, 3, [Event.describe, Event.check (6 * Second) (10 * Second),
            Event.describe, Event.check (12 * Second) (10 * Second)]⟩,
          Outcome.crash) := by
  refine ⟨by decide, by decide, by decide, by decide, by decide, by decide⟩

set_option maxRecDepth 100000 in
/-- C14 does not hold of the code: `WaitSlbAttribute`, on a load balancer to which
an instance of `instanceSet` stays attached, and `WaitForSlbCACertificate`, on a
certificate that is not found with target `active`, make their second Describe
call right after the deadline check of the first poll: the trace of the wait
has two Describe calls and no sleep. -/
theorem waiters_poll_without_sleep :
    WaitSlbAttribute samplePkg
      (sampleRemoteConst (Option DescribeLoadBalancerAttributeResponse)
        (some sampleSlbAttached, none))
      "lb-1" (sampleSet ["i-1"]) 10 2
      = some (⟨2, 3, [Event.describe, Event.check (6 * Second) (10 * Second),
            Event.describe, Event.check (12 * Second) (10 * Second)]⟩,
          Outcome.timeout none "" "lb-1") ∧
    sleepsOf [Event.describe, Event.check (6 * Second) (10 * Second),
      Event.describe, Event.check (12 * Second) (10 * Second)] = [] ∧
    WaitForSlbCACertificate samplePkg
      (sampleRemoteConst (Option CACertificate) (none, some sampleNotFound))
      "ca-1" "active" 10 2
      = some (⟨2, 3, [Event.describe, Event.check (6 * Second) (10 * Second),
            Event.describe, Event.check (12 * Second) (10 * Second)]⟩,
          Outcome.crash) := by
  refine ⟨by decide, by decide, by decide⟩

theorem waitSlbAttribute_poll_describes {ε : Type} (K : Pkg ε)
    (env : Remote (Option DescribeLoadBalancerAttributeResponse) ε)
    (id : String) (instanceSet : SchemaSet) (deadline : Int) (r : WaitRun) :
    (WaitSlbAttribute.poll K env id instanceSet deadline r).1.describes = r.describes + 1 := by
  by_cases hl : env.now r.clock > deadline <;>
    rcases hd : env.describe r.describes with ⟨_ | obj, _ | err⟩ <;>
    simp only [WaitSlbAttribute.poll, Remote.doDescribe, Remote.after, hd, hl,
      decide_True, decide_False] <;>
    (try split) <;> rfl

/-- An item that was added to a set is contained in it. -/
theorem SchemaSet.contains_of_added (s : SchemaSet) (item : String) (h : item ∈ s.added) :
    s.Contains item = true := by
  unfold SchemaSet.Contains
  exact List.any_eq_true.mpr ⟨item, h, by simp⟩

/-- The pass of `WaitSlbAttribute` after a successful Describe before the
deadline: success when no backend server is contained in the set, the next
pass otherwise. -/
theorem waitSlbAttribute_poll_servers {ε : Type} (K : Pkg ε)
    (env : Remote (Option DescribeLoadBalancerAttributeResponse) ε)
    (id : String) (instanceSet : SchemaSet) (deadline : Int) (r : WaitRun)
    (o : DescribeLoadBalancerAttributeResponse)
    (hd : env.describe r.describes = (some o, none)) (hl : ¬ env.now r.clock > deadline) :
    WaitSlbAttribute.poll K env id instanceSet deadline r
      = ((env.after deadline (env.doDescribe r).1).1,
          if o.BackendServers.any (fun s => instanceSet.Contains s.ServerId) then none
          else some Outcome.success) := by
  by_cases hany : o.BackendServers.any (fun s => instanceSet.Contains s.ServerId) = true
  · simp only [WaitSlbAttribute.poll, Remote.doDescribe, Remote.after, hd, hl,
      decide_False, hany, if_true]
  · simp only [WaitSlbAttribute.poll, Remote.doDescribe, Remote.after, hd, hl,
      decide_False, hany]
    rfl

/-- C15, as amended: `WaitSlbAttribute` is the loop of its passes, and at any poll
of it: when Describe succeeds before the deadline, the wait ends there with
success if and only if `instanceSet.Contains(ServerId)` is false for every
backend server of the described load balancer, where `Contains` looks the id up
by its hash code; otherwise the waiter polls again; a success implies that no
backend server is one of the ids added to the set; when Describe reports
not-found the wait ends with success; when Describe fails otherwise it ends
with `WrapError` of the error; and when a successful Describe is observed after
the deadline it ends with the timeout error, whatever servers are attached. -/
theorem waitSlbAttribute_cases {ε : Type} (K : Pkg ε)
    (env : Remote (Option DescribeLoadBalancerAttributeResponse) ε)
    (id : String) (instanceSet : SchemaSet) (timeout deadline : Int) (r : WaitRun)
    (fuel : Nat) :
    (WaitSlbAttribute K env id instanceSet timeout fuel
      = pollLoop (WaitSlbAttribute.poll K env id instanceSet (deadlineAt env timeout)) fuel
          WaitRun.init) ∧
    (∀ o, env.describe r.describes = (some o, none) → ¬ env.now r.clock > deadline →
      (pollLoop (WaitSlbAttribute.poll K env id instanceSet deadline) (fuel + 1) r
          = some ((env.after deadline (env.doDescribe r).1).1, Outcome.success) ↔
        ∀ s ∈ o.BackendServers, instanceSet.Contains s.ServerId = false) ∧
      ((∃ s ∈ o.BackendServers, instanceSet.Contains s.ServerId = true) →
        pollLoop (WaitSlbAttribute.poll K env id instanceSet deadline) (fuel + 1) r
          = pollLoop (WaitSlbAttribute.poll K env id instanceSet deadline) fuel
              (env.after deadline (env.doDescribe r).1).1) ∧
      ((∀ s ∈ o.BackendServers, instanceSet.Contains s.ServerId = false) →
        ∀ s ∈ o.BackendServers, s.ServerId ∉ instanceSet.added)) ∧
    (∀ e, (env.describe r.describes).2 = some e → K.NotFoundError e = true →
      pollLoop (WaitSlbAttribute.poll K env id instanceSet deadline) (fuel + 1) r
        = some ((env.doDescribe r).1, Outcome.success)) ∧
    (∀ e, (env.describe r.describes).2 = some e → K.NotFoundError e = false →
      pollLoop (WaitSlbAttribute.poll K env id instanceSet deadline) (fuel + 1) r
        = some ((env.doDescribe r).1, Outcome.failure (K.WrapError e))) ∧
    (∀ obj, env.describe r.describes = (obj, none) → env.now r.clock > deadline →
      pollLoop (WaitSlbAttribute.poll K env id instanceSet deadline) (fuel + 1) r
        = some ((env.after deadline (env.doDescribe r).1).1,
            Outcome.timeout none K.Null id)) := by
  refine ⟨rfl, fun o hd hl => ?_, fun e hd hnf => ?_, fun e hd hnf => ?_,
    fun obj hd hl => ?_⟩
  · have hp := waitSlbAttribute_poll_servers K env id instanceSet deadline r o hd hl
    by_cases hany : o.BackendServers.any (fun s => instanceSet.Contains s.ServerId) = true
    · obtain ⟨s, hs, hc⟩ := List.any_eq_true.mp hany
      rw [if_pos hany] at hp
      have hstep : pollLoop (WaitSlbAttribute.poll K env id instanceSet deadline) (fuel + 1) r
          = pollLoop (WaitSlbAttribute.poll K env id instanceSet deadline) fuel
              (env.after deadline (env.doDescribe r).1).1 := by
        simp only [pollLoop, hp]
      refine ⟨⟨fun h => ?_, fun h => ?_⟩, fun _ => hstep, fun h => ?_⟩
      · rw [hstep] at h
        have := pollLoop_describes_lt _
          (waitSlbAttribute_poll_describes K env id instanceSet deadline) _ _ _ _ h
        omega
      · have := h s hs
        rw [hc] at this
        cases this
      · have := h s hs
        rw [hc] at this
        cases this
    · rw [if_neg hany] at hp
      have hall : ∀ s ∈ o.BackendServers, instanceSet.Contains s.ServerId = false := by
        intro s hs
        cases hc : instanceSet.Contains s.ServerId with
        | false => rfl
        | true => exact absurd (List.any_eq_true.mpr ⟨s, hs, hc⟩) hany
      refine ⟨⟨fun _ => hall, fun _ => by simp only [pollLoop, hp]⟩, fun ⟨s, hs, hc⟩ => ?_,
        fun _ s hs hmem => ?_⟩
      · have := hall s hs
        rw [hc] at this
        cases this
      · have := hall s hs
        rw [instanceSet.contains_of_added s.ServerId hmem] at this
        cases this
  · cases hdesc : env.describe r.describes with
    | mk obj err =>
      rw [hdesc] at hd; simp only at hd; subst hd
      simp [pollLoop, WaitSlbAttribute.poll, Remote.doDescribe, hdesc, hnf]
  · cases hdesc : env.describe r.describes with
    | mk obj err =>
      rw [hdesc] at hd; simp only at hd; subst hd
      simp [pollLoop, WaitSlbAttribute.poll, Remote.doDescribe, hdesc, hnf]
  · simp [pollLoop, WaitSlbAttribute.poll, Remote.doDescribe, Remote.after, hd, hl]

set_option maxRecDepth 100000 in
/-- C15 at the first poll of a wait with the instance set `i-1` and a timeout of 10
seconds (first check at 6 seconds): a load balancer with only `i-2` attached
gives success and one with `i-1` attached is polled again; a not-found error
gives success and a throttling error is returned; with a timeout of 1 second the
load balancer with only `i-2` attached gives the timeout error. -/
theorem waitSlbAttribute_cases_witness :
    ((¬ sampleClock 1 > deadlineAt (sampleRemoteConst (Option DescribeLoadBalancerAttributeResponse)
        (some sampleSlbDetached, none)) 10) ∧
      (∀ s ∈ sampleSlbDetached.BackendServers,
        (sampleSet ["i-1"]).Contains s.ServerId = false) ∧
      pollLoop (WaitSlbAttribute.poll samplePkg
        (sampleRemoteConst (Option DescribeLoadBalancerAttributeResponse)
        (some sampleSlbDetached, none))
        "lb-1" (sampleSet ["i-1"])
        (deadlineAt (sampleRemoteConst (Option DescribeLoadBalancerAttributeResponse)
        (some sampleSlbDetached, none)) 10))
        (0 + 1) WaitRun.init
        = some (((sampleRemoteConst (Option DescribeLoadBalancerAttributeResponse)
        (some sampleSlbDetached, none)).after
          (deadlineAt (sampleRemoteConst (Option DescribeLoadBalancerAttributeResponse)
        (some sampleSlbDetached, none)) 10)
          ((sampleRemoteConst (Option DescribeLoadBalancerAttributeResponse)
        (some sampleSlbDetached, none)).doDescribe WaitRun.init).1).1, Outcome.success) ∧
      WaitSlbAttribute samplePkg
        (sampleRemoteConst (Option DescribeLoadBalancerAttributeResponse)
        (some sampleSlbDetached, none))
        "lb-1" (sampleSet ["i-1"]) 10 1
        = some (⟨1, 2, [Event.describe, Event.check (6 * Second) (10 * Second)]⟩,
            Outcome.success)) ∧
    ((∃ s ∈ sampleSlbAttached.BackendServers,
        (sampleSet ["i-1"]).Contains s.ServerId = true) ∧
      pollLoop (WaitSlbAttribute.poll samplePkg
        (sampleRemoteConst (Option DescribeLoadBalancerAttributeResponse)
        (some sampleSlbAttached, none))
        "lb-1" (sampleSet ["i-1"])
        (deadlineAt (sampleRemoteConst (Option DescribeLoadBalancerAttributeResponse)
        (some sampleSlbAttached, none)) 10))
        (0 + 1) WaitRun.init
        = pollLoop (WaitSlbAttribute.poll samplePkg
        (sampleRemoteConst (Option DescribeLoadBalancerAttributeResponse)
        (some sampleSlbAttached, none))
        "lb-1" (sampleSet ["i-1"])
        (deadlineAt (sampleRemoteConst (Option DescribeLoadBalancerAttributeResponse)
        (some sampleSlbAttached, none)) 10))
        0 ((sampleRemoteConst (Option DescribeLoadBalancerAttributeResponse)
        (some sampleSlbAttached, none)).after
          (deadlineAt (sampleRemoteConst (Option DescribeLoadBalancerAttributeResponse)
        (some sampleSlbAttached, none)) 10)
          ((sampleRemoteConst (Option DescribeLoadBalancerAttributeResponse)
        (some sampleSlbAttached, none)).doDescribe WaitRun.init).1).1 ∧
      WaitSlbAttribute samplePkg
        (sampleRemoteConst (Option DescribeLoadBalancerAttributeResponse)
        (some sampleSlbAttached, none))
        "lb-1" (sampleSet ["i-1"]) 10 1 = none) ∧
    (samplePkg.NotFoundError sampleNotFound = true ∧
      pollLoop (WaitSlbAttribute.poll samplePkg
        (sampleRemoteConst (Option DescribeLoadBalancerAttributeResponse)
        (none, some sampleNotFound))
        "lb-1" (sampleSet ["i-1"])
        (deadlineAt (sampleRemoteConst (Option DescribeLoadBalancerAttributeResponse)
        (none, some sampleNotFound)) 10))
        (0 + 1) WaitRun.init
        = some (((sampleRemoteConst (Option DescribeLoadBalancerAttributeResponse)
        (none, some sampleNotFound)).doDescribe WaitRun.init).1, Outcome.success) ∧
      WaitSlbAttribute samplePkg
        (sampleRemoteConst (Option DescribeLoadBalancerAttributeResponse)
        (none, some sampleNotFound))
        "lb-1" (sampleSet ["i-1"]) 10 1
        = some (⟨1, 1, [Event.describe]⟩, Outcome.success)) ∧
    (samplePkg.NotFoundError sampleThrottled = false ∧
      pollLoop (WaitSlbAttribute.poll samplePkg
        (sampleRemoteConst (Option DescribeLoadBalancerAttributeResponse)
        (none, some sampleThrottled))
        "lb-1" (sampleSet ["i-1"])
        (deadlineAt (sampleRemoteConst (Option DescribeLoadBalancerAttributeResponse)
        (none, some sampleThrottled)) 10))
        (0 + 1) WaitRun.init
        = some (((sampleRemoteConst (Option DescribeLoadBalancerAttributeResponse)
        (none, some sampleThrottled)).doDescribe WaitRun.init).1,
            Outcome.failure (samplePkg.WrapError sampleThrottled)) ∧
      WaitSlbAttribute samplePkg
        (sampleRemoteConst (Option DescribeLoadBalancerAttributeResponse)
        (none, some sampleThrottled))
        "lb-1" (sampleSet ["i-1"]) 10 1
        = some (⟨1, 1, [Event.describe]⟩, Outcome.failure sampleThrottled)) ∧
    ((sampleClock 1 > deadlineAt (sampleRemoteConst (Option DescribeLoadBalancerAttributeResponse)
        (some sampleSlbDetached, none)) 1) ∧
      pollLoop (WaitSlbAttribute.poll samplePkg
        (sampleRemoteConst (Option DescribeLoadBalancerAttributeResponse)
        (some sampleSlbDetached, none))
        "lb-1" (sampleSet ["i-1"])
        (deadlineAt (sampleRemoteConst (Option DescribeLoadBalancerAttributeResponse)
        (some sampleSlbDetached, none)) 1))
        (0 + 1) WaitRun.init
        = some (((sampleRemoteConst (Option DescribeLoadBalancerAttributeResponse)
        (some sampleSlbDetached, none)).after
          (deadlineAt (sampleRemoteConst (Option DescribeLoadBalancerAttributeResponse)
        (some sampleSlbDetached, none)) 1)
          ((sampleRemoteConst (Option DescribeLoadBalancerAttributeResponse)
        (some sampleSlbDetached, none)).doDescribe WaitRun.init).1).1,
            Outcome.timeout none samplePkg.Null "lb-1") ∧
      WaitSlbAttribute samplePkg
        (sampleRemoteConst (Option DescribeLoadBalancerAttributeResponse)
        (some sampleSlbDetached, none))
        "lb-1" (sampleSet ["i-1"]) 1 1
        = some (⟨1, 2, [Event.describe, Event.check (6 * Second) (1 * Second)]⟩,
            Outcome.timeout none "" "lb-1")) :=
  have hearly : ¬ sampleClock 1 > deadlineAt (sampleRemoteConst (Option DescribeLoadBalancerAttributeResponse)
        (some sampleSlbDetached, none)) 10 := by decide
  have hearly2 : ¬ sampleClock 1 > deadlineAt (sampleRemoteConst (Option DescribeLoadBalancerAttributeResponse)
        (some sampleSlbAttached, none)) 10 := by decide
  have hlate : sampleClock 1 > deadlineAt (sampleRemoteConst (Option DescribeLoadBalancerAttributeResponse)
        (some sampleSlbDetached, none)) 1 := by decide
  have hnone : ∀ s ∈ sampleSlbDetached.BackendServers,
      (sampleSet ["i-1"]).Contains s.ServerId = false := by decide
  have hsome : ∃ s ∈ sampleSlbAttached.BackendServers,
      (sampleSet ["i-1"]).Contains s.ServerId = true := ⟨⟨"i-1"⟩, by decide, by decide⟩
  ⟨⟨hearly, hnone,
      (((waitSlbAttribute_cases samplePkg
      (sampleRemoteConst (Option DescribeLoadBalancerAttributeResponse)
        (some sampleSlbDetached, none))
      "lb-1" (sampleSet ["i-1"]) 10
      (deadlineAt (sampleRemoteConst (Option DescribeLoadBalancerAttributeResponse)
        (some sampleSlbDetached, none)) 10)
      WaitRun.init 0).2.1 sampleSlbDetached rfl hearly).1).mpr hnone, by decide⟩,
   ⟨hsome,
      ((waitSlbAttribute_cases samplePkg
      (sampleRemoteConst (Option DescribeLoadBalancerAttributeResponse)
        (some sampleSlbAttached, none))
      "lb-1" (sampleSet ["i-1"]) 10
      (deadlineAt (sampleRemoteConst (Option DescribeLoadBalancerAttributeResponse)
        (some sampleSlbAttached, none)) 10)
      WaitRun.init 0).2.1 sampleSlbAttached rfl hearly2).2.1 hsome, by decide⟩,
   ⟨rfl, (waitSlbAttribute_cases samplePkg
      (sampleRemoteConst (Option DescribeLoadBalancerAttributeResponse)
        (none, some sampleNotFound))
      "lb-1" (sampleSet ["i-1"]) 10
      (deadlineAt (sampleRemoteConst (Option DescribeLoadBalancerAttributeResponse)
        (none, some sampleNotFound)) 10)
      WaitRun.init 0).2.2.1 sampleNotFound rfl rfl, by decide⟩,
   ⟨rfl, (waitSlbAttribute_cases samplePkg
      (sampleRemoteConst (Option DescribeLoadBalancerAttributeResponse)
        (none, some sampleThrottled))
      "lb-1" (sampleSet ["i-1"]) 10
      (deadlineAt (sampleRemoteConst (Option DescribeLoadBalancerAttributeResponse)
        (none, some sampleThrottled)) 10)
      WaitRun.init 0).2.2.2.1 sampleThrottled rfl rfl, by decide⟩,
   ⟨hlate, (waitSlbAttribute_cases samplePkg
      (sampleRemoteConst (Option DescribeLoadBalancerAttributeResponse)
        (some sampleSlbDetached, none))
      "lb-1" (sampleSet ["i-1"]) 1
      (deadlineAt (sampleRemoteConst (Option DescribeLoadBalancerAttributeResponse)
        (some sampleSlbDetached, none)) 1)
      WaitRun.init 0).2.2.2.2 (some sampleSlbDetached) rfl hlate, by decide⟩⟩

set_option maxRecDepth 100000 in
/-- C15 as stated fails on ids with one hash code: with the instance set
`buckeroo` (hashed by CRC-32, as `schema.HashString` does) and a load balancer
whose only backend server is `plumless`, no backend server has a `ServerId`
among the ids of the set and Describe succeeds before the deadline, yet the
first poll does not return success: the two ids have the same hash code, so
`Contains` holds, and the waiter polls again until the timeout error. -/
theorem waitSlbAttribute_collision_counterexample :
    (∀ s ∈ sampleSlbPlumless.BackendServers, s.ServerId ∉ (sampleSet ["buckeroo"]).added) ∧
    sampleHashString "plumless" = 1306201125 ∧
    sampleHashString "buckeroo" = 1306201125 ∧
    (sampleSet ["buckeroo"]).Contains "plumless" = true ∧
    (¬ sampleClock 1 > deadlineAt (sampleRemoteConst
      (Option DescribeLoadBalancerAttributeResponse) (some sampleSlbPlumless, none)) 10) ∧
    WaitSlbAttribute samplePkg
      (sampleRemoteConst (Option DescribeLoadBalancerAttributeResponse)
        (some sampleSlbPlumless, none)) "lb-1" (sampleSet ["buckeroo"]) 10 1 = none ∧
    WaitSlbAttribute samplePkg
      (sampleRemoteConst (Option DescribeLoadBalancerAttributeResponse)
        (some sampleSlbPlumless, none)) "lb-1" (sampleSet ["buckeroo"]) 10 2
      = some (⟨2, 3, [Event.describe, Event.check (6 * Second) (10 * Second),
            Event.describe, Event.check (12 * Second) (10 * Second)]⟩,
          Outcome.timeout none "" "lb-1") := by
  refine ⟨by decide, by decide, by decide, by decide, by decide, by decide, by decide⟩

end Alicloud
